import Mathlib

/-!
# go-control-plane: validation of the OAuth2 HTTP filter configuration

A shallow embedding of `envoy/extensions/filters/http/oauth2/v3/oauth.pb.validate.go`; the
packages `builder` and `example` follow it, and the theorems come after all definitions.

* Go pointers are `Option`s: `nil` is `none`.
* Go strings are Lean strings, i.e. sequences of Unicode code points (protobuf `string`
  fields hold valid UTF-8), so `utf8.RuneCountInString` is `String.length` while the
  storage size in bytes is `String.utf8ByteSize`.
* A Go `error` is a `GoError`; a `nil` error is `none`.
* A `Validate` method with a pointer receiver takes an `Option` receiver.
-/

namespace envoy_extensions_filters_http_oauth2_v3

/-! ## Errors -/

/-- Go `error` values that occur in this package: the four validation error structs declared
in `oauth.pb.validate.go` (fields `field`, `reason`, `cause`, `key`) and errors produced by the
validators of other packages, which are only ever rendered (`foreign`, carrying the text of
their `Error()`). -/
inductive GoError where
  | OAuth2CredentialsValidationError (field reason : String) (cause : Option GoError)
      (key : Bool)
  | OAuth2ConfigValidationError (field reason : String) (cause : Option GoError) (key : Bool)
  | OAuth2ValidationError (field reason : String) (cause : Option GoError) (key : Bool)
  | OAuth2Credentials_CookieNamesValidationError (field reason : String)
      (cause : Option GoError) (key : Bool)
  | foreign (text : String)

namespace GoError

/-- The `Field()` accessor of the four validation error types. -/
def Field : GoError → Option String
  | OAuth2CredentialsValidationError field _ _ _ => some field
  | OAuth2ConfigValidationError field _ _ _ => some field
  | OAuth2ValidationError field _ _ _ => some field
  | OAuth2Credentials_CookieNamesValidationError field _ _ _ => some field
  | foreign _ => none

/-- The `Reason()` accessor of the four validation error types. -/
def Reason : GoError → Option String
  | OAuth2CredentialsValidationError _ reason _ _ => some reason
  | OAuth2ConfigValidationError _ reason _ _ => some reason
  | OAuth2ValidationError _ reason _ _ => some reason
  | OAuth2Credentials_CookieNamesValidationError _ reason _ _ => some reason
  | foreign _ => none

/-- The `Cause()` accessor of the four validation error types (`none` is the nil error). -/
def Cause : GoError → Option GoError
  | OAuth2CredentialsValidationError _ _ cause _ => cause
  | OAuth2ConfigValidationError _ _ cause _ => cause
  | OAuth2ValidationError _ _ cause _ => cause
  | OAuth2Credentials_CookieNamesValidationError _ _ cause _ => cause
  | foreign _ => none

/-- The `Key()` accessor of the four validation error types. -/
def Key : GoError → Option Bool
  | OAuth2CredentialsValidationError _ _ _ key => some key
  | OAuth2ConfigValidationError _ _ _ key => some key
  | OAuth2ValidationError _ _ _ key => some key
  | OAuth2Credentials_CookieNamesValidationError _ _ _ key => some key
  | foreign _ => none

/-- The `ErrorName()` method of the four validation error types. -/
def ErrorName : GoError → Option String
  | OAuth2CredentialsValidationError _ _ _ _ => some "OAuth2CredentialsValidationError"
  | OAuth2ConfigValidationError _ _ _ _ => some "OAuth2ConfigValidationError"
  | OAuth2ValidationError _ _ _ _ => some "OAuth2ValidationError"
  | OAuth2Credentials_CookieNamesValidationError _ _ _ _ =>
      some "OAuth2Credentials_CookieNamesValidationError"
  | foreign _ => none

/-- The `Error()` method. Each of the four validation error types has its own implementation;
`fmt.Sprintf(" | caused by: %v", e.cause)` renders the cause through its own `Error()`, and
`fmt.Sprintf("invalid %sT.%s: %s%s", key, e.field, e.reason, cause)` splices the four
arguments into the format string. -/
def Error : GoError → String
  | OAuth2CredentialsValidationError field reason cause key =>
      let cause := match cause with
        | some c => " | caused by: " ++ c.Error
        | none => ""
      let key := if key then "key for " else ""
      "invalid " ++ key ++ "OAuth2Credentials." ++ field ++ ": " ++ reason ++ cause
  | OAuth2ConfigValidationError field reason cause key =>
      let cause := match cause with
        | some c => " | caused by: " ++ c.Error
        | none => ""
      let key := if key then "key for " else ""
      "invalid " ++ key ++ "OAuth2Config." ++ field ++ ": " ++ reason ++ cause
  | OAuth2ValidationError field reason cause key =>
      let cause := match cause with
        | some c => " | caused by: " ++ c.Error
        | none => ""
      let key := if key then "key for " else ""
      "invalid " ++ key ++ "OAuth2." ++ field ++ ": " ++ reason ++ cause
  | OAuth2Credentials_CookieNamesValidationError field reason cause key =>
      let cause := match cause with
        | some c => " | caused by: " ++ c.Error
        | none => ""
      let key := if key then "key for " else ""
      "invalid " ++ key ++ "OAuth2Credentials_CookieNames." ++ field ++ ": " ++ reason ++ cause
  | foreign text => text

end GoError

/-! ## Messages -/

/-- Modelled from the spec: the message types of other packages that the OAuth2 messages
refer to (`core.HttpUri`, `tls.SdsSecretConfig`, `matcher.PathMatcher`,
`route.HeaderMatcher`) together with their generated `Validate` methods on a non-nil
receiver. Their declarations are not part of the embedded file, so they are parameters. -/
structure Imports where
  HttpUri : Type
  SdsSecretConfig : Type
  PathMatcher : Type
  HeaderMatcher : Type
  HttpUri_Validate : HttpUri → Option GoError
  SdsSecretConfig_Validate : SdsSecretConfig → Option GoError
  PathMatcher_Validate : PathMatcher → Option GoError
  HeaderMatcher_Validate : HeaderMatcher → Option GoError

namespace Imports

/-- Modelled from the spec: `(*HttpUri).Validate`; for all node types, validating a nil
receiver yields success. -/
def validateHttpUri (I : Imports) : Option I.HttpUri → Option GoError
  | none => none
  | some x => I.HttpUri_Validate x

/-- Modelled from the spec: `(*SdsSecretConfig).Validate`; for all node types, validating a
nil receiver yields success. -/
def validateSdsSecretConfig (I : Imports) : Option I.SdsSecretConfig → Option GoError
  | none => none
  | some x => I.SdsSecretConfig_Validate x

/-- Modelled from the spec: `(*PathMatcher).Validate`; for all node types, validating a nil
receiver yields success. -/
def validatePathMatcher (I : Imports) : Option I.PathMatcher → Option GoError
  | none => none
  | some x => I.PathMatcher_Validate x

/-- Modelled from the spec: `(*HeaderMatcher).Validate`; for all node types, validating a nil
receiver yields success. -/
def validateHeaderMatcher (I : Imports) : Option I.HeaderMatcher → Option GoError
  | none => none
  | some x => I.HeaderMatcher_Validate x

end Imports

/-- Modelled from the spec: the cookie-naming node, three optional strings. The struct is
declared in `oauth.pb.go`. -/
structure OAuth2Credentials_CookieNames where
  BearerToken : String
  OauthHmac : String
  OauthExpires : String

/-- Modelled from the spec: the populated variant of the `TokenFormation` union of the
credentials node; its one recognised variant wraps a reference to a secret. The nil
interface (no variant populated) is `none : Option (isOAuth2Credentials_TokenFormation I)`. -/
inductive isOAuth2Credentials_TokenFormation (I : Imports) where
  | OAuth2Credentials_HmacSecret (HmacSecret : Option I.SdsSecretConfig)

/-- Modelled from the spec: the credentials node. The struct is declared in `oauth.pb.go`. -/
structure OAuth2Credentials (I : Imports) where
  ClientId : String
  TokenSecret : Option I.SdsSecretConfig
  CookieNames : Option OAuth2Credentials_CookieNames
  TokenFormation : Option (isOAuth2Credentials_TokenFormation I)

/-- Modelled from the spec: the config node. The struct is declared in `oauth.pb.go`. -/
structure OAuth2Config (I : Imports) where
  TokenEndpoint : Option I.HttpUri
  AuthorizationEndpoint : String
  Credentials : Option (OAuth2Credentials I)
  RedirectUri : String
  RedirectPathMatcher : Option I.PathMatcher
  SignoutPath : Option I.PathMatcher
  ForwardBearerToken : Bool
  PassThroughMatcher : List (Option I.HeaderMatcher)

/-- Modelled from the spec: the root node, a reference wrapping a config node. The struct is
declared in `oauth.pb.go`. -/
structure OAuth2 (I : Imports) where
  Config : Option (OAuth2Config I)

/-- Modelled from the spec: the getter `(*OAuth2Credentials).GetHmacSecret`, which yields the
secret of the `HmacSecret` variant when that variant is populated and nil otherwise. -/
def OAuth2Credentials.GetHmacSecret {I : Imports} (m : OAuth2Credentials I) :
    Option I.SdsSecretConfig :=
  match m.TokenFormation with
  | some (.OAuth2Credentials_HmacSecret s) => s
  | none => none

/-! ## Library functions used by the validators -/

/-- Go `utf8.RuneCountInString`: the number of code points of the string. -/
def utf8.RuneCountInString (s : String) : Nat := s.length

/-- One item of a regular-expression bracket expression: a single character or an inclusive
range of characters. -/
inductive ClassItem where
  | single (c : Char)
  | range (lo hi : Char)

/-- Does the character belong to the item? -/
def ClassItem.contains : ClassItem → Char → Bool
  | .single c, x => x == c
  | .range lo hi, x => decide (lo.toNat ≤ x.toNat) && decide (x.toNat ≤ hi.toNat)

/-- The bracket expression of the cookie-name pattern, item by item as the regular expression
reader takes it: the ranges 0-9, a-z, A-Z, the characters ! # $ % & ' *, the range from + to
. (written +-.), and the characters ^ _ | ~ and the backquote. -/
def cookieNameClass : List ClassItem :=
  [.range '0' '9', .range 'a' 'z', .range 'A' 'Z',
   .single '!', .single '#', .single '$', .single '%', .single '&', .single (Char.ofNat 39),
   .single '*', .range '+' '.', .single '^', .single '_', .single '|', .single '~',
   .single (Char.ofNat 96)]

/-- Does the character match the bracket expression? -/
def inCookieNameClass (c : Char) : Bool := cookieNameClass.any (fun item => item.contains c)

/-- The tail of the pattern, one or more characters of the bracket expression up to the end
of the text. -/
def matchClassPlusEnd (cs : List Char) : Bool := !cs.isEmpty && cs.all inCookieNameClass

/-- The result of `MatchString` for the regular expression compiled from the literal
`^:?[0-9a-zA-Z!#$%&'*+-.^_|~`]+$`: anchored at both ends, an optional
colon (taken or skipped) followed by one or more characters of the bracket expression. -/
def cookieNameRegexp_MatchString (s : String) : Bool :=
  (match s.toList with
    | ':' :: rest => matchClassPlusEnd rest
    | _ => false)
  || matchClassPlusEnd s.toList

/-- `_OAuth2Credentials_CookieNames_BearerToken_Pattern.MatchString`. -/
def _OAuth2Credentials_CookieNames_BearerToken_Pattern (s : String) : Bool :=
  cookieNameRegexp_MatchString s

/-- `_OAuth2Credentials_CookieNames_OauthHmac_Pattern.MatchString`. -/
def _OAuth2Credentials_CookieNames_OauthHmac_Pattern (s : String) : Bool :=
  cookieNameRegexp_MatchString s

/-- `_OAuth2Credentials_CookieNames_OauthExpires_Pattern.MatchString`. -/
def _OAuth2Credentials_CookieNames_OauthExpires_Pattern (s : String) : Bool :=
  cookieNameRegexp_MatchString s

/-! ## The validators -/

/-- `(*OAuth2Credentials_CookieNames).Validate`. -/
def OAuth2Credentials_CookieNames.Validate (m : Option OAuth2Credentials_CookieNames) :
    Option GoError :=
  match m with
  | none => none
  | some m =>
    if m.BearerToken != "" && !_OAuth2Credentials_CookieNames_BearerToken_Pattern m.BearerToken
    then
      some (.OAuth2Credentials_CookieNamesValidationError "BearerToken"
        "value does not match regex pattern \"^:?[0-9a-zA-Z!#$%&'*+-.^_|~`]+$\"" none false)
    else if m.OauthHmac != "" && !_OAuth2Credentials_CookieNames_OauthHmac_Pattern m.OauthHmac
    then
      some (.OAuth2Credentials_CookieNamesValidationError "OauthHmac"
        "value does not match regex pattern \"^:?[0-9a-zA-Z!#$%&'*+-.^_|~`]+$\"" none false)
    else if m.OauthExpires != ""
        && !_OAuth2Credentials_CookieNames_OauthExpires_Pattern m.OauthExpires
    then
      some (.OAuth2Credentials_CookieNamesValidationError "OauthExpires"
        "value does not match regex pattern \"^:?[0-9a-zA-Z!#$%&'*+-.^_|~`]+$\"" none false)
    else none

/-- `(*OAuth2Credentials).Validate`. -/
def OAuth2Credentials.Validate (I : Imports) (m : Option (OAuth2Credentials I)) :
    Option GoError :=
  match m with
  | none => none
  | some m =>
    if utf8.RuneCountInString m.ClientId < 1 then
      some (.OAuth2CredentialsValidationError "ClientId"
        "value length must be at least 1 runes" none false)
    else if m.TokenSecret.isNone then
      some (.OAuth2CredentialsValidationError "TokenSecret" "value is required" none false)
    else
      match I.validateSdsSecretConfig m.TokenSecret with
      | some err =>
        some (.OAuth2CredentialsValidationError "TokenSecret"
          "embedded message failed validation" (some err) false)
      | none =>
        match OAuth2Credentials_CookieNames.Validate m.CookieNames with
        | some err =>
          some (.OAuth2CredentialsValidationError "CookieNames"
            "embedded message failed validation" (some err) false)
        | none =>
          match m.TokenFormation with
          | some (.OAuth2Credentials_HmacSecret _) =>
            if m.GetHmacSecret.isNone then
              some (.OAuth2CredentialsValidationError "HmacSecret" "value is required" none
                false)
            else
              match I.validateSdsSecretConfig m.GetHmacSecret with
              | some err =>
                some (.OAuth2CredentialsValidationError "HmacSecret"
                  "embedded message failed validation" (some err) false)
              | none => none
          | none =>
            some (.OAuth2CredentialsValidationError "TokenFormation" "value is required" none
              false)

/-- The loop `for idx, item := range m.GetPassThroughMatcher()` of `(*OAuth2Config).Validate`,
started at index `idx` on the remaining items; `fmt.Sprintf("PassThroughMatcher[%v]", idx)`
renders the index in decimal. -/
def OAuth2Config.validatePassThroughMatcher (I : Imports) :
    Nat → List (Option I.HeaderMatcher) → Option GoError
  | _, [] => none
  | idx, item :: rest =>
    match I.validateHeaderMatcher item with
    | some err =>
      some (.OAuth2ConfigValidationError ("PassThroughMatcher[" ++ toString idx ++ "]")
        "embedded message failed validation" (some err) false)
    | none => OAuth2Config.validatePassThroughMatcher I (idx + 1) rest

/-- `(*OAuth2Config).Validate`. -/
def OAuth2Config.Validate (I : Imports) (m : Option (OAuth2Config I)) : Option GoError :=
  match m with
  | none => none
  | some m =>
    match I.validateHttpUri m.TokenEndpoint with
    | some err =>
      some (.OAuth2ConfigValidationError "TokenEndpoint" "embedded message failed validation"
        (some err) false)
    | none =>
      if utf8.RuneCountInString m.AuthorizationEndpoint < 1 then
        some (.OAuth2ConfigValidationError "AuthorizationEndpoint"
          "value length must be at least 1 runes" none false)
      else if m.Credentials.isNone then
        some (.OAuth2ConfigValidationError "Credentials" "value is required" none false)
      else
        match OAuth2Credentials.Validate I m.Credentials with
        | some err =>
          some (.OAuth2ConfigValidationError "Credentials"
            "embedded message failed validation" (some err) false)
        | none =>
          if utf8.RuneCountInString m.RedirectUri < 1 then
            some (.OAuth2ConfigValidationError "RedirectUri"
              "value length must be at least 1 runes" none false)
          else if m.RedirectPathMatcher.isNone then
            some (.OAuth2ConfigValidationError "RedirectPathMatcher" "value is required" none
              false)
          else
            match I.validatePathMatcher m.RedirectPathMatcher with
            | some err =>
              some (.OAuth2ConfigValidationError "RedirectPathMatcher"
                "embedded message failed validation" (some err) false)
            | none =>
              if m.SignoutPath.isNone then
                some (.OAuth2ConfigValidationError "SignoutPath" "value is required" none
                  false)
              else
                match I.validatePathMatcher m.SignoutPath with
                | some err =>
                  some (.OAuth2ConfigValidationError "SignoutPath"
                    "embedded message failed validation" (some err) false)
                | none => OAuth2Config.validatePassThroughMatcher I 0 m.PassThroughMatcher

/-- `(*OAuth2).Validate`. -/
def OAuth2.Validate (I : Imports) (m : Option (OAuth2 I)) : Option GoError :=
  match m with
  | none => none
  | some m =>
    match OAuth2Config.Validate I m.Config with
    | some err =>
      some (.OAuth2ValidationError "Config" "embedded message failed validation" (some err)
        false)
    | none => none

/-! ## The field walk, field by field -/

/-- The fields of `OAuth2Credentials` that `Validate` visits, in the order it visits them. -/
inductive OAuth2CredentialsField where
  | ClientId
  | TokenSecret
  | CookieNames
  | TokenFormation

/-- The place of a credentials field in the walk. -/
def OAuth2CredentialsField.position : OAuth2CredentialsField → Nat
  | .ClientId => 0
  | .TokenSecret => 1
  | .CookieNames => 2
  | .TokenFormation => 3

/-- The error that the block of `(*OAuth2Credentials).Validate` for one field returns, as a
function of that field alone (`none` when the block falls through). -/
def OAuth2Credentials.fieldError (I : Imports) (m : OAuth2Credentials I) :
    OAuth2CredentialsField → Option GoError
  | .ClientId =>
    if utf8.RuneCountInString m.ClientId < 1 then
      some (.OAuth2CredentialsValidationError "ClientId"
        "value length must be at least 1 runes" none false)
    else none
  | .TokenSecret =>
    if m.TokenSecret.isNone then
      some (.OAuth2CredentialsValidationError "TokenSecret" "value is required" none false)
    else
      match I.validateSdsSecretConfig m.TokenSecret with
      | some err =>
        some (.OAuth2CredentialsValidationError "TokenSecret"
          "embedded message failed validation" (some err) false)
      | none => none
  | .CookieNames =>
    match OAuth2Credentials_CookieNames.Validate m.CookieNames with
    | some err =>
      some (.OAuth2CredentialsValidationError "CookieNames"
        "embedded message failed validation" (some err) false)
    | none => none
  | .TokenFormation =>
    match m.TokenFormation with
    | some (.OAuth2Credentials_HmacSecret _) =>
      if m.GetHmacSecret.isNone then
        some (.OAuth2CredentialsValidationError "HmacSecret" "value is required" none false)
      else
        match I.validateSdsSecretConfig m.GetHmacSecret with
        | some err =>
          some (.OAuth2CredentialsValidationError "HmacSecret"
            "embedded message failed validation" (some err) false)
        | none => none
    | none =>
      some (.OAuth2CredentialsValidationError "TokenFormation" "value is required" none false)

/-- Two credentials nodes hold the same value in the given field. -/
def OAuth2Credentials.sameField {I : Imports} (m m' : OAuth2Credentials I) :
    OAuth2CredentialsField → Prop
  | .ClientId => m.ClientId = m'.ClientId
  | .TokenSecret => m.TokenSecret = m'.TokenSecret
  | .CookieNames => m.CookieNames = m'.CookieNames
  | .TokenFormation => m.TokenFormation = m'.TokenFormation

/-- The fields of `OAuth2Config` that `Validate` visits, in the order it visits them; the
repeated field is visited element by element. `ForwardBearerToken` has no rule and is not
visited. -/
inductive OAuth2ConfigField where
  | TokenEndpoint
  | AuthorizationEndpoint
  | Credentials
  | RedirectUri
  | RedirectPathMatcher
  | SignoutPath
  | PassThroughMatcher (idx : Nat)

/-- The place of a config field in the walk. -/
def OAuth2ConfigField.position : OAuth2ConfigField → Nat
  | .TokenEndpoint => 0
  | .AuthorizationEndpoint => 1
  | .Credentials => 2
  | .RedirectUri => 3
  | .RedirectPathMatcher => 4
  | .SignoutPath => 5
  | .PassThroughMatcher idx => 6 + idx

/-- The name under which `(*OAuth2Config).Validate` reports a field; for an element of the
repeated field, `fmt.Sprintf("PassThroughMatcher[%v]", idx)`. -/
def OAuth2ConfigField.name : OAuth2ConfigField → String
  | .TokenEndpoint => "TokenEndpoint"
  | .AuthorizationEndpoint => "AuthorizationEndpoint"
  | .Credentials => "Credentials"
  | .RedirectUri => "RedirectUri"
  | .RedirectPathMatcher => "RedirectPathMatcher"
  | .SignoutPath => "SignoutPath"
  | .PassThroughMatcher idx => "PassThroughMatcher[" ++ toString idx ++ "]"

/-- The error that the block of `(*OAuth2Config).Validate` for one field (for the repeated
field: the loop body at one index) returns, as a function of that field alone (`none` when
the block falls through or the list has no such index). -/
def OAuth2Config.fieldError (I : Imports) (m : OAuth2Config I) :
    OAuth2ConfigField → Option GoError
  | .TokenEndpoint =>
    match I.validateHttpUri m.TokenEndpoint with
    | some err =>
      some (.OAuth2ConfigValidationError "TokenEndpoint" "embedded message failed validation"
        (some err) false)
    | none => none
  | .AuthorizationEndpoint =>
    if utf8.RuneCountInString m.AuthorizationEndpoint < 1 then
      some (.OAuth2ConfigValidationError "AuthorizationEndpoint"
        "value length must be at least 1 runes" none false)
    else none
  | .Credentials =>
    if m.Credentials.isNone then
      some (.OAuth2ConfigValidationError "Credentials" "value is required" none false)
    else
      match OAuth2Credentials.Validate I m.Credentials with
      | some err =>
        some (.OAuth2ConfigValidationError "Credentials" "embedded message failed validation"
          (some err) false)
      | none => none
  | .RedirectUri =>
    if utf8.RuneCountInString m.RedirectUri < 1 then
      some (.OAuth2ConfigValidationError "RedirectUri"
        "value length must be at least 1 runes" none false)
    else none
  | .RedirectPathMatcher =>
    if m.RedirectPathMatcher.isNone then
      some (.OAuth2ConfigValidationError "RedirectPathMatcher" "value is required" none false)
    else
      match I.validatePathMatcher m.RedirectPathMatcher with
      | some err =>
        some (.OAuth2ConfigValidationError "RedirectPathMatcher"
          "embedded message failed validation" (some err) false)
      | none => none
  | .SignoutPath =>
    if m.SignoutPath.isNone then
      some (.OAuth2ConfigValidationError "SignoutPath" "value is required" none false)
    else
      match I.validatePathMatcher m.SignoutPath with
      | some err =>
        some (.OAuth2ConfigValidationError "SignoutPath" "embedded message failed validation"
          (some err) false)
      | none => none
  | .PassThroughMatcher idx =>
    match m.PassThroughMatcher[idx]? with
    | some item =>
      match I.validateHeaderMatcher item with
      | some err =>
        some (.OAuth2ConfigValidationError ("PassThroughMatcher[" ++ toString idx ++ "]")
          "embedded message failed validation" (some err) false)
      | none => none
    | none => none

/-- Two config nodes hold the same value in the given field (for the repeated field: the same
element, or both none, at the given index). -/
def OAuth2Config.sameField {I : Imports} (m m' : OAuth2Config I) : OAuth2ConfigField → Prop
  | .TokenEndpoint => m.TokenEndpoint = m'.TokenEndpoint
  | .AuthorizationEndpoint => m.AuthorizationEndpoint = m'.AuthorizationEndpoint
  | .Credentials => m.Credentials = m'.Credentials
  | .RedirectUri => m.RedirectUri = m'.RedirectUri
  | .RedirectPathMatcher => m.RedirectPathMatcher = m'.RedirectPathMatcher
  | .SignoutPath => m.SignoutPath = m'.SignoutPath
  | .PassThroughMatcher idx => m.PassThroughMatcher[idx]? = m'.PassThroughMatcher[idx]?

/-! ## The rendering contract -/

/-- The formatting contract in the words of the specification:
`invalid [key for ]<TypeName>.<field>: <reason>[ | caused by: <cause-as-string>]`, one
renderer for all node types, parameterised by the type name. -/
def specRender (typeName : String) (key : Bool) (field reason : String)
    (cause : Option String) : String :=
  "invalid " ++ (if key then "key for " else "") ++ typeName ++ "." ++ field ++ ": " ++ reason
    ++ (match cause with
        | some c => " | caused by: " ++ c
        | none => "")

/-! ## The cookie-name pattern, its text and the characters of the specification -/

/-- The text from which `_OAuth2Credentials_CookieNames_BearerToken_Pattern` is compiled, the
argument of `regexp.MustCompile`. -/
def _OAuth2Credentials_CookieNames_BearerToken_Pattern_String : String :=
  "^:?[0-9a-zA-Z!#$%&'*+-.^_|~`]+$"

/-- The text from which `_OAuth2Credentials_CookieNames_OauthHmac_Pattern` is compiled, the
argument of `regexp.MustCompile`. -/
def _OAuth2Credentials_CookieNames_OauthHmac_Pattern_String : String :=
  "^:?[0-9a-zA-Z!#$%&'*+-.^_|~`]+$"

/-- The text from which `_OAuth2Credentials_CookieNames_OauthExpires_Pattern` is compiled, the
argument of `regexp.MustCompile`. -/
def _OAuth2Credentials_CookieNames_OauthExpires_Pattern_String : String :=
  "^:?[0-9a-zA-Z!#$%&'*+-.^_|~`]+$"

/-- The characters of a cookie name in the words of the specification: the digits, the ASCII
letters and the fifteen characters ! # $ % & ' * + - . ^ _ | ~ and the backquote. -/
def cookieNameAllowedChars : List Char :=
  "0123456789".toList ++ "abcdefghijklmnopqrstuvwxyz".toList
    ++ "ABCDEFGHIJKLMNOPQRSTUVWXYZ".toList ++ "!#$%&'*+-.^_|~`".toList

/-- A cookie-naming node that carries one name in `BearerToken` and nothing else. -/
def cookieNamesWithBearerToken (s : String) : OAuth2Credentials_CookieNames where
  BearerToken := s
  OauthHmac := ""
  OauthExpires := ""

/-- A cookie-naming node that carries one name in `OauthHmac` and nothing else. -/
def cookieNamesWithOauthHmac (s : String) : OAuth2Credentials_CookieNames where
  BearerToken := ""
  OauthHmac := s
  OauthExpires := ""

/-- A cookie-naming node that carries one name in `OauthExpires` and nothing else. -/
def cookieNamesWithOauthExpires (s : String) : OAuth2Credentials_CookieNames where
  BearerToken := ""
  OauthHmac := ""
  OauthExpires := s

/-! ## The key flag along a chain of causes -/

/-- Is the key flag set on the error itself or on an error of the four validation error types
further down its chain of causes? Errors of other packages end the chain. -/
def GoError.keyMarked : GoError → Bool
  | .OAuth2CredentialsValidationError _ _ cause key =>
      key || (match cause with
        | some c => c.keyMarked
        | none => false)
  | .OAuth2ConfigValidationError _ _ cause key =>
      key || (match cause with
        | some c => c.keyMarked
        | none => false)
  | .OAuth2ValidationError _ _ cause key =>
      key || (match cause with
        | some c => c.keyMarked
        | none => false)
  | .OAuth2Credentials_CookieNamesValidationError _ _ cause key =>
      key || (match cause with
        | some c => c.keyMarked
        | none => false)
  | .foreign _ => false

/-- The rendering of an error in which no segment of the four validation error types carries
the marker "key for ": "invalid ", the type name, ".", the field, ": ", the reason and the
cause rendered the same way. -/
def GoError.renderUnmarked : GoError → String
  | .OAuth2CredentialsValidationError field reason cause _ =>
      "invalid " ++ "OAuth2Credentials." ++ field ++ ": " ++ reason
        ++ (match cause with
          | some c => " | caused by: " ++ c.renderUnmarked
          | none => "")
  | .OAuth2ConfigValidationError field reason cause _ =>
      "invalid " ++ "OAuth2Config." ++ field ++ ": " ++ reason
        ++ (match cause with
          | some c => " | caused by: " ++ c.renderUnmarked
          | none => "")
  | .OAuth2ValidationError field reason cause _ =>
      "invalid " ++ "OAuth2." ++ field ++ ": " ++ reason
        ++ (match cause with
          | some c => " | caused by: " ++ c.renderUnmarked
          | none => "")
  | .OAuth2Credentials_CookieNamesValidationError field reason cause _ =>
      "invalid " ++ "OAuth2Credentials_CookieNames." ++ field ++ ": " ++ reason
        ++ (match cause with
          | some c => " | caused by: " ++ c.renderUnmarked
          | none => "")
  | .foreign text => text

/-- The validators of the imported messages return no error with the key flag set in its
chain; this holds in particular when they return errors of their own packages. -/
def Imports.Unmarked (I : Imports) : Prop :=
  (∀ x e, I.HttpUri_Validate x = some e → e.keyMarked = false)
  ∧ (∀ x e, I.SdsSecretConfig_Validate x = some e → e.keyMarked = false)
  ∧ (∀ x e, I.PathMatcher_Validate x = some e → e.keyMarked = false)
  ∧ (∀ x e, I.HeaderMatcher_Validate x = some e → e.keyMarked = false)

/-! ## Sample data -/

/-- A concrete choice of the imported messages on which the validators can be evaluated: a
message is a Boolean, `true` when its validator accepts it, and the validator of a rejected
message reports an error of its own package. -/
def sampleImports : Imports where
  HttpUri := Bool
  SdsSecretConfig := Bool
  PathMatcher := Bool
  HeaderMatcher := Bool
  HttpUri_Validate := fun ok =>
    if ok then none
    else some (.foreign "invalid HttpUri.Uri: value length must be at least 1 runes")
  SdsSecretConfig_Validate := fun ok =>
    if ok then none
    else some (.foreign "invalid SdsSecretConfig.SdsConfig: embedded message failed validation")
  PathMatcher_Validate := fun ok =>
    if ok then none else some (.foreign "invalid PathMatcher.Rule: value is required")
  HeaderMatcher_Validate := fun ok =>
    if ok then none
    else some (.foreign "invalid HeaderMatcher.Name: value length must be at least 1 bytes")

/-- A credentials node that validates. -/
def sampleCredentials : OAuth2Credentials sampleImports where
  ClientId := "client"
  TokenSecret := some true
  CookieNames := some { BearerToken := "BearerToken", OauthHmac := "", OauthExpires := ":exp" }
  TokenFormation := some (.OAuth2Credentials_HmacSecret (some true))

/-- A cookie-naming node whose `BearerToken` contains a blank. -/
def sampleBlankCookieNames : OAuth2Credentials_CookieNames where
  BearerToken := "tok en"
  OauthHmac := ""
  OauthExpires := ""

/-- A config node that validates. -/
def sampleConfig : OAuth2Config sampleImports where
  TokenEndpoint := some true
  AuthorizationEndpoint := "https://idp.example/authorize"
  Credentials := some sampleCredentials
  RedirectUri := "https://app.example/callback"
  RedirectPathMatcher := some true
  SignoutPath := some true
  ForwardBearerToken := false
  PassThroughMatcher := [some true, some true]

end envoy_extensions_filters_http_oauth2_v3

/-! # Packages `builder` and `example`

A shallow embedding of `pkg/builder/endpoint.go`, `pkg/builder/loadassignments.go` and
`internal/example/resource.go`.

* An option, a Go closure that mutates the object behind a pointer, is a function from the
  object before the call to the object after it.
* A Go slice is `Option (List _)`: `none` is the nil slice, `some []` an empty slice that is
  not nil (the two differ under the equality that the tests use).
* Go's `int` is `Int`; `uint32` values are natural numbers below 2^32.
-/

namespace gocontrolplane

/-! ## Go values -/

/-- A Go slice: `none` is the nil slice. -/
abbrev Slice (α : Type) : Type := Option (List α)

/-- Go `append(s, x)` with one element. -/
def Slice.append {α : Type} : Slice α → α → Slice α
  | none, x => some [x]
  | some l, x => some (l ++ [x])

/-- The elements of a slice; the nil slice has none. -/
def Slice.toList {α : Type} : Slice α → List α
  | none => []
  | some l => l

/-- The slice that holds the given elements after they were appended, one by one, to the nil
slice: nil when there are none. -/
def Slice.ofList {α : Type} : List α → Slice α
  | [] => none
  | x :: l => some (x :: l)

/-- The Go conversion `uint32(x)` of an `int`: the value modulo 2^32. -/
def uint32 (x : Int) : Nat := (x % 2 ^ 32).toNat

/-- A Go `map[string]int`, given by its entries, with pairwise distinct keys. The order of the
list carries no meaning. A nil map has no entries, like an empty one; the package only ranges
over the map. -/
structure GoMap where
  entries : List (String × Int)
  nodupKeys : (entries.map Prod.fst).Nodup

/-- A sequence in which a `range` loop may yield the entries of the map: Go leaves the
iteration order of a map unspecified, so every arrangement of the entries is one. -/
def GoMap.RangeOrder (m : GoMap) : Type :=
  { order : List (String × Int) // order.Perm m.entries }

/-! ## Messages of the imported packages

The messages are declared in other packages; they are given here with the fields, and the
variants of their unions, that the builders and their tests name. A pointer to a message is
an `Option`; an enumeration is its `int32` number. -/

/-- The message `wrapperspb.UInt32Value`. -/
structure wrapperspb.UInt32Value where
  Value : Nat

/-- The message `durationpb.Duration`. -/
structure durationpb.Duration where
  Seconds : Int
  Nanos : Int

/-- The function `durationpb.New` on a `time.Duration`, a number of nanoseconds: the whole
seconds, by Go's truncating division, and the remaining nanoseconds. -/
def durationpb.New (d : Int) : durationpb.Duration :=
  let nanos := d
  let secs := nanos.tdiv 1000000000
  { Seconds := secs, Nanos := nanos - secs * 1000000000 }

/-- The message `typev3.FractionalPercent`; the denominator `HUNDRED` is numbered 0. -/
structure typev3.FractionalPercent where
  Numerator : Nat
  Denominator : Int

/-- The enumeration constant `corev3.HealthStatus_HEALTHY`. -/
def corev3.HealthStatus_HEALTHY : Int := 1

/-- The enumeration constant `corev3.SocketAddress_TCP`. -/
def corev3.SocketAddress_TCP : Int := 0

/-- The union `PortSpecifier` of `corev3.SocketAddress`. -/
inductive corev3.isSocketAddress_PortSpecifier where
  | SocketAddress_PortValue (PortValue : Nat)

/-- The message `corev3.SocketAddress`. -/
structure corev3.SocketAddress where
  Protocol : Int
  Address : String
  PortSpecifier : Option corev3.isSocketAddress_PortSpecifier

/-- The union `Address` of `corev3.Address`. -/
inductive corev3.isAddress_Address where
  | Address_SocketAddress (SocketAddress : Option corev3.SocketAddress)

/-- The message `corev3.Address`. -/
structure corev3.Address where
  Address : Option corev3.isAddress_Address

/-- The message `corev3.Locality`. -/
structure corev3.Locality where
  Region : String
  Zone : String
  SubZone : String

/-- The message `envoyendpoint.Endpoint_HealthCheckConfig`. -/
structure envoyendpoint.Endpoint_HealthCheckConfig where
  PortValue : Nat
  Hostname : String
  DisableActiveHealthCheck : Bool

/-- The message `envoyendpoint.Endpoint`. -/
structure envoyendpoint.Endpoint where
  Address : Option corev3.Address
  HealthCheckConfig : Option envoyendpoint.Endpoint_HealthCheckConfig
  Hostname : String

/-- The union `HostIdentifier` of `envoyendpoint.LbEndpoint`. -/
inductive envoyendpoint.isLbEndpoint_HostIdentifier where
  | LbEndpoint_Endpoint (Endpoint : Option envoyendpoint.Endpoint)
  | LbEndpoint_EndpointName (EndpointName : String)

/-- The message `envoyendpoint.LbEndpoint`; `M` is the message `corev3.Metadata`, which the
builders only pass on. -/
structure envoyendpoint.LbEndpoint (M : Type) where
  HostIdentifier : Option envoyendpoint.isLbEndpoint_HostIdentifier
  HealthStatus : Int
  Metadata : Option M
  LoadBalancingWeight : Option wrapperspb.UInt32Value

/-- The message `envoyendpoint.LocalityLbEndpoints_LbEndpointList`. -/
structure envoyendpoint.LocalityLbEndpoints_LbEndpointList (M : Type) where
  LbEndpoints : Slice (Option (envoyendpoint.LbEndpoint M))

/-- The union `LbConfig` of `envoyendpoint.LocalityLbEndpoints`. -/
inductive envoyendpoint.isLocalityLbEndpoints_LbConfig (M : Type) where
  | LocalityLbEndpoints_LoadBalancerEndpoints
      (LoadBalancerEndpoints : Option (envoyendpoint.LocalityLbEndpoints_LbEndpointList M))

/-- The message `envoyendpoint.LocalityLbEndpoints`. -/
structure envoyendpoint.LocalityLbEndpoints (M : Type) where
  Locality : Option corev3.Locality
  LbEndpoints : Slice (Option (envoyendpoint.LbEndpoint M))
  LbConfig : Option (envoyendpoint.isLocalityLbEndpoints_LbConfig M)
  LoadBalancingWeight : Option wrapperspb.UInt32Value
  Priority : Nat

/-- The message `envoyendpoint.ClusterLoadAssignment_Policy_DropOverload`. -/
structure envoyendpoint.ClusterLoadAssignment_Policy_DropOverload where
  Category : String
  DropPercentage : Option typev3.FractionalPercent

/-- The message `envoyendpoint.ClusterLoadAssignment_Policy`. -/
structure envoyendpoint.ClusterLoadAssignment_Policy where
  DropOverloads : Slice (Option envoyendpoint.ClusterLoadAssignment_Policy_DropOverload)
  OverprovisioningFactor : Option wrapperspb.UInt32Value
  EndpointStaleAfter : Option durationpb.Duration

/-- The message `envoyendpoint.ClusterLoadAssignment`. -/
structure envoyendpoint.ClusterLoadAssignment (M : Type) where
  ClusterName : String
  Endpoints : Slice (Option (envoyendpoint.LocalityLbEndpoints M))
  Policy : Option envoyendpoint.ClusterLoadAssignment_Policy

/-- The zero value of `envoyendpoint.LbEndpoint`, as declared by `var le`. -/
def envoyendpoint.LbEndpoint.zero (M : Type) : envoyendpoint.LbEndpoint M where
  HostIdentifier := none
  HealthStatus := 0
  Metadata := none
  LoadBalancingWeight := none

/-- The zero value of `envoyendpoint.Endpoint`, as declared by `var e`. -/
def envoyendpoint.Endpoint.zero : envoyendpoint.Endpoint where
  Address := none
  HealthCheckConfig := none
  Hostname := ""

/-- The zero value of `envoyendpoint.ClusterLoadAssignment`, as declared by `var cla`. -/
def envoyendpoint.ClusterLoadAssignment.zero (M : Type) :
    envoyendpoint.ClusterLoadAssignment M where
  ClusterName := ""
  Endpoints := none
  Policy := none

/-- The zero value of `envoyendpoint.LocalityLbEndpoints`, as declared by `var lle`. -/
def envoyendpoint.LocalityLbEndpoints.zero (M : Type) :
    envoyendpoint.LocalityLbEndpoints M where
  Locality := none
  LbEndpoints := none
  LbConfig := none
  LoadBalancingWeight := none
  Priority := 0

namespace builder

/-! ## endpoint.go -/

/-- The loop `for _, opt := range opts { opt(&x) }` of the four constructors. -/
def applyOpts {X : Type} : X → List (X → X) → X
  | x, [] => x
  | x, opt :: rest => applyOpts (opt x) rest

/-- The type `LBEndpointOpt`. -/
abbrev LBEndpointOpt (M : Type) : Type := envoyendpoint.LbEndpoint M → envoyendpoint.LbEndpoint M

/-- `WithHealthStatus`. -/
def WithHealthStatus {M : Type} (hs : Int) : LBEndpointOpt M :=
  fun lbe => { lbe with HealthStatus := hs }

/-- `WithMetadata`. -/
def WithMetadata {M : Type} (md : Option M) : LBEndpointOpt M :=
  fun lbe => { lbe with Metadata := md }

/-- `WithLBWeight`. -/
def WithLBWeight {M : Type} (weight : Int) : LBEndpointOpt M :=
  fun lbe => { lbe with LoadBalancingWeight := some { Value := uint32 weight } }

/-- `WithEndpoint`. -/
def WithEndpoint {M : Type} (endpoint : Option envoyendpoint.Endpoint) : LBEndpointOpt M :=
  fun lbe => { lbe with HostIdentifier := some (.LbEndpoint_Endpoint endpoint) }

/-- `WithNamedEndpoint`. -/
def WithNamedEndpoint {M : Type} (name : String) : LBEndpointOpt M :=
  fun lbe => { lbe with HostIdentifier := some (.LbEndpoint_EndpointName name) }

/-- `NewLbEndpoint`. -/
def NewLbEndpoint {M : Type} (opts : List (LBEndpointOpt M)) : envoyendpoint.LbEndpoint M :=
  applyOpts (envoyendpoint.LbEndpoint.zero M) opts

/-- The type `EndpointOpt`. -/
abbrev EndpointOpt : Type := envoyendpoint.Endpoint → envoyendpoint.Endpoint

/-- `WithSocketAddress`. -/
def WithSocketAddress (host : String) (port : Int) (protocol : Int) : EndpointOpt :=
  fun e => { e with
    Address := some {
      Address := some (.Address_SocketAddress (some {
        Protocol := protocol
        Address := host
        PortSpecifier := some (.SocketAddress_PortValue (uint32 port)) })) } }

/-- `WithHostname`. -/
def WithHostname (hostname : String) : EndpointOpt :=
  fun e => { e with Hostname := hostname }

/-- `WithActiveHealthCheckOverrides`. -/
def WithActiveHealthCheckOverrides (hostname : String) (port : Int) (disable : Bool) :
    EndpointOpt :=
  fun e => { e with
    HealthCheckConfig := some {
      DisableActiveHealthCheck := disable
      Hostname := hostname
      PortValue := uint32 port } }

/-- `NewEndpoint`. -/
def NewEndpoint (opts : List EndpointOpt) : envoyendpoint.Endpoint :=
  applyOpts envoyendpoint.Endpoint.zero opts

/-! ## loadassignments.go -/

/-- The type `CLAOpt`. -/
abbrev CLAOpt (M : Type) : Type :=
  envoyendpoint.ClusterLoadAssignment M → envoyendpoint.ClusterLoadAssignment M

/-- The loop `for category, percent := range dropPercentages` of `WithLoadAssignmentPolicy`,
on the entries that remain to be yielded: each is appended to the drop overloads, with no
denominator supplied. -/
def appendDropOverloads :
    Slice (Option envoyendpoint.ClusterLoadAssignment_Policy_DropOverload) →
    List (String × Int) →
    Slice (Option envoyendpoint.ClusterLoadAssignment_Policy_DropOverload)
  | dropOverloads, [] => dropOverloads
  | dropOverloads, (category, percent) :: rest =>
    appendDropOverloads
      (dropOverloads.append (some {
        Category := category
        DropPercentage := some { Numerator := uint32 percent, Denominator := 0 } }))
      rest

/-- `WithLoadAssignmentPolicy`; `order` is the sequence in which the `range` loop of this
call yields the entries of `dropPercentages`. -/
def WithLoadAssignmentPolicy {M : Type} (overprovisionFactor : Int) (staleFactor : Int)
    (dropPercentages : GoMap) (order : dropPercentages.RangeOrder) : CLAOpt M :=
  fun cla =>
    let policy : envoyendpoint.ClusterLoadAssignment_Policy := {
      OverprovisioningFactor := some { Value := uint32 overprovisionFactor }
      EndpointStaleAfter := some (durationpb.New staleFactor)
      DropOverloads := some [] }
    { cla with
      Policy := some { policy with
        DropOverloads := appendDropOverloads policy.DropOverloads order.val } }

/-- `WithClusterName`. -/
def WithClusterName {M : Type} (name : String) : CLAOpt M :=
  fun cla => { cla with ClusterName := name }

/-- `WithLocalityLBEndpoints`. -/
def WithLocalityLBEndpoints {M : Type}
    (llEndpoints : Slice (Option (envoyendpoint.LocalityLbEndpoints M))) : CLAOpt M :=
  fun cla => { cla with Endpoints := llEndpoints }

/-- `NewLoadAssignment`. -/
def NewLoadAssignment {M : Type} (opts : List (CLAOpt M)) :
    envoyendpoint.ClusterLoadAssignment M :=
  applyOpts (envoyendpoint.ClusterLoadAssignment.zero M) opts

/-- The type `LLEOpt`. -/
abbrev LLEOpt (M : Type) : Type :=
  envoyendpoint.LocalityLbEndpoints M → envoyendpoint.LocalityLbEndpoints M

/-- `WithLocality`. -/
def WithLocality {M : Type} (region zone subzone : String) : LLEOpt M :=
  fun lle => { lle with
    Locality := some { Region := region, Zone := zone, SubZone := subzone } }

/-- `WithPriority`. -/
def WithPriority {M : Type} (priority : Int) : LLEOpt M :=
  fun lle => { lle with Priority := uint32 priority }

/-- `WithLocalityLBWeight`. -/
def WithLocalityLBWeight {M : Type} (weight : Int) : LLEOpt M :=
  fun lle => { lle with LoadBalancingWeight := some { Value := uint32 weight } }

/-- `WithEndpoints`. -/
def WithEndpoints {M : Type} (endpoints : Slice (Option (envoyendpoint.LbEndpoint M))) :
    LLEOpt M :=
  fun lle => { lle with LbEndpoints := endpoints }

/-- `WithLoadBalancedEndpoints`. -/
def WithLoadBalancedEndpoints {M : Type}
    (endpoints : Slice (Option (envoyendpoint.LbEndpoint M))) : LLEOpt M :=
  fun lle => { lle with
    LbConfig := some (.LocalityLbEndpoints_LoadBalancerEndpoints
      (some { LbEndpoints := endpoints })) }

/-- `NewLocalityEndpoints`. -/
def NewLocalityEndpoints {M : Type} (opts : List (LLEOpt M)) :
    envoyendpoint.LocalityLbEndpoints M :=
  applyOpts (envoyendpoint.LocalityLbEndpoints.zero M) opts

/-! ## The options of each family and the field that each writes -/

/-- The fields of `envoyendpoint.LbEndpoint`. -/
inductive LbEndpointField where
  | HostIdentifier
  | HealthStatus
  | Metadata
  | LoadBalancingWeight

/-- Two objects hold the same value in the given field. -/
def LbEndpointField.agree {M : Type} (f : LbEndpointField)
    (a b : envoyendpoint.LbEndpoint M) : Prop :=
  match f with
  | .HostIdentifier => a.HostIdentifier = b.HostIdentifier
  | .HealthStatus => a.HealthStatus = b.HealthStatus
  | .Metadata => a.Metadata = b.Metadata
  | .LoadBalancingWeight => a.LoadBalancingWeight = b.LoadBalancingWeight

/-- A call of one of the option functions of the `LbEndpoint` family. -/
inductive LBEndpointOption (M : Type) where
  | WithHealthStatus (hs : Int)
  | WithMetadata (md : Option M)
  | WithLBWeight (weight : Int)
  | WithEndpoint (endpoint : Option envoyendpoint.Endpoint)
  | WithNamedEndpoint (name : String)

/-- The option that the call returns. -/
def LBEndpointOption.opt {M : Type} : LBEndpointOption M → LBEndpointOpt M
  | .WithHealthStatus hs => builder.WithHealthStatus hs
  | .WithMetadata md => builder.WithMetadata md
  | .WithLBWeight weight => builder.WithLBWeight weight
  | .WithEndpoint endpoint => builder.WithEndpoint endpoint
  | .WithNamedEndpoint name => builder.WithNamedEndpoint name

/-- The field that the option assigns. -/
def LBEndpointOption.target {M : Type} : LBEndpointOption M → LbEndpointField
  | .WithHealthStatus _ => .HealthStatus
  | .WithMetadata _ => .Metadata
  | .WithLBWeight _ => .LoadBalancingWeight
  | .WithEndpoint _ => .HostIdentifier
  | .WithNamedEndpoint _ => .HostIdentifier

/-- The fields of `envoyendpoint.Endpoint`. -/
inductive EndpointField where
  | Address
  | HealthCheckConfig
  | Hostname

/-- Two objects hold the same value in the given field. -/
def EndpointField.agree (f : EndpointField) (a b : envoyendpoint.Endpoint) : Prop :=
  match f with
  | .Address => a.Address = b.Address
  | .HealthCheckConfig => a.HealthCheckConfig = b.HealthCheckConfig
  | .Hostname => a.Hostname = b.Hostname

/-- A call of one of the option functions of the `Endpoint` family. -/
inductive EndpointOption where
  | WithSocketAddress (host : String) (port : Int) (protocol : Int)
  | WithHostname (hostname : String)
  | WithActiveHealthCheckOverrides (hostname : String) (port : Int) (disable : Bool)

/-- The option that the call returns. -/
def EndpointOption.opt : EndpointOption → EndpointOpt
  | .WithSocketAddress host port protocol => builder.WithSocketAddress host port protocol
  | .WithHostname hostname => builder.WithHostname hostname
  | .WithActiveHealthCheckOverrides hostname port disable =>
      builder.WithActiveHealthCheckOverrides hostname port disable

/-- The field that the option assigns. -/
def EndpointOption.target : EndpointOption → EndpointField
  | .WithSocketAddress _ _ _ => .Address
  | .WithHostname _ => .Hostname
  | .WithActiveHealthCheckOverrides _ _ _ => .HealthCheckConfig

/-- The fields of `envoyendpoint.ClusterLoadAssignment`. -/
inductive ClusterLoadAssignmentField where
  | ClusterName
  | Endpoints
  | Policy

/-- Two objects hold the same value in the given field. -/
def ClusterLoadAssignmentField.agree {M : Type} (f : ClusterLoadAssignmentField)
    (a b : envoyendpoint.ClusterLoadAssignment M) : Prop :=
  match f with
  | .ClusterName => a.ClusterName = b.ClusterName
  | .Endpoints => a.Endpoints = b.Endpoints
  | .Policy => a.Policy = b.Policy

/-- A call of one of the option functions of the `ClusterLoadAssignment` family; for
`WithLoadAssignmentPolicy`, together with the order in which its loop yields the map. -/
inductive CLAOption (M : Type) where
  | WithLoadAssignmentPolicy (overprovisionFactor : Int) (staleFactor : Int)
      (dropPercentages : GoMap) (order : dropPercentages.RangeOrder)
  | WithClusterName (name : String)
  | WithLocalityLBEndpoints (llEndpoints : Slice (Option (envoyendpoint.LocalityLbEndpoints M)))

/-- The option that the call returns. -/
def CLAOption.opt {M : Type} : CLAOption M → CLAOpt M
  | .WithLoadAssignmentPolicy overprovisionFactor staleFactor dropPercentages order =>
      builder.WithLoadAssignmentPolicy overprovisionFactor staleFactor dropPercentages order
  | .WithClusterName name => builder.WithClusterName name
  | .WithLocalityLBEndpoints llEndpoints => builder.WithLocalityLBEndpoints llEndpoints

/-- The field that the option assigns. -/
def CLAOption.target {M : Type} : CLAOption M → ClusterLoadAssignmentField
  | .WithLoadAssignmentPolicy _ _ _ _ => .Policy
  | .WithClusterName _ => .ClusterName
  | .WithLocalityLBEndpoints _ => .Endpoints

/-- The fields of `envoyendpoint.LocalityLbEndpoints`. -/
inductive LocalityLbEndpointsField where
  | Locality
  | LbEndpoints
  | LbConfig
  | LoadBalancingWeight
  | Priority

/-- Two objects hold the same value in the given field. -/
def LocalityLbEndpointsField.agree {M : Type} (f : LocalityLbEndpointsField)
    (a b : envoyendpoint.LocalityLbEndpoints M) : Prop :=
  match f with
  | .Locality => a.Locality = b.Locality
  | .LbEndpoints => a.LbEndpoints = b.LbEndpoints
  | .LbConfig => a.LbConfig = b.LbConfig
  | .LoadBalancingWeight => a.LoadBalancingWeight = b.LoadBalancingWeight
  | .Priority => a.Priority = b.Priority

/-- A call of one of the option functions of the `LocalityLbEndpoints` family. -/
inductive LLEOption (M : Type) where
  | WithLocality (region zone subzone : String)
  | WithPriority (priority : Int)
  | WithLocalityLBWeight (weight : Int)
  | WithEndpoints (endpoints : Slice (Option (envoyendpoint.LbEndpoint M)))
  | WithLoadBalancedEndpoints (endpoints : Slice (Option (envoyendpoint.LbEndpoint M)))

/-- The option that the call returns. -/
def LLEOption.opt {M : Type} : LLEOption M → LLEOpt M
  | .WithLocality region zone subzone => builder.WithLocality region zone subzone
  | .WithPriority priority => builder.WithPriority priority
  | .WithLocalityLBWeight weight => builder.WithLocalityLBWeight weight
  | .WithEndpoints endpoints => builder.WithEndpoints endpoints
  | .WithLoadBalancedEndpoints endpoints => builder.WithLoadBalancedEndpoints endpoints

/-- The field that the option assigns. -/
def LLEOption.target {M : Type} : LLEOption M → LocalityLbEndpointsField
  | .WithLocality _ _ _ => .Locality
  | .WithPriority _ => .Priority
  | .WithLocalityLBWeight _ => .LoadBalancingWeight
  | .WithEndpoints _ => .LbEndpoints
  | .WithLoadBalancedEndpoints _ => .LbConfig

/-! ## Sample data of the tests -/

/-- The map `{"throttle": 10, "lb": 50}` of the load-assignment tests. -/
def testDropPercentages : GoMap where
  entries := [("throttle", 10), ("lb", 50)]
  nodupKeys := by decide

/-- The run in which the loop yields "throttle" before "lb". -/
def throttleFirst : testDropPercentages.RangeOrder :=
  ⟨[("throttle", 10), ("lb", 50)], List.Perm.refl _⟩

/-- The run in which the loop yields "lb" before "throttle". -/
def lbFirst : testDropPercentages.RangeOrder :=
  ⟨[("lb", 50), ("throttle", 10)], List.Perm.swap _ _ _⟩

/-- The endpoint `&envoyendpoint.Endpoint{Hostname: hostname}` of the endpoint tests. -/
def testEndpoint : envoyendpoint.Endpoint where
  Address := none
  HealthCheckConfig := none
  Hostname := "my-hostname.com"

/-- One hour as a `time.Duration`, in nanoseconds. -/
def time.Hour : Int := 3600000000000

end builder

end gocontrolplane

namespace gocontrolplane

/-! ## Messages built by the example

As above, the messages of the imported packages are given with the fields, and the variants
of their unions, that `resource.go` names. -/

/-- The message `core.GrpcService_EnvoyGrpc`. -/
structure corev3.GrpcService_EnvoyGrpc where
  ClusterName : String

/-- The union `TargetSpecifier` of `core.GrpcService`. -/
inductive corev3.isGrpcService_TargetSpecifier where
  | GrpcService_EnvoyGrpc_ (EnvoyGrpc : Option corev3.GrpcService_EnvoyGrpc)

/-- The message `core.GrpcService`. -/
structure corev3.GrpcService where
  TargetSpecifier : Option corev3.isGrpcService_TargetSpecifier

/-- The message `core.ApiConfigSource`. -/
structure corev3.ApiConfigSource where
  ApiType : Int
  TransportApiVersion : Int
  GrpcServices : Slice (Option corev3.GrpcService)
  SetNodeOnFirstMessageOnly : Bool

/-- The union `ConfigSourceSpecifier` of `core.ConfigSource`. -/
inductive corev3.isConfigSource_ConfigSourceSpecifier where
  | ConfigSource_ApiConfigSource (ApiConfigSource : Option corev3.ApiConfigSource)

/-- The message `core.ConfigSource`. -/
structure corev3.ConfigSource where
  ConfigSourceSpecifier : Option corev3.isConfigSource_ConfigSourceSpecifier
  ResourceApiVersion : Int

/-- The enumeration constant `core.ApiConfigSource_GRPC`. -/
def corev3.ApiConfigSource_GRPC : Int := 2

/-- The union `ClusterDiscoveryType` of `cluster.Cluster`; the field `Type` of its variant is
written `Type_`. -/
inductive cluster.isCluster_ClusterDiscoveryType where
  | Cluster_Type (Type_ : Int)

/-- The message `cluster.Cluster`. -/
structure cluster.Cluster (M : Type) where
  Name : String
  ClusterDiscoveryType : Option cluster.isCluster_ClusterDiscoveryType
  ConnectTimeout : Option durationpb.Duration
  LbPolicy : Int
  LoadAssignment : Option (envoyendpoint.ClusterLoadAssignment M)
  DnsLookupFamily : Int

/-- The enumeration constant `cluster.Cluster_LOGICAL_DNS`. -/
def cluster.Cluster_LOGICAL_DNS : Int := 2

/-- The enumeration constant `cluster.Cluster_ROUND_ROBIN`. -/
def cluster.Cluster_ROUND_ROBIN : Int := 0

/-- The enumeration constant `cluster.Cluster_V4_ONLY`. -/
def cluster.Cluster_V4_ONLY : Int := 1

/-- The union `PathSpecifier` of `route.RouteMatch`. -/
inductive route.isRouteMatch_PathSpecifier where
  | RouteMatch_Prefix (Prefix : String)

/-- The message `route.RouteMatch`. -/
structure route.RouteMatch where
  PathSpecifier : Option route.isRouteMatch_PathSpecifier

/-- The union `ClusterSpecifier` of `route.RouteAction`. -/
inductive route.isRouteAction_ClusterSpecifier where
  | RouteAction_Cluster (Cluster : String)

/-- The union `HostRewriteSpecifier` of `route.RouteAction`. -/
inductive route.isRouteAction_HostRewriteSpecifier where
  | RouteAction_HostRewriteLiteral (HostRewriteLiteral : String)

/-- The message `route.RouteAction`. -/
structure route.RouteAction where
  ClusterSpecifier : Option route.isRouteAction_ClusterSpecifier
  HostRewriteSpecifier : Option route.isRouteAction_HostRewriteSpecifier

/-- The union `Action` of `route.Route`. -/
inductive route.isRoute_Action where
  | Route_Route (Route : Option route.RouteAction)

/-- The message `route.Route`. -/
structure route.Route where
  Match : Option route.RouteMatch
  Action : Option route.isRoute_Action

/-- The message `route.VirtualHost`. -/
structure route.VirtualHost where
  Name : String
  Domains : Slice String
  Routes : Slice (Option route.Route)

/-- The message `route.RouteConfiguration`. -/
structure route.RouteConfiguration where
  Name : String
  VirtualHosts : Slice (Option route.VirtualHost)

/-- The message `hcm.Rds`. -/
structure hcm.Rds where
  ConfigSource : Option corev3.ConfigSource
  RouteConfigName : String

/-- The union `RouteSpecifier` of `hcm.HttpConnectionManager`. -/
inductive hcm.isHttpConnectionManager_RouteSpecifier where
  | HttpConnectionManager_Rds (Rds : Option hcm.Rds)

/-- The message `hcm.HttpFilter`. -/
structure hcm.HttpFilter where
  Name : String

/-- The message `hcm.HttpConnectionManager`. -/
structure hcm.HttpConnectionManager where
  CodecType : Int
  StatPrefix : String
  RouteSpecifier : Option hcm.isHttpConnectionManager_RouteSpecifier
  HttpFilters : Slice (Option hcm.HttpFilter)

/-- The enumeration constant `hcm.HttpConnectionManager_AUTO`. -/
def hcm.HttpConnectionManager_AUTO : Int := 0

/-- The union `ConfigType` of `listener.Filter`; `A` is the message `anypb.Any`. -/
inductive listener.isFilter_ConfigType (A : Type) where
  | Filter_TypedConfig (TypedConfig : Option A)

/-- The message `listener.Filter`. -/
structure listener.Filter (A : Type) where
  Name : String
  ConfigType : Option (listener.isFilter_ConfigType A)

/-- The message `listener.FilterChain`. -/
structure listener.FilterChain (A : Type) where
  Filters : Slice (Option (listener.Filter A))

/-- The message `listener.Listener`. -/
structure listener.Listener (A : Type) where
  Name : String
  Address : Option corev3.Address
  FilterChains : Slice (Option (listener.FilterChain A))

/-- A value of the interface `types.Resource`, as the example builds them: a pointer to a
cluster, to a route configuration or to a listener. -/
inductive types.Resource (M A : Type) where
  | Cluster (c : cluster.Cluster M)
  | RouteConfiguration (r : route.RouteConfiguration)
  | Listener (l : listener.Listener A)

namespace internal_example

/-- What `resource.go` takes from packages outside the embedded files: the messages
`core.Metadata` and `anypb.Any`, the function `ptypes.MarshalAny` (`none` when it returns an
error), the constants `wellknown.Router`, `wellknown.HTTPConnectionManager` and
`resource.DefaultAPIVersion`, the type `cache.Snapshot` and its constructor
`cache.NewSnapshot`. -/
structure Imports where
  Metadata : Type
  Any : Type
  MarshalAny : hcm.HttpConnectionManager → Option Any
  Router : String
  HTTPConnectionManager : String
  DefaultAPIVersion : Int
  Snapshot : Type
  NewSnapshot : String → Slice (types.Resource Metadata Any) →
    Slice (types.Resource Metadata Any) → Slice (types.Resource Metadata Any) →
    Slice (types.Resource Metadata Any) → Slice (types.Resource Metadata Any) →
    Slice (types.Resource Metadata Any) → Slice (types.Resource Metadata Any) → Snapshot

/-- One second as a `time.Duration`, in nanoseconds. -/
def time.Second : Int := 1000000000

/-- The function `strconv.Itoa`: the decimal rendering of an integer. -/
def strconv.Itoa (i : Int) : String := toString i

/-- The type `snapshotRecipe`. -/
structure snapshotRecipe where
  clusterName : String
  routeName : String
  listenerName : String
  listenerPort : Nat
  upstreamHost : String
  upstreamPort : Nat

/-- `makeEndpoint`. -/
def makeEndpoint (M : Type) (r : snapshotRecipe) : envoyendpoint.ClusterLoadAssignment M where
  ClusterName := r.clusterName
  Endpoints := some [some {
    Locality := none
    LbEndpoints := some [some {
      HostIdentifier := some (.LbEndpoint_Endpoint (some {
        Address := some {
          Address := some (.Address_SocketAddress (some {
            Protocol := corev3.SocketAddress_TCP
            Address := r.upstreamHost
            PortSpecifier := some (.SocketAddress_PortValue r.upstreamPort) })) }
        HealthCheckConfig := none
        Hostname := "" }))
      HealthStatus := 0
      Metadata := none
      LoadBalancingWeight := none }]
    LbConfig := none
    LoadBalancingWeight := none
    Priority := 0 }]
  Policy := none

/-- `makeCluster`; `ptypes.DurationProto` converts like `durationpb.New`. -/
def makeCluster (M : Type) (r : snapshotRecipe) : cluster.Cluster M where
  Name := r.clusterName
  ConnectTimeout := some (durationpb.New (5 * time.Second))
  ClusterDiscoveryType := some (.Cluster_Type cluster.Cluster_LOGICAL_DNS)
  LbPolicy := cluster.Cluster_ROUND_ROBIN
  LoadAssignment := some (makeEndpoint M r)
  DnsLookupFamily := cluster.Cluster_V4_ONLY

/-- `makeRoute`. -/
def makeRoute (r : snapshotRecipe) : route.RouteConfiguration where
  Name := r.routeName
  VirtualHosts := some [some {
    Name := "local_service"
    Domains := some ["*"]
    Routes := some [some {
      Match := some { PathSpecifier := some (.RouteMatch_Prefix "/") }
      Action := some (.Route_Route (some {
        ClusterSpecifier := some (.RouteAction_Cluster r.clusterName)
        HostRewriteSpecifier := some (.RouteAction_HostRewriteLiteral r.upstreamHost) })) }] }]

/-- `makeConfigSource`. -/
def makeConfigSource (I : Imports) : corev3.ConfigSource where
  ResourceApiVersion := I.DefaultAPIVersion
  ConfigSourceSpecifier := some (.ConfigSource_ApiConfigSource (some {
    TransportApiVersion := I.DefaultAPIVersion
    ApiType := corev3.ApiConfigSource_GRPC
    SetNodeOnFirstMessageOnly := true
    GrpcServices := some [some {
      TargetSpecifier := some (.GrpcService_EnvoyGrpc_ (some { ClusterName := "xds_cluster" }))
    }] }))

/-- The HTTP filter configuration `manager` of `makeHTTPListener`. -/
def makeHTTPListener.manager (I : Imports) (r : snapshotRecipe) : hcm.HttpConnectionManager where
  CodecType := hcm.HttpConnectionManager_AUTO
  StatPrefix := "http"
  RouteSpecifier := some (.HttpConnectionManager_Rds (some {
    ConfigSource := some (makeConfigSource I)
    RouteConfigName := r.routeName }))
  HttpFilters := some [some { Name := I.Router }]

/-- `makeHTTPListener`; `none` when it panics because `ptypes.MarshalAny` returns an
error. -/
def makeHTTPListener (I : Imports) (r : snapshotRecipe) : Option (listener.Listener I.Any) :=
  match I.MarshalAny (makeHTTPListener.manager I r) with
  | none => none
  | some pbst =>
    some {
      Name := r.listenerName
      Address := some {
        Address := some (.Address_SocketAddress (some {
          Protocol := corev3.SocketAddress_TCP
          Address := "0.0.0.0"
          PortSpecifier := some (.SocketAddress_PortValue r.listenerPort) })) }
      FilterChains := some [some {
        Filters := some [some {
          Name := I.HTTPConnectionManager
          ConfigType := some (.Filter_TypedConfig (some pbst)) }] }] }

/-- `getBasicRecipes`. -/
def getBasicRecipes : List snapshotRecipe :=
  [{ clusterName := "envoy_proxy_cluster"
     routeName := "local_route_0"
     listenerName := "listener_0"
     listenerPort := 10000
     upstreamHost := "www.envoyproxy.io"
     upstreamPort := 80 },
   { clusterName := "github_proxy_cluster"
     routeName := "local_route_1"
     listenerName := "listener_1"
     listenerPort := 10001
     upstreamHost := "github.com"
     upstreamPort := 80 },
   { clusterName := "greymatter_proxy_cluster"
     routeName := "local_route_2"
     listenerName := "listener_2"
     listenerPort := 10002
     upstreamHost := "greymatter.io"
     upstreamPort := 80 },
   { clusterName := "envoy_proxy_cluster"
     routeName := "local_route_3"
     listenerName := "listener_3"
     listenerPort := 10003
     upstreamHost := "www.envoyproxy.io"
     upstreamPort := 80 },
   { clusterName := "github_proxy_cluster"
     routeName := "local_route_0"
     listenerName := "listener_4"
     listenerPort := 10004
     upstreamHost := "github.com"
     upstreamPort := 80 },
   { clusterName := "greymatter_proxy_cluster"
     routeName := "local_route"
     listenerName := "listener_5"
     listenerPort := 10005
     upstreamHost := "greymatter.io"
     upstreamPort := 80 }]

/-- The loop `for _, r := range recipes` of `createSnapshot`, on the recipes that remain:
the three slices after the loop, or `none` when `makeHTTPListener` panics. -/
def createSnapshot.loop (I : Imports) :
    Slice (types.Resource I.Metadata I.Any) → Slice (types.Resource I.Metadata I.Any) →
    Slice (types.Resource I.Metadata I.Any) → List snapshotRecipe →
    Option (Slice (types.Resource I.Metadata I.Any) × Slice (types.Resource I.Metadata I.Any)
      × Slice (types.Resource I.Metadata I.Any))
  | clusters, routes, listeners, [] => some (clusters, routes, listeners)
  | clusters, routes, listeners, r :: rest =>
    let clusters := clusters.append (.Cluster (makeCluster I.Metadata r))
    let routes := routes.append (.RouteConfiguration (makeRoute r))
    match makeHTTPListener I r with
    | none => none
    | some l => createSnapshot.loop I clusters routes (listeners.append (.Listener l)) rest

/-- `createSnapshot`; `none` when it panics. -/
def createSnapshot (I : Imports) (recipes : List snapshotRecipe) (version : Int) :
    Option I.Snapshot :=
  match createSnapshot.loop I none none none recipes with
  | none => none
  | some (clusters, routes, listeners) =>
    some (I.NewSnapshot (strconv.Itoa version) none clusters routes listeners none none none)

/-- The slice expression `s[0:high]` on a slice whose capacity is its length: the first
`high` elements, or `none` when the expression panics because `high` is out of range. -/
def sliceTo {α : Type} (s : List α) (high : Int) : Option (List α) :=
  if 0 ≤ high ∧ high ≤ s.length then some (s.take high.toNat) else none

/-- The loop `for i := 0; i < counts; i++` of `CreateSnapshots`, entered with the index `i`
and `steps` iterations to go; Go's `%` is the truncating remainder. `none` when an iteration
panics. -/
def CreateSnapshots.loop (I : Imports) (recipes : List snapshotRecipe) :
    Nat → Int → Slice I.Snapshot → Option (Slice I.Snapshot)
  | 0, _, snapshots => some snapshots
  | steps + 1, i, snapshots =>
    match sliceTo recipes (i.tmod 6) with
    | none => none
    | some firstRecipes =>
      match createSnapshot I firstRecipes i with
      | none => none
      | some s => CreateSnapshots.loop I recipes steps (i + 1) (snapshots.append s)

/-- `CreateSnapshots`: the loop runs `counts` times when `counts` is positive and not at all
otherwise. `none` when it panics. -/
def CreateSnapshots (I : Imports) (counts : Int) : Option (Slice I.Snapshot) :=
  CreateSnapshots.loop I getBasicRecipes counts.toNat 0 none

/-! ## Sample data of the example -/

/-- A snapshot as the record of the arguments from which `cache.NewSnapshot` builds it. -/
structure SnapshotRecord (M A : Type) where
  version : String
  endpoints : Slice (types.Resource M A)
  clusters : Slice (types.Resource M A)
  routes : Slice (types.Resource M A)
  listeners : Slice (types.Resource M A)
  runtimes : Slice (types.Resource M A)
  secrets : Slice (types.Resource M A)
  extensions : Slice (types.Resource M A)

/-- A concrete choice of what the example imports, on which it can be evaluated: marshalling
keeps the message as it is, and a snapshot is the record of its parts. -/
def sampleImports : Imports where
  Metadata := Unit
  Any := hcm.HttpConnectionManager
  MarshalAny := fun manager => some manager
  Router := "envoy.filters.http.router"
  HTTPConnectionManager := "envoy.filters.network.http_connection_manager"
  DefaultAPIVersion := 2
  Snapshot := SnapshotRecord Unit hcm.HttpConnectionManager
  NewSnapshot := fun version endpoints clusters routes listeners runtimes secrets extensions =>
    { version := version, endpoints := endpoints, clusters := clusters, routes := routes,
      listeners := listeners, runtimes := runtimes, secrets := secrets,
      extensions := extensions }

end internal_example

end gocontrolplane

/-! # Theorems on the OAuth2 validators -/

namespace envoy_extensions_filters_http_oauth2_v3

/-! ## Auxiliary facts -/

theorem string_length_lt_one (s : String) : s.length < 1 ↔ s = "" := by
  cases s with
  | mk l =>
    cases l with
    | nil => simp [String.length]
    | cons c cs =>
      simp only [String.length, List.length_cons]
      constructor
      · intro h; omega
      · intro h
        have h2 := congrArg String.data h
        simp at h2

theorem runeCount_lt_one (s : String) : utf8.RuneCountInString s < 1 ↔ s = "" :=
  string_length_lt_one s

theorem runeCount_eq_zero (s : String) : utf8.RuneCountInString s = 0 ↔ s = "" := by
  rw [← runeCount_lt_one]; omega

/-- `(*OAuth2Credentials).Validate` on a non-nil receiver is the first error of the walk. -/
theorem OAuth2Credentials_Validate_walk (I : Imports) (m : OAuth2Credentials I) :
    OAuth2Credentials.Validate I (some m) =
      (OAuth2Credentials.fieldError I m .ClientId).or
        ((OAuth2Credentials.fieldError I m .TokenSecret).or
          ((OAuth2Credentials.fieldError I m .CookieNames).or
            (OAuth2Credentials.fieldError I m .TokenFormation))) := by
  simp only [OAuth2Credentials.Validate, OAuth2Credentials.fieldError]
  repeat' split <;> simp_all

/-- `(*OAuth2Config).Validate` on a non-nil receiver is the first error of the walk over the
singular fields, followed by the loop over the repeated field. -/
theorem OAuth2Config_Validate_walk (I : Imports) (m : OAuth2Config I) :
    OAuth2Config.Validate I (some m) =
      (OAuth2Config.fieldError I m .TokenEndpoint).or
        ((OAuth2Config.fieldError I m .AuthorizationEndpoint).or
          ((OAuth2Config.fieldError I m .Credentials).or
            ((OAuth2Config.fieldError I m .RedirectUri).or
              ((OAuth2Config.fieldError I m .RedirectPathMatcher).or
                ((OAuth2Config.fieldError I m .SignoutPath).or
                  (OAuth2Config.validatePassThroughMatcher I 0 m.PassThroughMatcher)))))) := by
  simp only [OAuth2Config.Validate, OAuth2Config.fieldError]
  repeat' split <;> simp_all

/-- The name under which the loop reports an element starts with the letter P. -/
theorem passThroughMatcher_name_ne (t s : String) (h : s.data.head? ≠ some 'P') :
    "PassThroughMatcher[" ++ t ++ "]" ≠ s := by
  intro heq
  apply h
  rw [← heq]
  simp [String.data_append]

/-- The loop over the repeated field returns an error exactly when some element fails, and
then the error of the first failing element, named by its index. -/
theorem validatePassThroughMatcher_eq_some (I : Imports) (l : List (Option I.HeaderMatcher))
    (idx : Nat) (e : GoError) :
    OAuth2Config.validatePassThroughMatcher I idx l = some e ↔
      ∃ (i : Nat) (item : Option I.HeaderMatcher) (err : GoError),
        l[i]? = some item ∧ I.validateHeaderMatcher item = some err
        ∧ e = .OAuth2ConfigValidationError ("PassThroughMatcher[" ++ toString (idx + i) ++ "]")
            "embedded message failed validation" (some err) false
        ∧ ∀ (j : Nat) (it : Option I.HeaderMatcher), j < i → l[j]? = some it →
            I.validateHeaderMatcher it = none := by
  induction l generalizing idx with
  | nil => simp [OAuth2Config.validatePassThroughMatcher]
  | cons a rest ih =>
    simp only [OAuth2Config.validatePassThroughMatcher]
    cases hv : I.validateHeaderMatcher a with
    | none =>
      simp only []
      rw [ih]
      constructor
      · rintro ⟨i, item, err, h1, h2, h3, h4⟩
        refine ⟨i + 1, item, err, by simpa using h1, h2, ?_, ?_⟩
        · rw [h3, show idx + 1 + i = idx + (i + 1) by omega]
        · intro j it hj hit
          cases j with
          | zero =>
            simp at hit
            rw [← hit]; exact hv
          | succ j =>
            simp at hit
            exact h4 j it (by omega) hit
      · rintro ⟨i, item, err, h1, h2, h3, h4⟩
        cases i with
        | zero =>
          simp at h1
          rw [h1, h2] at hv
          cases hv
        | succ i =>
          refine ⟨i, item, err, by simpa using h1, h2, ?_, ?_⟩
          · rw [h3, show idx + 1 + i = idx + (i + 1) by omega]
          · intro j it hj hit
            exact h4 (j + 1) it (by omega) (by simpa using hit)
    | some err0 =>
      simp only []
      constructor
      · intro h
        injection h with h
        exact ⟨0, a, err0, by simp, hv, by simpa using h.symm, by intro j it hj; omega⟩
      · rintro ⟨i, item, err, h1, h2, h3, h4⟩
        cases i with
        | zero =>
          simp at h1
          rw [← h1, hv] at h2
          injection h2 with h2
          rw [h3, h2]; rfl
        | succ i =>
          have := h4 0 a (by omega) (by simp)
          rw [hv] at this
          cases this

/-- `(*OAuth2Credentials).Validate` returns the error of the first field, in the order of the
walk, whose block returns one. -/
theorem OAuth2Credentials_Validate_eq_some (I : Imports) (m : OAuth2Credentials I)
    (e : GoError) :
    OAuth2Credentials.Validate I (some m) = some e ↔
      ∃ k, OAuth2Credentials.fieldError I m k = some e
        ∧ ∀ j, j.position < k.position → OAuth2Credentials.fieldError I m j = none := by
  rw [OAuth2Credentials_Validate_walk]
  constructor
  · intro h
    cases h0 : OAuth2Credentials.fieldError I m .ClientId with
    | some e0 =>
      rw [h0] at h; simp only [Option.or_some] at h
      exact ⟨.ClientId, by rw [h0, h], by
        intro j hj; cases j <;> simp [OAuth2CredentialsField.position] at hj⟩
    | none =>
    cases h1 : OAuth2Credentials.fieldError I m .TokenSecret with
    | some e1 =>
      rw [h0, h1] at h; simp only [Option.or_some, Option.none_or] at h
      exact ⟨.TokenSecret, by rw [h1, h], by
        intro j hj; cases j <;> simp [OAuth2CredentialsField.position] at hj; assumption⟩
    | none =>
    cases h2 : OAuth2Credentials.fieldError I m .CookieNames with
    | some e2 =>
      rw [h0, h1, h2] at h; simp only [Option.or_some, Option.none_or] at h
      exact ⟨.CookieNames, by rw [h2, h], by
        intro j hj; cases j <;> simp [OAuth2CredentialsField.position] at hj <;> assumption⟩
    | none =>
      rw [h0, h1, h2] at h; simp only [Option.none_or] at h
      exact ⟨.TokenFormation, h, by
        intro j hj; cases j <;> simp [OAuth2CredentialsField.position] at hj <;> assumption⟩
  · rintro ⟨k, hk, hlt⟩
    cases k with
    | ClientId => rw [hk]; simp
    | TokenSecret =>
      rw [hlt .ClientId (by decide), hk]; simp
    | CookieNames =>
      rw [hlt .ClientId (by decide), hlt .TokenSecret (by decide), hk]; simp
    | TokenFormation =>
      rw [hlt .ClientId (by decide), hlt .TokenSecret (by decide),
        hlt .CookieNames (by decide), hk]; simp

/-- `(*OAuth2Config).Validate` returns the error of the first field, in the order of the
walk, whose block returns one. -/
theorem OAuth2Config_Validate_eq_some (I : Imports) (m : OAuth2Config I) (e : GoError) :
    OAuth2Config.Validate I (some m) = some e ↔
      ∃ k, OAuth2Config.fieldError I m k = some e
        ∧ ∀ j, j.position < k.position → OAuth2Config.fieldError I m j = none := by
  rw [OAuth2Config_Validate_walk]
  constructor
  · intro h
    cases h0 : OAuth2Config.fieldError I m .TokenEndpoint with
    | some e0 =>
      rw [h0] at h; simp only [Option.or_some] at h
      exact ⟨.TokenEndpoint, by rw [h0, h], by
        intro j hj; cases j <;> simp [OAuth2ConfigField.position] at hj⟩
    | none =>
    cases h1 : OAuth2Config.fieldError I m .AuthorizationEndpoint with
    | some e1 =>
      rw [h0, h1] at h; simp only [Option.or_some, Option.none_or] at h
      exact ⟨.AuthorizationEndpoint, by rw [h1, h], by
        intro j hj
        cases j <;> simp [OAuth2ConfigField.position] at hj; assumption⟩
    | none =>
    cases h2 : OAuth2Config.fieldError I m .Credentials with
    | some e2 =>
      rw [h0, h1, h2] at h; simp only [Option.or_some, Option.none_or] at h
      exact ⟨.Credentials, by rw [h2, h], by
        intro j hj
        cases j <;> simp [OAuth2ConfigField.position] at hj <;> first | assumption | omega⟩
    | none =>
    cases h3 : OAuth2Config.fieldError I m .RedirectUri with
    | some e3 =>
      rw [h0, h1, h2, h3] at h; simp only [Option.or_some, Option.none_or] at h
      exact ⟨.RedirectUri, by rw [h3, h], by
        intro j hj
        cases j <;> simp [OAuth2ConfigField.position] at hj <;> first | assumption | omega⟩
    | none =>
    cases h4 : OAuth2Config.fieldError I m .RedirectPathMatcher with
    | some e4 =>
      rw [h0, h1, h2, h3, h4] at h; simp only [Option.or_some, Option.none_or] at h
      exact ⟨.RedirectPathMatcher, by rw [h4, h], by
        intro j hj
        cases j <;> simp [OAuth2ConfigField.position] at hj <;> first | assumption | omega⟩
    | none =>
    cases h5 : OAuth2Config.fieldError I m .SignoutPath with
    | some e5 =>
      rw [h0, h1, h2, h3, h4, h5] at h; simp only [Option.or_some, Option.none_or] at h
      exact ⟨.SignoutPath, by rw [h5, h], by
        intro j hj
        cases j <;> simp [OAuth2ConfigField.position] at hj <;> first | assumption | omega⟩
    | none =>
      rw [h0, h1, h2, h3, h4, h5] at h; simp only [Option.none_or] at h
      obtain ⟨i, item, err, hi, hv, he, hbefore⟩ :=
        (validatePassThroughMatcher_eq_some I _ _ _).1 h
      refine ⟨.PassThroughMatcher i, ?_, ?_⟩
      · simp only [OAuth2Config.fieldError, hi, hv, he, Nat.zero_add]
      · intro j hj
        cases j with
        | PassThroughMatcher idx =>
          simp only [OAuth2ConfigField.position] at hj
          simp only [OAuth2Config.fieldError]
          cases hidx : m.PassThroughMatcher[idx]? with
          | none => rfl
          | some it => simp only [hbefore idx it (by omega) hidx]
        | _ => assumption
  · rintro ⟨k, hk, hlt⟩
    cases k with
    | TokenEndpoint => rw [hk]; simp
    | AuthorizationEndpoint =>
      rw [hlt .TokenEndpoint (by decide), hk]; simp
    | Credentials =>
      rw [hlt .TokenEndpoint (by decide), hlt .AuthorizationEndpoint (by decide), hk]; simp
    | RedirectUri =>
      rw [hlt .TokenEndpoint (by decide), hlt .AuthorizationEndpoint (by decide),
        hlt .Credentials (by decide), hk]; simp
    | RedirectPathMatcher =>
      rw [hlt .TokenEndpoint (by decide), hlt .AuthorizationEndpoint (by decide),
        hlt .Credentials (by decide), hlt .RedirectUri (by decide), hk]; simp
    | SignoutPath =>
      rw [hlt .TokenEndpoint (by decide), hlt .AuthorizationEndpoint (by decide),
        hlt .Credentials (by decide), hlt .RedirectUri (by decide),
        hlt .RedirectPathMatcher (by decide), hk]; simp
    | PassThroughMatcher i =>
      rw [hlt .TokenEndpoint (by simp only [OAuth2ConfigField.position]; omega),
        hlt .AuthorizationEndpoint (by simp only [OAuth2ConfigField.position]; omega),
        hlt .Credentials (by simp only [OAuth2ConfigField.position]; omega),
        hlt .RedirectUri (by simp only [OAuth2ConfigField.position]; omega),
        hlt .RedirectPathMatcher (by simp only [OAuth2ConfigField.position]; omega),
        hlt .SignoutPath (by simp only [OAuth2ConfigField.position]; omega)]
      simp only [Option.none_or]
      rw [validatePassThroughMatcher_eq_some]
      simp only [OAuth2Config.fieldError] at hk
      cases hi : m.PassThroughMatcher[i]? with
      | none => rw [hi] at hk; cases hk
      | some item =>
        rw [hi] at hk
        simp only [] at hk
        cases hv : I.validateHeaderMatcher item with
        | none => rw [hv] at hk; cases hk
        | some err =>
          rw [hv] at hk
          simp only [] at hk
          injection hk with hk
          refine ⟨i, item, err, hi, hv, by rw [← hk, Nat.zero_add], ?_⟩
          intro j it hj hit
          have := hlt (.PassThroughMatcher j) (by simp [OAuth2ConfigField.position]; omega)
          simp only [OAuth2Config.fieldError, hit] at this
          cases hv2 : I.validateHeaderMatcher it with
          | none => rfl
          | some err2 => rw [hv2] at this; cases this

/-- The error that the block of a config field returns carries the name of that field. -/
theorem OAuth2Config_fieldError_Field (I : Imports) (m : OAuth2Config I)
    (k : OAuth2ConfigField) (e : GoError) (h : OAuth2Config.fieldError I m k = some e) :
    e.Field = some k.name := by
  cases k <;> simp only [OAuth2Config.fieldError] at h <;> repeat' split at h
  all_goals (cases h; try rfl)

/-- The block of a credentials field reads that field only. -/
theorem OAuth2Credentials_fieldError_congr (I : Imports) (m m' : OAuth2Credentials I)
    (k : OAuth2CredentialsField) (h : OAuth2Credentials.sameField m m' k) :
    OAuth2Credentials.fieldError I m k = OAuth2Credentials.fieldError I m' k := by
  cases k <;> simp only [OAuth2Credentials.sameField] at h <;>
    simp only [OAuth2Credentials.fieldError, OAuth2Credentials.GetHmacSecret, h]

/-- The block of a config field reads that field only. -/
theorem OAuth2Config_fieldError_congr (I : Imports) (m m' : OAuth2Config I)
    (k : OAuth2ConfigField) (h : OAuth2Config.sameField m m' k) :
    OAuth2Config.fieldError I m k = OAuth2Config.fieldError I m' k := by
  cases k <;> simp only [OAuth2Config.sameField] at h <;>
    simp only [OAuth2Config.fieldError, h]

/-- Among fields placed by natural numbers, a failing field is preceded by a first failing
field. -/
theorem exists_first_failing {F : Type} (pos : F → Nat) (err : F → Option GoError) (k : F)
    (hk : err k ≠ none) :
    ∃ k', pos k' ≤ pos k ∧ err k' ≠ none ∧ ∀ j, pos j < pos k' → err j = none := by
  have main : ∀ n k, pos k = n → err k ≠ none →
      ∃ k', pos k' ≤ pos k ∧ err k' ≠ none ∧ ∀ j, pos j < pos k' → err j = none := by
    intro n
    induction n using Nat.strong_induction_on with
    | _ n ih =>
      intro k hn hk
      by_cases hall : ∀ j, pos j < pos k → err j = none
      · exact ⟨k, by omega, hk, hall⟩
      · push_neg at hall
        obtain ⟨j, hj, hne⟩ := hall
        obtain ⟨k', h1, h2, h3⟩ := ih (pos j) (by omega) j rfl hne
        exact ⟨k', by omega, h2, h3⟩
  exact main (pos k) k rfl hk

/-! ## Required references and the union -/

/-- C3: a required reference left nil is reported under the field's declared name with the
reason "value is required" and no cause: `TokenSecret` of a credentials node with a non-empty
`ClientId`, and `Credentials`, `RedirectPathMatcher`, `SignoutPath` of a config node all of
whose earlier fields pass. -/
theorem C3_required_reference (I : Imports) :
    (∀ m : OAuth2Credentials I, m.ClientId ≠ "" → m.TokenSecret = none →
      OAuth2Credentials.Validate I (some m) =
        some (.OAuth2CredentialsValidationError "TokenSecret" "value is required" none false))
    ∧ (∀ m : OAuth2Config I, I.validateHttpUri m.TokenEndpoint = none →
      m.AuthorizationEndpoint ≠ "" → m.Credentials = none →
      OAuth2Config.Validate I (some m) =
        some (.OAuth2ConfigValidationError "Credentials" "value is required" none false))
    ∧ (∀ m : OAuth2Config I, I.validateHttpUri m.TokenEndpoint = none →
      m.AuthorizationEndpoint ≠ "" → m.Credentials ≠ none →
      OAuth2Credentials.Validate I m.Credentials = none → m.RedirectUri ≠ "" →
      m.RedirectPathMatcher = none →
      OAuth2Config.Validate I (some m) =
        some (.OAuth2ConfigValidationError "RedirectPathMatcher" "value is required" none
          false))
    ∧ (∀ m : OAuth2Config I, I.validateHttpUri m.TokenEndpoint = none →
      m.AuthorizationEndpoint ≠ "" → m.Credentials ≠ none →
      OAuth2Credentials.Validate I m.Credentials = none → m.RedirectUri ≠ "" →
      m.RedirectPathMatcher ≠ none → I.validatePathMatcher m.RedirectPathMatcher = none →
      m.SignoutPath = none →
      OAuth2Config.Validate I (some m) =
        some (.OAuth2ConfigValidationError "SignoutPath" "value is required" none false)) := by
  refine ⟨?_, ?_, ?_, ?_⟩
  · intro m h1 h2
    simp [OAuth2Credentials.Validate, runeCount_eq_zero, h1, h2]
  · intro m h1 h2 h3
    simp [OAuth2Config.Validate, runeCount_eq_zero, h1, h2, h3]
  · intro m h1 h2 h3 h4 h5 h6
    simp [OAuth2Config.Validate, runeCount_eq_zero, h1, h2, h3, h4, h5, h6]
  · intro m h1 h2 h3 h4 h5 h6 h7 h8
    simp [OAuth2Config.Validate, runeCount_eq_zero, h1, h2, h3, h4, h5, h6, h7, h8]

/-- C3 at sample nodes: the sample credentials without their token secret, and the sample
config without its credentials, its redirect path matcher, its sign-out path. -/
theorem C3_required_reference_witness :
    OAuth2Credentials.Validate sampleImports
        (some { sampleCredentials with TokenSecret := none }) =
      some (.OAuth2CredentialsValidationError "TokenSecret" "value is required" none false)
    ∧ OAuth2Config.Validate sampleImports (some { sampleConfig with Credentials := none }) =
      some (.OAuth2ConfigValidationError "Credentials" "value is required" none false)
    ∧ OAuth2Config.Validate sampleImports
        (some { sampleConfig with RedirectPathMatcher := none }) =
      some (.OAuth2ConfigValidationError "RedirectPathMatcher" "value is required" none false)
    ∧ OAuth2Config.Validate sampleImports (some { sampleConfig with SignoutPath := none }) =
      some (.OAuth2ConfigValidationError "SignoutPath" "value is required" none false) :=
  ⟨(C3_required_reference sampleImports).1 { sampleCredentials with TokenSecret := none }
      (by decide) rfl,
    (C3_required_reference sampleImports).2.1 { sampleConfig with Credentials := none }
      rfl (by decide) rfl,
    (C3_required_reference sampleImports).2.2.1
      { sampleConfig with RedirectPathMatcher := none }
      rfl (by decide) (by simp [sampleConfig]) rfl (by decide) rfl,
    (C3_required_reference sampleImports).2.2.2 { sampleConfig with SignoutPath := none }
      rfl (by decide) (by simp [sampleConfig]) rfl (by decide) (by simp [sampleConfig]) rfl
      rfl⟩

/-- C4: a credentials node whose `ClientId` is non-empty, whose `TokenSecret` is non-nil and
valid, whose `CookieNames` is nil or valid and whose `TokenFormation` union has no variant
populated fails with field "TokenFormation", reason "value is required" and no cause. -/
theorem C4_union_nothing_chosen (I : Imports) (m : OAuth2Credentials I)
    (hClientId : m.ClientId ≠ "") (hSecret : m.TokenSecret ≠ none)
    (hSecretValid : I.validateSdsSecretConfig m.TokenSecret = none)
    (hCookies : m.CookieNames = none ∨
      OAuth2Credentials_CookieNames.Validate m.CookieNames = none)
    (hUnion : m.TokenFormation = none) :
    OAuth2Credentials.Validate I (some m) =
      some (.OAuth2CredentialsValidationError "TokenFormation" "value is required" none
        false) := by
  have hCookies' : OAuth2Credentials_CookieNames.Validate m.CookieNames = none := by
    rcases hCookies with h | h
    · rw [h]; rfl
    · exact h
  simp [OAuth2Credentials.Validate, runeCount_eq_zero, hClientId, hSecret, hSecretValid,
    hCookies', hUnion]

/-- C4 at the sample credentials with the union emptied. -/
theorem C4_union_nothing_chosen_witness :
    OAuth2Credentials.Validate sampleImports
        (some { sampleCredentials with TokenFormation := none }) =
      some (.OAuth2CredentialsValidationError "TokenFormation" "value is required" none
        false) :=
  C4_union_nothing_chosen sampleImports { sampleCredentials with TokenFormation := none }
    (by decide) (by simp [sampleCredentials]) rfl (Or.inr rfl) rfl

/-- C5: a credentials node whose earlier fields pass and whose `TokenFormation` holds the
`HmacSecret` variant with a nil secret fails with field "HmacSecret", reason "value is
required" and no cause; the field differs from the "TokenFormation" of the empty union. -/
theorem C5_union_chosen_incomplete (I : Imports) (m : OAuth2Credentials I)
    (hClientId : m.ClientId ≠ "") (hSecret : m.TokenSecret ≠ none)
    (hSecretValid : I.validateSdsSecretConfig m.TokenSecret = none)
    (hCookies : OAuth2Credentials_CookieNames.Validate m.CookieNames = none)
    (hUnion : m.TokenFormation = some (.OAuth2Credentials_HmacSecret none)) :
    OAuth2Credentials.Validate I (some m) =
      some (.OAuth2CredentialsValidationError "HmacSecret" "value is required" none false)
    ∧ (OAuth2Credentials.Validate I (some m)).bind GoError.Field ≠
      (OAuth2Credentials.Validate I (some { m with TokenFormation := none })).bind
        GoError.Field := by
  have h1 : OAuth2Credentials.Validate I (some m) =
      some (.OAuth2CredentialsValidationError "HmacSecret" "value is required" none
        false) := by
    simp [OAuth2Credentials.Validate, OAuth2Credentials.GetHmacSecret, runeCount_eq_zero,
      hClientId, hSecret, hSecretValid, hCookies, hUnion]
  have h2 : OAuth2Credentials.Validate I (some { m with TokenFormation := none }) =
      some (.OAuth2CredentialsValidationError "TokenFormation" "value is required" none
        false) := by
    simp [OAuth2Credentials.Validate, runeCount_eq_zero, hClientId, hSecret, hSecretValid,
      hCookies]
  refine ⟨h1, ?_⟩
  rw [h1, h2]
  decide

/-- C5 at the sample credentials with the secret of the variant removed. -/
theorem C5_union_chosen_incomplete_witness :
    OAuth2Credentials.Validate sampleImports
        (some { sampleCredentials with
          TokenFormation := some (.OAuth2Credentials_HmacSecret none) }) =
      some (.OAuth2CredentialsValidationError "HmacSecret" "value is required" none false) :=
  (C5_union_chosen_incomplete sampleImports
    { sampleCredentials with TokenFormation := some (.OAuth2Credentials_HmacSecret none) }
    (by decide) (by simp [sampleCredentials]) rfl rfl rfl).1

/-! ## Nil receivers -/

/-- C10: `Validate` on a nil node of each of the four node types returns no error. -/
theorem C10_nil_receiver (I : Imports) :
    OAuth2Credentials.Validate I none = none
    ∧ OAuth2Config.Validate I none = none
    ∧ OAuth2.Validate I none = none
    ∧ OAuth2Credentials_CookieNames.Validate none = none :=
  ⟨rfl, rfl, rfl, rfl⟩

/-! ## Embedded messages -/

/-- C2: when the walk reaches a singular child field and the child's own `Validate` returns
an error `e`, the parent returns an error of its own type with that field's name, the reason
"embedded message failed validation" and the cause `e`. The fields are `OAuth2.Config`;
`TokenEndpoint`, `Credentials`, `RedirectPathMatcher`, `SignoutPath` of the config node;
`TokenSecret`, `CookieNames`, `HmacSecret` of the credentials node. -/
theorem C2_embedded_failure_wrapping (I : Imports) (e : GoError) :
    (∀ m : OAuth2 I, OAuth2Config.Validate I m.Config = some e →
      OAuth2.Validate I (some m) =
        some (.OAuth2ValidationError "Config" "embedded message failed validation" (some e)
          false))
    ∧ (∀ m : OAuth2Config I, I.validateHttpUri m.TokenEndpoint = some e →
      OAuth2Config.Validate I (some m) =
        some (.OAuth2ConfigValidationError "TokenEndpoint"
          "embedded message failed validation" (some e) false))
    ∧ (∀ m : OAuth2Config I, I.validateHttpUri m.TokenEndpoint = none →
      m.AuthorizationEndpoint ≠ "" → OAuth2Credentials.Validate I m.Credentials = some e →
      OAuth2Config.Validate I (some m) =
        some (.OAuth2ConfigValidationError "Credentials"
          "embedded message failed validation" (some e) false))
    ∧ (∀ m : OAuth2Config I, I.validateHttpUri m.TokenEndpoint = none →
      m.AuthorizationEndpoint ≠ "" → m.Credentials ≠ none →
      OAuth2Credentials.Validate I m.Credentials = none → m.RedirectUri ≠ "" →
      I.validatePathMatcher m.RedirectPathMatcher = some e →
      OAuth2Config.Validate I (some m) =
        some (.OAuth2ConfigValidationError "RedirectPathMatcher"
          "embedded message failed validation" (some e) false))
    ∧ (∀ m : OAuth2Config I, I.validateHttpUri m.TokenEndpoint = none →
      m.AuthorizationEndpoint ≠ "" → m.Credentials ≠ none →
      OAuth2Credentials.Validate I m.Credentials = none → m.RedirectUri ≠ "" →
      m.RedirectPathMatcher ≠ none → I.validatePathMatcher m.RedirectPathMatcher = none →
      I.validatePathMatcher m.SignoutPath = some e →
      OAuth2Config.Validate I (some m) =
        some (.OAuth2ConfigValidationError "SignoutPath"
          "embedded message failed validation" (some e) false))
    ∧ (∀ m : OAuth2Credentials I, m.ClientId ≠ "" →
      I.validateSdsSecretConfig m.TokenSecret = some e →
      OAuth2Credentials.Validate I (some m) =
        some (.OAuth2CredentialsValidationError "TokenSecret"
          "embedded message failed validation" (some e) false))
    ∧ (∀ m : OAuth2Credentials I, m.ClientId ≠ "" → m.TokenSecret ≠ none →
      I.validateSdsSecretConfig m.TokenSecret = none →
      OAuth2Credentials_CookieNames.Validate m.CookieNames = some e →
      OAuth2Credentials.Validate I (some m) =
        some (.OAuth2CredentialsValidationError "CookieNames"
          "embedded message failed validation" (some e) false))
    ∧ (∀ m : OAuth2Credentials I, m.ClientId ≠ "" → m.TokenSecret ≠ none →
      I.validateSdsSecretConfig m.TokenSecret = none →
      OAuth2Credentials_CookieNames.Validate m.CookieNames = none →
      I.validateSdsSecretConfig m.GetHmacSecret = some e →
      OAuth2Credentials.Validate I (some m) =
        some (.OAuth2CredentialsValidationError "HmacSecret"
          "embedded message failed validation" (some e) false)) := by
  refine ⟨?_, ?_, ?_, ?_, ?_, ?_, ?_, ?_⟩
  · intro m h1
    simp [OAuth2.Validate, h1]
  · intro m h1
    simp [OAuth2Config.Validate, h1]
  · intro m h1 h2 h3
    have h4 : m.Credentials ≠ none := by
      intro h; rw [h] at h3; cases h3
    simp [OAuth2Config.Validate, runeCount_eq_zero, h1, h2, h3, h4]
  · intro m h1 h2 h3 h4 h5 h6
    have h7 : m.RedirectPathMatcher ≠ none := by
      intro h; rw [h] at h6; cases h6
    simp [OAuth2Config.Validate, runeCount_eq_zero, h1, h2, h3, h4, h5, h6, h7]
  · intro m h1 h2 h3 h4 h5 h6 h7 h8
    have h9 : m.SignoutPath ≠ none := by
      intro h; rw [h] at h8; cases h8
    simp [OAuth2Config.Validate, runeCount_eq_zero, h1, h2, h3, h4, h5, h6, h7, h8, h9]
  · intro m h1 h2
    have h3 : m.TokenSecret ≠ none := by
      intro h; rw [h] at h2; cases h2
    simp [OAuth2Credentials.Validate, runeCount_eq_zero, h1, h2, h3]
  · intro m h1 h2 h3 h4
    simp [OAuth2Credentials.Validate, runeCount_eq_zero, h1, h2, h3, h4]
  · intro m h1 h2 h3 h4 h5
    have h6 : m.GetHmacSecret ≠ none := by
      intro h; rw [h] at h5; cases h5
    have h7 : ∃ s, m.TokenFormation = some (.OAuth2Credentials_HmacSecret s) := by
      cases hT : m.TokenFormation with
      | none => simp [OAuth2Credentials.GetHmacSecret, hT] at h6
      | some v => cases v with
        | OAuth2Credentials_HmacSecret s => exact ⟨s, rfl⟩
    obtain ⟨s, hs⟩ := h7
    simp [OAuth2Credentials.Validate, runeCount_eq_zero, h1, h2, h3, h4, h5, h6, hs]

/-- C2 at sample nodes: in each of the eight positions a rejected child (an imported message
whose validator reports an error, credentials with an empty `ClientId`, cookie names with a
blank in `BearerToken`) is wrapped by its parent. -/
theorem C2_embedded_failure_wrapping_witness :
    (OAuth2.Validate sampleImports
        (some { Config := some { sampleConfig with AuthorizationEndpoint := "" } })).bind
      GoError.Field = some "Config"
    ∧ (OAuth2Config.Validate sampleImports
        (some { sampleConfig with TokenEndpoint := some false })).bind GoError.Field =
      some "TokenEndpoint"
    ∧ (OAuth2Config.Validate sampleImports
        (some { sampleConfig with
          Credentials := some { sampleCredentials with ClientId := "" } })).bind
      GoError.Field = some "Credentials"
    ∧ (OAuth2Config.Validate sampleImports
        (some { sampleConfig with RedirectPathMatcher := some false })).bind GoError.Field =
      some "RedirectPathMatcher"
    ∧ (OAuth2Config.Validate sampleImports
        (some { sampleConfig with SignoutPath := some false })).bind GoError.Field =
      some "SignoutPath"
    ∧ (OAuth2Credentials.Validate sampleImports
        (some { sampleCredentials with TokenSecret := some false })).bind GoError.Field =
      some "TokenSecret"
    ∧ (OAuth2Credentials.Validate sampleImports
        (some { sampleCredentials with
          CookieNames := some sampleBlankCookieNames })).bind GoError.Field = some "CookieNames"
    ∧ (OAuth2Credentials.Validate sampleImports
        (some { sampleCredentials with
          TokenFormation := some (.OAuth2Credentials_HmacSecret (some false)) })).bind
      GoError.Field = some "HmacSecret" :=
  ⟨by rw [(C2_embedded_failure_wrapping sampleImports _).1
        { Config := some { sampleConfig with AuthorizationEndpoint := "" } } rfl]; rfl,
    by rw [(C2_embedded_failure_wrapping sampleImports _).2.1
        { sampleConfig with TokenEndpoint := some false } rfl]; rfl,
    by rw [(C2_embedded_failure_wrapping sampleImports _).2.2.1
        { sampleConfig with Credentials := some { sampleCredentials with ClientId := "" } }
        rfl (by decide) rfl]; rfl,
    by rw [(C2_embedded_failure_wrapping sampleImports _).2.2.2.1
        { sampleConfig with RedirectPathMatcher := some false }
        rfl (by decide) (by simp [sampleConfig]) rfl (by decide) rfl]; rfl,
    by rw [(C2_embedded_failure_wrapping sampleImports _).2.2.2.2.1
        { sampleConfig with SignoutPath := some false }
        rfl (by decide) (by simp [sampleConfig]) rfl (by decide) (by simp [sampleConfig])
        rfl rfl]; rfl,
    by rw [(C2_embedded_failure_wrapping sampleImports _).2.2.2.2.2.1
        { sampleCredentials with TokenSecret := some false } (by decide) rfl]; rfl,
    by rw [(C2_embedded_failure_wrapping sampleImports _).2.2.2.2.2.2.1
        { sampleCredentials with
          CookieNames := some sampleBlankCookieNames }
        (by decide) (by simp [sampleCredentials]) rfl rfl]; rfl,
    by rw [(C2_embedded_failure_wrapping sampleImports _).2.2.2.2.2.2.2
        { sampleCredentials with
          TokenFormation := some (.OAuth2Credentials_HmacSecret (some false)) }
        (by decide) (by simp [sampleCredentials]) rfl rfl rfl]; rfl⟩

/-! ## Minimum length -/

/-- C6: each string field under the minimum-length rule fails, when the earlier fields pass,
exactly when it is empty, and then with its own name, the reason "value length must be at
least 1 runes" and no cause: `ClientId` of the credentials node, `AuthorizationEndpoint` and
`RedirectUri` of the config node. The length is counted in code points: the string made of
the one code point U+1F600 takes four bytes, counts one rune and is not empty. -/
theorem C6_min_length_in_code_points (I : Imports) :
    (∀ m : OAuth2Credentials I,
      ((OAuth2Credentials.Validate I (some m)).bind GoError.Field = some "ClientId" ↔
        m.ClientId = "")
      ∧ (m.ClientId = "" → OAuth2Credentials.Validate I (some m) =
          some (.OAuth2CredentialsValidationError "ClientId"
            "value length must be at least 1 runes" none false)))
    ∧ (∀ m : OAuth2Config I, I.validateHttpUri m.TokenEndpoint = none →
      ((OAuth2Config.Validate I (some m)).bind GoError.Field = some "AuthorizationEndpoint" ↔
        m.AuthorizationEndpoint = "")
      ∧ (m.AuthorizationEndpoint = "" → OAuth2Config.Validate I (some m) =
          some (.OAuth2ConfigValidationError "AuthorizationEndpoint"
            "value length must be at least 1 runes" none false)))
    ∧ (∀ m : OAuth2Config I, I.validateHttpUri m.TokenEndpoint = none →
      m.AuthorizationEndpoint ≠ "" → m.Credentials ≠ none →
      OAuth2Credentials.Validate I m.Credentials = none →
      ((OAuth2Config.Validate I (some m)).bind GoError.Field = some "RedirectUri" ↔
        m.RedirectUri = "")
      ∧ (m.RedirectUri = "" → OAuth2Config.Validate I (some m) =
          some (.OAuth2ConfigValidationError "RedirectUri"
            "value length must be at least 1 runes" none false)))
    ∧ ("😀".utf8ByteSize = 4 ∧ utf8.RuneCountInString "😀" = 1 ∧ "😀" ≠ "") := by
  refine ⟨?_, ?_, ?_, by decide⟩
  · intro m
    have hE : m.ClientId = "" → OAuth2Credentials.Validate I (some m) =
        some (.OAuth2CredentialsValidationError "ClientId"
          "value length must be at least 1 runes" none false) := by
      intro h
      simp [OAuth2Credentials.Validate, runeCount_eq_zero, h]
    refine ⟨⟨?_, fun h => by rw [hE h]; rfl⟩, hE⟩
    intro h
    by_contra hne
    rw [OAuth2Credentials_Validate_walk] at h
    simp only [OAuth2Credentials.fieldError, runeCount_lt_one, hne, if_false,
      Option.none_or] at h
    repeat' split at h
    all_goals simp [GoError.Field] at h
  · intro m h1
    have hE : m.AuthorizationEndpoint = "" → OAuth2Config.Validate I (some m) =
        some (.OAuth2ConfigValidationError "AuthorizationEndpoint"
          "value length must be at least 1 runes" none false) := by
      intro h
      simp [OAuth2Config.Validate, runeCount_eq_zero, h, h1]
    refine ⟨⟨?_, fun h => by rw [hE h]; rfl⟩, hE⟩
    intro h
    by_contra hne
    cases hv : OAuth2Config.Validate I (some m) with
    | none => rw [hv] at h; cases h
    | some e =>
      rw [hv] at h
      obtain ⟨k, hk, -⟩ := (OAuth2Config_Validate_eq_some I m e).1 hv
      have hname := OAuth2Config_fieldError_Field I m k e hk
      simp only [Option.some_bind] at h
      rw [hname] at h
      injection h with h
      cases k with
      | AuthorizationEndpoint =>
        simp [OAuth2Config.fieldError, runeCount_eq_zero, hne] at hk
      | PassThroughMatcher idx => exact passThroughMatcher_name_ne _ _ (by decide) h
      | _ => revert h; decide
  · intro m h1 h2 h3 h4
    have hE : m.RedirectUri = "" → OAuth2Config.Validate I (some m) =
        some (.OAuth2ConfigValidationError "RedirectUri"
          "value length must be at least 1 runes" none false) := by
      intro h
      simp [OAuth2Config.Validate, runeCount_eq_zero, h, h1, h2, h3, h4]
    refine ⟨⟨?_, fun h => by rw [hE h]; rfl⟩, hE⟩
    intro h
    by_contra hne
    cases hv : OAuth2Config.Validate I (some m) with
    | none => rw [hv] at h; cases h
    | some e =>
      rw [hv] at h
      obtain ⟨k, hk, -⟩ := (OAuth2Config_Validate_eq_some I m e).1 hv
      have hname := OAuth2Config_fieldError_Field I m k e hk
      simp only [Option.some_bind] at h
      rw [hname] at h
      injection h with h
      cases k with
      | RedirectUri =>
        simp [OAuth2Config.fieldError, runeCount_eq_zero, hne] at hk
      | PassThroughMatcher idx => exact passThroughMatcher_name_ne _ _ (by decide) h
      | _ => revert h; decide

/-- C6 at sample nodes: the empty string fails in each of the three fields, and the string
of one four-byte code point does not fail there. -/
theorem C6_min_length_in_code_points_witness :
    OAuth2Credentials.Validate sampleImports (some { sampleCredentials with ClientId := "" }) =
      some (.OAuth2CredentialsValidationError "ClientId"
        "value length must be at least 1 runes" none false)
    ∧ (OAuth2Credentials.Validate sampleImports
        (some { sampleCredentials with ClientId := "😀" })).bind GoError.Field ≠
      some "ClientId"
    ∧ OAuth2Config.Validate sampleImports
        (some { sampleConfig with AuthorizationEndpoint := "" }) =
      some (.OAuth2ConfigValidationError "AuthorizationEndpoint"
        "value length must be at least 1 runes" none false)
    ∧ (OAuth2Config.Validate sampleImports
        (some { sampleConfig with AuthorizationEndpoint := "😀" })).bind GoError.Field ≠
      some "AuthorizationEndpoint"
    ∧ OAuth2Config.Validate sampleImports (some { sampleConfig with RedirectUri := "" }) =
      some (.OAuth2ConfigValidationError "RedirectUri"
        "value length must be at least 1 runes" none false)
    ∧ (OAuth2Config.Validate sampleImports
        (some { sampleConfig with RedirectUri := "😀" })).bind GoError.Field ≠
      some "RedirectUri" :=
  ⟨((C6_min_length_in_code_points sampleImports).1
      { sampleCredentials with ClientId := "" }).2 rfl,
    fun h => absurd
      (((C6_min_length_in_code_points sampleImports).1
        { sampleCredentials with ClientId := "😀" }).1.1 h) (by decide),
    ((C6_min_length_in_code_points sampleImports).2.1
      { sampleConfig with AuthorizationEndpoint := "" } rfl).2 rfl,
    fun h => absurd
      (((C6_min_length_in_code_points sampleImports).2.1
        { sampleConfig with AuthorizationEndpoint := "😀" } rfl).1.1 h) (by decide),
    ((C6_min_length_in_code_points sampleImports).2.2.1
      { sampleConfig with RedirectUri := "" } rfl (by decide) (by simp [sampleConfig])
      rfl).2 rfl,
    fun h => absurd
      (((C6_min_length_in_code_points sampleImports).2.2.1
        { sampleConfig with RedirectUri := "😀" } rfl (by decide) (by simp [sampleConfig])
        rfl).1.1 h) (by decide)⟩

/-! ## Rendering -/

/-- C8: for every error value of each of the four validation error types, `Error()` is the
generic renderer of the specification at the owner's type name: "invalid ", then "key for "
when the key flag is set, the type name, ".", the field, ": ", the reason, and, when a cause
is present, " | caused by: " followed by the rendered cause. -/
theorem C8_error_rendering (field reason : String) (cause : Option GoError) (key : Bool) :
    (GoError.OAuth2CredentialsValidationError field reason cause key).Error =
      specRender "OAuth2Credentials" key field reason (cause.map GoError.Error)
    ∧ (GoError.OAuth2ConfigValidationError field reason cause key).Error =
      specRender "OAuth2Config" key field reason (cause.map GoError.Error)
    ∧ (GoError.OAuth2ValidationError field reason cause key).Error =
      specRender "OAuth2" key field reason (cause.map GoError.Error)
    ∧ (GoError.OAuth2Credentials_CookieNamesValidationError field reason cause key).Error =
      specRender "OAuth2Credentials_CookieNames" key field reason
        (cause.map GoError.Error) := by
  have hC : ∀ x : String, x ++ "OAuth2Credentials." = x ++ "OAuth2Credentials" ++ "." := by
    intro x; rw [String.append_assoc]; rfl
  have hG : ∀ x : String, x ++ "OAuth2Config." = x ++ "OAuth2Config" ++ "." := by
    intro x; rw [String.append_assoc]; rfl
  have hO : ∀ x : String, x ++ "OAuth2." = x ++ "OAuth2" ++ "." := by
    intro x; rw [String.append_assoc]; rfl
  have hN : ∀ x : String, x ++ "OAuth2Credentials_CookieNames." =
      x ++ "OAuth2Credentials_CookieNames" ++ "." := by
    intro x; rw [String.append_assoc]; rfl
  refine ⟨?_, ?_, ?_, ?_⟩
  · cases cause <;> simp only [GoError.Error, specRender, Option.map, hC]
  · cases cause <;> simp only [GoError.Error, specRender, Option.map, hG]
  · cases cause <;> simp only [GoError.Error, specRender, Option.map, hO]
  · cases cause <;> simp only [GoError.Error, specRender, Option.map, hN]

/-- C9: for a root node whose config has a nil or valid `TokenEndpoint`, a non-empty
`AuthorizationEndpoint` and non-nil credentials with an empty `ClientId`, the error of
`Validate` renders as the three-segment chain: each segment carries the type name of the
node that owns the failing field and the segments are joined by " | caused by: ". -/
theorem C9_cause_chain_rendering (I : Imports) (m : OAuth2 I) (config : OAuth2Config I)
    (credentials : OAuth2Credentials I) (hConfig : m.Config = some config)
    (hEndpoint : config.TokenEndpoint = none ∨ I.validateHttpUri config.TokenEndpoint = none)
    (hAuthorization : config.AuthorizationEndpoint ≠ "")
    (hCredentials : config.Credentials = some credentials)
    (hClientId : credentials.ClientId = "") :
    (OAuth2.Validate I (some m)).map GoError.Error =
      some ("invalid OAuth2.Config: embedded message failed validation | caused by: "
        ++ "invalid OAuth2Config.Credentials: embedded message failed validation | caused by: "
        ++ "invalid OAuth2Credentials.ClientId: value length must be at least 1 runes") := by
  have hEndpoint' : I.validateHttpUri config.TokenEndpoint = none := by
    rcases hEndpoint with h | h
    · rw [h]; rfl
    · exact h
  have h1 : OAuth2Credentials.Validate I (some credentials) =
      some (.OAuth2CredentialsValidationError "ClientId"
        "value length must be at least 1 runes" none false) := by
    simp [OAuth2Credentials.Validate, runeCount_eq_zero, hClientId]
  have h2 : OAuth2Config.Validate I (some config) =
      some (.OAuth2ConfigValidationError "Credentials" "embedded message failed validation"
        (some (.OAuth2CredentialsValidationError "ClientId"
          "value length must be at least 1 runes" none false)) false) := by
    simp [OAuth2Config.Validate, runeCount_eq_zero, hEndpoint', hAuthorization, hCredentials,
      h1]
  simp only [OAuth2.Validate, hConfig, h2, Option.map]
  rfl

/-- C9 at the sample config with the `ClientId` of its credentials emptied. -/
theorem C9_cause_chain_rendering_witness :
    (OAuth2.Validate sampleImports
        (some { Config := some { sampleConfig with
          Credentials := some { sampleCredentials with ClientId := "" } } })).map
      GoError.Error =
      some ("invalid OAuth2.Config: embedded message failed validation | caused by: "
        ++ "invalid OAuth2Config.Credentials: embedded message failed validation | caused by: "
        ++ "invalid OAuth2Credentials.ClientId: value length must be at least 1 runes") :=
  C9_cause_chain_rendering sampleImports
    { Config := some { sampleConfig with
        Credentials := some { sampleCredentials with ClientId := "" } } }
    { sampleConfig with Credentials := some { sampleCredentials with ClientId := "" } }
    { sampleCredentials with ClientId := "" } rfl (Or.inr rfl) (by decide) rfl rfl

/-! ## The order of the walk -/

/-- C1: `Validate` fails fast in the declared order. For a config node (order
`TokenEndpoint`, `AuthorizationEndpoint`, `Credentials`, `RedirectUri`,
`RedirectPathMatcher`, `SignoutPath`, `PassThroughMatcher[0]`, `PassThroughMatcher[1]`, ...)
and for a credentials node (order `ClientId`, `TokenSecret`, `CookieNames`,
`TokenFormation`): the error returned is the error of the earliest violating field; and once
a field violates its rule, every node that agrees with the given one on that field and on the
fields before it returns the same error, whatever its later fields hold. -/
theorem C1_fail_fast_in_declared_order (I : Imports) :
    (∀ (m : OAuth2Config I) (k : OAuth2ConfigField) (e : GoError),
      OAuth2Config.fieldError I m k = some e →
      (∀ j, j.position < k.position → OAuth2Config.fieldError I m j = none) →
      OAuth2Config.Validate I (some m) = some e)
    ∧ (∀ (m m' : OAuth2Config I) (k : OAuth2ConfigField),
      OAuth2Config.fieldError I m k ≠ none →
      (∀ j, j.position ≤ k.position → OAuth2Config.sameField m m' j) →
      ∃ e, OAuth2Config.Validate I (some m) = some e
        ∧ OAuth2Config.Validate I (some m') = some e)
    ∧ (∀ (m : OAuth2Credentials I) (k : OAuth2CredentialsField) (e : GoError),
      OAuth2Credentials.fieldError I m k = some e →
      (∀ j, j.position < k.position → OAuth2Credentials.fieldError I m j = none) →
      OAuth2Credentials.Validate I (some m) = some e)
    ∧ (∀ (m m' : OAuth2Credentials I) (k : OAuth2CredentialsField),
      OAuth2Credentials.fieldError I m k ≠ none →
      (∀ j, j.position ≤ k.position → OAuth2Credentials.sameField m m' j) →
      ∃ e, OAuth2Credentials.Validate I (some m) = some e
        ∧ OAuth2Credentials.Validate I (some m') = some e) := by
  refine ⟨?_, ?_, ?_, ?_⟩
  · intro m k e hk hlt
    exact (OAuth2Config_Validate_eq_some I m e).2 ⟨k, hk, hlt⟩
  · intro m m' k hk hsame
    obtain ⟨k', hle, hne, hfirst⟩ :=
      exists_first_failing OAuth2ConfigField.position (OAuth2Config.fieldError I m) k hk
    obtain ⟨e, he⟩ := Option.ne_none_iff_exists'.1 hne
    refine ⟨e, (OAuth2Config_Validate_eq_some I m e).2 ⟨k', he, hfirst⟩,
      (OAuth2Config_Validate_eq_some I m' e).2 ⟨k', ?_, ?_⟩⟩
    · rw [← OAuth2Config_fieldError_congr I m m' k' (hsame k' hle)]; exact he
    · intro j hj
      rw [← OAuth2Config_fieldError_congr I m m' j (hsame j (by omega))]
      exact hfirst j hj
  · intro m k e hk hlt
    exact (OAuth2Credentials_Validate_eq_some I m e).2 ⟨k, hk, hlt⟩
  · intro m m' k hk hsame
    obtain ⟨k', hle, hne, hfirst⟩ :=
      exists_first_failing OAuth2CredentialsField.position
        (OAuth2Credentials.fieldError I m) k hk
    obtain ⟨e, he⟩ := Option.ne_none_iff_exists'.1 hne
    refine ⟨e, (OAuth2Credentials_Validate_eq_some I m e).2 ⟨k', he, hfirst⟩,
      (OAuth2Credentials_Validate_eq_some I m' e).2 ⟨k', ?_, ?_⟩⟩
    · rw [← OAuth2Credentials_fieldError_congr I m m' k' (hsame k' hle)]; exact he
    · intro j hj
      rw [← OAuth2Credentials_fieldError_congr I m m' j (hsame j (by omega))]
      exact hfirst j hj

/-- C1 at sample nodes: a config whose first violation is an empty `RedirectUri` although a
later list element fails too; two configs without credentials that differ in later fields;
and the same for credentials without a token secret. -/
theorem C1_fail_fast_in_declared_order_witness :
    OAuth2Config.Validate sampleImports
        (some { sampleConfig with RedirectUri := "", PassThroughMatcher := [some false] }) =
      some (.OAuth2ConfigValidationError "RedirectUri"
        "value length must be at least 1 runes" none false)
    ∧ (∃ e, OAuth2Config.Validate sampleImports
          (some { sampleConfig with Credentials := none }) = some e
        ∧ OAuth2Config.Validate sampleImports
          (some { sampleConfig with
            Credentials := none, RedirectUri := "", SignoutPath := none,
            PassThroughMatcher := [some false] }) = some e)
    ∧ OAuth2Credentials.Validate sampleImports
        (some { sampleCredentials with TokenSecret := none, TokenFormation := none }) =
      some (.OAuth2CredentialsValidationError "TokenSecret" "value is required" none false)
    ∧ (∃ e, OAuth2Credentials.Validate sampleImports
          (some { sampleCredentials with TokenSecret := none }) = some e
        ∧ OAuth2Credentials.Validate sampleImports
          (some { sampleCredentials with
            TokenSecret := none, CookieNames := some sampleBlankCookieNames,
            TokenFormation := none }) = some e) :=
  ⟨(C1_fail_fast_in_declared_order sampleImports).1
      { sampleConfig with RedirectUri := "", PassThroughMatcher := [some false] }
      .RedirectUri _ rfl
      (fun j hj => by
        cases j <;> first
          | rfl
          | (simp only [OAuth2ConfigField.position] at hj; omega)),
    (C1_fail_fast_in_declared_order sampleImports).2.1
      { sampleConfig with Credentials := none }
      { sampleConfig with
        Credentials := none, RedirectUri := "", SignoutPath := none,
        PassThroughMatcher := [some false] }
      .Credentials (by simp [OAuth2Config.fieldError, sampleConfig])
      (fun j hj => by
        cases j <;> first
          | rfl
          | (simp only [OAuth2ConfigField.position] at hj; omega)),
    (C1_fail_fast_in_declared_order sampleImports).2.2.1
      { sampleCredentials with TokenSecret := none, TokenFormation := none }
      .TokenSecret _ rfl
      (fun j hj => by
        cases j <;> first
          | rfl
          | (simp only [OAuth2CredentialsField.position] at hj; omega)),
    (C1_fail_fast_in_declared_order sampleImports).2.2.2
      { sampleCredentials with TokenSecret := none }
      { sampleCredentials with
        TokenSecret := none, CookieNames := some sampleBlankCookieNames,
        TokenFormation := none }
      .TokenSecret (by simp [OAuth2Credentials.fieldError, sampleCredentials])
      (fun j hj => by
        cases j <;> first
          | rfl
          | (simp only [OAuth2CredentialsField.position] at hj; omega))⟩

/-! ## The repeated field -/

/-- C7: for a config node whose fields before `PassThroughMatcher` all pass and whose list has
its first failing element at index `i`, with error `e`, `Validate` returns the error with
field "PassThroughMatcher[i]" (the index in decimal), reason "embedded message failed
validation" and cause `e`; and a node that differs only in the list, with a list that agrees
up to and including index `i`, returns the same error. -/
theorem C7_repeated_field (I : Imports) (m : OAuth2Config I) (i : Nat)
    (item : Option I.HeaderMatcher) (e : GoError)
    (hEndpoint : I.validateHttpUri m.TokenEndpoint = none)
    (hAuthorization : m.AuthorizationEndpoint ≠ "")
    (hCredentials : m.Credentials ≠ none)
    (hCredentialsValid : OAuth2Credentials.Validate I m.Credentials = none)
    (hRedirectUri : m.RedirectUri ≠ "")
    (hRedirect : m.RedirectPathMatcher ≠ none)
    (hRedirectValid : I.validatePathMatcher m.RedirectPathMatcher = none)
    (hSignout : m.SignoutPath ≠ none)
    (hSignoutValid : I.validatePathMatcher m.SignoutPath = none)
    (hItem : m.PassThroughMatcher[i]? = some item)
    (hFails : I.validateHeaderMatcher item = some e)
    (hFirst : ∀ (j : Nat) (it : Option I.HeaderMatcher), j < i →
      m.PassThroughMatcher[j]? = some it → I.validateHeaderMatcher it = none) :
    OAuth2Config.Validate I (some m) =
      some (.OAuth2ConfigValidationError ("PassThroughMatcher[" ++ toString i ++ "]")
        "embedded message failed validation" (some e) false)
    ∧ toString i = String.mk (Nat.toDigits 10 i)
    ∧ ∀ l : List (Option I.HeaderMatcher),
        l.take (i + 1) = m.PassThroughMatcher.take (i + 1) →
        OAuth2Config.Validate I (some { m with PassThroughMatcher := l }) =
          OAuth2Config.Validate I (some m) := by
  have key : ∀ l : List (Option I.HeaderMatcher),
      l.take (i + 1) = m.PassThroughMatcher.take (i + 1) →
      OAuth2Config.Validate I (some { m with PassThroughMatcher := l }) =
        some (.OAuth2ConfigValidationError ("PassThroughMatcher[" ++ toString i ++ "]")
          "embedded message failed validation" (some e) false) := by
    intro l hl
    have hget : ∀ j, j ≤ i → l[j]? = m.PassThroughMatcher[j]? := by
      intro j hj
      have hlt : j < i + 1 := by omega
      have h1 : (l.take (i + 1))[j]? = l[j]? := by
        rw [List.getElem?_take, if_pos hlt]
      have h2 : (m.PassThroughMatcher.take (i + 1))[j]? = m.PassThroughMatcher[j]? := by
        rw [List.getElem?_take, if_pos hlt]
      rw [← h1, ← h2, hl]
    have hloop : OAuth2Config.validatePassThroughMatcher I 0 l =
        some (.OAuth2ConfigValidationError ("PassThroughMatcher[" ++ toString i ++ "]")
          "embedded message failed validation" (some e) false) := by
      rw [validatePassThroughMatcher_eq_some]
      refine ⟨i, item, e, by rw [hget i (by omega)]; exact hItem, hFails,
        by rw [Nat.zero_add], ?_⟩
      intro j it hj hit
      rw [hget j (by omega)] at hit
      exact hFirst j it hj hit
    simp [OAuth2Config.Validate, runeCount_eq_zero, hEndpoint, hAuthorization, hCredentials,
      hCredentialsValid, hRedirectUri, hRedirect, hRedirectValid, hSignout, hSignoutValid,
      hloop]
  refine ⟨key m.PassThroughMatcher rfl, rfl, ?_⟩
  intro l hl
  rw [key l hl, key m.PassThroughMatcher rfl]

/-- C7 at the sample config with the list [valid, valid, invalid, valid]: the field is
"PassThroughMatcher[2]". -/
theorem C7_repeated_field_witness :
    OAuth2Config.Validate sampleImports
        (some { sampleConfig with
          PassThroughMatcher := [some true, some true, some false, some true] }) =
      some (.OAuth2ConfigValidationError "PassThroughMatcher[2]"
        "embedded message failed validation"
        (some (.foreign "invalid HeaderMatcher.Name: value length must be at least 1 bytes"))
        false) :=
  (C7_repeated_field sampleImports
    { sampleConfig with PassThroughMatcher := [some true, some true, some false, some true] }
    2 (some false) _ rfl (by decide) (by simp [sampleConfig]) rfl (by decide)
    (by simp [sampleConfig]) rfl (by simp [sampleConfig]) rfl rfl rfl
    (fun j it hj hit => by
      have hj' : j = 0 ∨ j = 1 := by omega
      rcases hj' with rfl | rfl
      · cases hit; rfl
      · cases hit; rfl)).1

/-! ## References without a presence rule -/

/-- C11, as stated, fails: the root node whose `Config` is nil validates successfully, so no
error with field "Config" and reason "value is required" is returned. -/
theorem C11_root_requires_config_counterexample :
    OAuth2.Validate sampleImports (some { Config := none }) = none
    ∧ ¬ ∃ e, OAuth2.Validate sampleImports (some { Config := none }) = some e
        ∧ e.Field = some "Config" ∧ e.Reason = some "value is required" := by
  refine ⟨rfl, ?_⟩
  rintro ⟨e, he, -⟩
  cases he

/-- C11, amended: for every non-nil root node whose `Config` is nil, `Validate` returns
success; the root has no presence rule on `Config`. -/
theorem C11_root_nil_config_accepted (I : Imports) (m : OAuth2 I) (hConfig : m.Config = none) :
    OAuth2.Validate I (some m) = none := by
  simp [OAuth2.Validate, OAuth2Config.Validate, hConfig]

/-- C11, amended, at the sample root without a config. -/
theorem C11_root_nil_config_accepted_witness :
    OAuth2.Validate sampleImports (some { Config := none }) = none :=
  C11_root_nil_config_accepted sampleImports { Config := none } rfl

/-- C12, as stated, fails: the sample config with a nil `TokenEndpoint` validates
successfully, so no error with field "TokenEndpoint" and reason "value is required" is
returned. -/
theorem C12_config_requires_token_endpoint_counterexample :
    OAuth2Config.Validate sampleImports (some { sampleConfig with TokenEndpoint := none }) =
      none
    ∧ ¬ ∃ e, OAuth2Config.Validate sampleImports
          (some { sampleConfig with TokenEndpoint := none }) = some e
        ∧ e.Field = some "TokenEndpoint" ∧ e.Reason = some "value is required" := by
  have h : OAuth2Config.Validate sampleImports
      (some { sampleConfig with TokenEndpoint := none }) = none := rfl
  refine ⟨h, ?_⟩
  rintro ⟨e, he, -⟩
  rw [h] at he
  cases he

/-- C12, amended: for every non-nil config node whose `TokenEndpoint` is nil, `Validate`
returns no error on the field "TokenEndpoint"; the field has no presence rule and the walk
goes on to `AuthorizationEndpoint`, which is reported when it is empty. -/
theorem C12_nil_token_endpoint_skipped (I : Imports) (m : OAuth2Config I)
    (hEndpoint : m.TokenEndpoint = none) :
    (∀ e, OAuth2Config.Validate I (some m) = some e → e.Field ≠ some "TokenEndpoint")
    ∧ (m.AuthorizationEndpoint = "" → OAuth2Config.Validate I (some m) =
        some (.OAuth2ConfigValidationError "AuthorizationEndpoint"
          "value length must be at least 1 runes" none false)) := by
  have h0 : I.validateHttpUri m.TokenEndpoint = none := by rw [hEndpoint]; rfl
  refine ⟨?_, ?_⟩
  · intro e he hf
    obtain ⟨k, hk, -⟩ := (OAuth2Config_Validate_eq_some I m e).1 he
    rw [OAuth2Config_fieldError_Field I m k e hk] at hf
    injection hf with hf
    cases k with
    | TokenEndpoint => simp [OAuth2Config.fieldError, h0] at hk
    | PassThroughMatcher idx => exact passThroughMatcher_name_ne _ _ (by decide) hf
    | _ => revert hf; decide
  · intro h
    simp [OAuth2Config.Validate, runeCount_eq_zero, h, h0]

/-- C12, amended, at the sample config with a nil `TokenEndpoint` and an empty
`AuthorizationEndpoint`. -/
theorem C12_nil_token_endpoint_skipped_witness :
    OAuth2Config.Validate sampleImports
        (some { sampleConfig with TokenEndpoint := none, AuthorizationEndpoint := "" }) =
      some (.OAuth2ConfigValidationError "AuthorizationEndpoint"
        "value length must be at least 1 runes" none false) :=
  (C12_nil_token_endpoint_skipped sampleImports
    { sampleConfig with TokenEndpoint := none, AuthorizationEndpoint := "" } rfl).2 rfl

/-! ## Scenario A -/

/-- C13, as stated, fails: a config node with an empty `AuthorizationEndpoint` whose
`TokenEndpoint` is rejected by its own validator is reported under "TokenEndpoint", the
earlier field, not under "AuthorizationEndpoint". -/
theorem C13_scenario_A_counterexample :
    OAuth2Config.Validate sampleImports
        (some { sampleConfig with TokenEndpoint := some false, AuthorizationEndpoint := "" }) =
      some (.OAuth2ConfigValidationError "TokenEndpoint" "embedded message failed validation"
        (some (.foreign "invalid HttpUri.Uri: value length must be at least 1 runes")) false)
    ∧ (OAuth2Config.Validate sampleImports
        (some { sampleConfig with
          TokenEndpoint := some false, AuthorizationEndpoint := "" })).bind GoError.Field ≠
      some "AuthorizationEndpoint" := by
  have h : OAuth2Config.Validate sampleImports
      (some { sampleConfig with TokenEndpoint := some false, AuthorizationEndpoint := "" }) =
      some (.OAuth2ConfigValidationError "TokenEndpoint" "embedded message failed validation"
        (some (.foreign "invalid HttpUri.Uri: value length must be at least 1 runes"))
        false) := rfl
  refine ⟨h, ?_⟩
  rw [h]
  decide

/-- C13, amended: for every non-nil config node whose `TokenEndpoint` is nil or validates
successfully and whose `AuthorizationEndpoint` is empty, `Validate` returns the error with
field "AuthorizationEndpoint" and reason "value length must be at least 1 runes". -/
theorem C13_scenario_A (I : Imports) (m : OAuth2Config I)
    (hEndpoint : m.TokenEndpoint = none ∨ I.validateHttpUri m.TokenEndpoint = none)
    (hAuthorization : m.AuthorizationEndpoint = "") :
    OAuth2Config.Validate I (some m) =
      some (.OAuth2ConfigValidationError "AuthorizationEndpoint"
        "value length must be at least 1 runes" none false) := by
  have h0 : I.validateHttpUri m.TokenEndpoint = none := by
    rcases hEndpoint with h | h
    · rw [h]; rfl
    · exact h
  simp [OAuth2Config.Validate, runeCount_eq_zero, hAuthorization, h0]

/-- C13, amended, at the sample config with an empty `AuthorizationEndpoint`. -/
theorem C13_scenario_A_witness :
    OAuth2Config.Validate sampleImports
        (some { sampleConfig with AuthorizationEndpoint := "" }) =
      some (.OAuth2ConfigValidationError "AuthorizationEndpoint"
        "value length must be at least 1 runes" none false) :=
  C13_scenario_A sampleImports { sampleConfig with AuthorizationEndpoint := "" }
    (Or.inr rfl) rfl

/-! ## Cookie names -/

/-- Every character that the specification lists belongs to the bracket expression. -/
theorem allowed_inCookieNameClass :
    ∀ c ∈ cookieNameAllowedChars, inCookieNameClass c = true := by
  decide

/-- A character whose code lies in a range all of whose members are listed, or are the
comma, is listed or is the comma. -/
theorem mem_allowed_of_range (c : Char) (lo hi : Nat) (h1 : lo ≤ c.toNat) (h2 : c.toNat ≤ hi)
    (hall : ∀ n, lo ≤ n → n ≤ hi →
      (Char.ofNat n ∈ cookieNameAllowedChars ∨ Char.ofNat n = ',')) :
    c ∈ cookieNameAllowedChars ∨ c = ',' := by
  have := hall c.toNat h1 h2
  rwa [Char.ofNat_toNat] at this

/-- The bracket expression holds the characters that the specification lists and, through the
range from + to ., the comma. -/
theorem inCookieNameClass_iff (c : Char) :
    inCookieNameClass c = true ↔ c ∈ cookieNameAllowedChars ∨ c = ',' := by
  constructor
  · intro h
    simp only [inCookieNameClass, cookieNameClass, List.any_cons, List.any_nil,
      ClassItem.contains, Bool.or_eq_true, Bool.and_eq_true, decide_eq_true_eq, beq_iff_eq,
      Bool.or_false] at h
    rcases h with h | h | h | h | h | h | h | h | h | h | h | h | h | h | h | h
    · refine mem_allowed_of_range c _ _ h.1 h.2 ?_
      intro n h1 h2
      change 48 ≤ n at h1
      change n ≤ 57 at h2
      interval_cases n <;> decide
    · refine mem_allowed_of_range c _ _ h.1 h.2 ?_
      intro n h1 h2
      change 97 ≤ n at h1
      change n ≤ 122 at h2
      interval_cases n <;> decide
    · refine mem_allowed_of_range c _ _ h.1 h.2 ?_
      intro n h1 h2
      change 65 ≤ n at h1
      change n ≤ 90 at h2
      interval_cases n <;> decide
    · rw [h]; decide
    · rw [h]; decide
    · rw [h]; decide
    · rw [h]; decide
    · rw [h]; decide
    · rw [h]; decide
    · rw [h]; decide
    · refine mem_allowed_of_range c _ _ h.1 h.2 ?_
      intro n h1 h2
      change 43 ≤ n at h1
      change n ≤ 46 at h2
      interval_cases n <;> decide
    · rw [h]; decide
    · rw [h]; decide
    · rw [h]; decide
    · rw [h]; decide
    · rw [h]; decide
  · rintro (h | rfl)
    · exact allowed_inCookieNameClass c h
    · decide

/-- A non-empty sequence of listed characters, with or without one colon in front, matches
the pattern. -/
theorem cookieNameRegexp_MatchString_of_allowed (s : String) (body : List Char)
    (hBody : body ≠ []) (hAllowed : ∀ c ∈ body, c ∈ cookieNameAllowedChars)
    (hShape : s.toList = body ∨ s.toList = ':' :: body) :
    cookieNameRegexp_MatchString s = true := by
  have hm : matchClassPlusEnd body = true := by
    simp only [matchClassPlusEnd, Bool.and_eq_true, Bool.not_eq_true', List.all_eq_true]
    refine ⟨?_, fun c hc => allowed_inCookieNameClass c (hAllowed c hc)⟩
    cases body with
    | nil => exact absurd rfl hBody
    | cons c cs => rfl
  rcases hShape with h | h
  · simp only [cookieNameRegexp_MatchString, h, hm, Bool.or_true]
  · simp only [cookieNameRegexp_MatchString, h, hm, Bool.true_or]

/-- `(*OAuth2Credentials_CookieNames).Validate` on a non-nil receiver succeeds exactly when
each field is empty or matches the pattern. -/
theorem CookieNames_Validate_eq_none (m : OAuth2Credentials_CookieNames) :
    OAuth2Credentials_CookieNames.Validate (some m) = none ↔
      (m.BearerToken = "" ∨ cookieNameRegexp_MatchString m.BearerToken = true)
      ∧ (m.OauthHmac = "" ∨ cookieNameRegexp_MatchString m.OauthHmac = true)
      ∧ (m.OauthExpires = "" ∨ cookieNameRegexp_MatchString m.OauthExpires = true) := by
  simp only [OAuth2Credentials_CookieNames.Validate,
    _OAuth2Credentials_CookieNames_BearerToken_Pattern,
    _OAuth2Credentials_CookieNames_OauthHmac_Pattern,
    _OAuth2Credentials_CookieNames_OauthExpires_Pattern]
  by_cases h1 : m.BearerToken = "" <;> by_cases h2 : m.OauthHmac = "" <;>
    by_cases h3 : m.OauthExpires = "" <;>
    by_cases h4 : cookieNameRegexp_MatchString m.BearerToken = true <;>
    by_cases h5 : cookieNameRegexp_MatchString m.OauthHmac = true <;>
    by_cases h6 : cookieNameRegexp_MatchString m.OauthExpires = true <;>
    simp [h1, h2, h3, h4, h5, h6]

/-- C14: every non-empty sequence of digits, ASCII letters and the fifteen listed characters,
with or without one colon in front, validates successfully in `BearerToken`, in `OauthHmac`
and in `OauthExpires` of a cookie-naming node whose other two fields are empty. -/
theorem C14_cookie_pattern_accepts (s : String) (body : List Char) (hBody : body ≠ [])
    (hAllowed : ∀ c ∈ body, c ∈ cookieNameAllowedChars)
    (hShape : s.toList = body ∨ s.toList = ':' :: body) :
    OAuth2Credentials_CookieNames.Validate (some (cookieNamesWithBearerToken s)) = none
    ∧ OAuth2Credentials_CookieNames.Validate (some (cookieNamesWithOauthHmac s)) = none
    ∧ OAuth2Credentials_CookieNames.Validate (some (cookieNamesWithOauthExpires s)) =
      none := by
  have hm := cookieNameRegexp_MatchString_of_allowed s body hBody hAllowed hShape
  refine ⟨?_, ?_, ?_⟩ <;> rw [CookieNames_Validate_eq_none] <;>
    simp [cookieNamesWithBearerToken, cookieNamesWithOauthHmac, cookieNamesWithOauthExpires,
      hm]

/-- C14 at the name ":a1~" (with the colon) in each of the three fields. -/
theorem C14_cookie_pattern_accepts_witness :
    OAuth2Credentials_CookieNames.Validate (some (cookieNamesWithBearerToken ":a1~")) = none
    ∧ OAuth2Credentials_CookieNames.Validate (some (cookieNamesWithOauthHmac ":a1~")) = none
    ∧ OAuth2Credentials_CookieNames.Validate (some (cookieNamesWithOauthExpires ":a1~")) =
      none :=
  C14_cookie_pattern_accepts ":a1~" ['a', '1', '~'] (by decide) (by decide) (Or.inr rfl)

/-- C15 fails on the code at the name "a,b": the comma is none of the listed characters, yet
the node validates successfully in each of the three fields, because the bracket expression
reads +-. as the range from + to ., which holds the comma. -/
theorem C15_comma_is_accepted :
    ',' ∉ cookieNameAllowedChars ∧ ',' ∈ "a,b".toList ∧ "a,b" ≠ ""
    ∧ inCookieNameClass ',' = true
    ∧ OAuth2Credentials_CookieNames.Validate (some (cookieNamesWithBearerToken "a,b")) = none
    ∧ OAuth2Credentials_CookieNames.Validate (some (cookieNamesWithOauthHmac "a,b")) = none
    ∧ OAuth2Credentials_CookieNames.Validate (some (cookieNamesWithOauthExpires "a,b")) =
      none := by
  refine ⟨by decide, by decide, by decide, by decide, rfl, rfl, rfl⟩

/-- C17: a non-nil cookie-naming node validates successfully exactly when each of
`BearerToken`, `OauthHmac` and `OauthExpires` is empty or matches the pattern, the same
pattern for the three fields; an empty field is not matched against the pattern, which
rejects the empty string, and the node with three empty fields validates successfully. -/
theorem C17_cookie_names_acceptance (m : OAuth2Credentials_CookieNames) :
    (OAuth2Credentials_CookieNames.Validate (some m) = none ↔
      (m.BearerToken = "" ∨ _OAuth2Credentials_CookieNames_BearerToken_Pattern m.BearerToken
        = true)
      ∧ (m.OauthHmac = "" ∨ _OAuth2Credentials_CookieNames_OauthHmac_Pattern m.OauthHmac
        = true)
      ∧ (m.OauthExpires = "" ∨
        _OAuth2Credentials_CookieNames_OauthExpires_Pattern m.OauthExpires = true))
    ∧ (_OAuth2Credentials_CookieNames_BearerToken_Pattern =
        _OAuth2Credentials_CookieNames_OauthHmac_Pattern
      ∧ _OAuth2Credentials_CookieNames_OauthHmac_Pattern =
        _OAuth2Credentials_CookieNames_OauthExpires_Pattern
      ∧ _OAuth2Credentials_CookieNames_BearerToken_Pattern_String =
        _OAuth2Credentials_CookieNames_OauthHmac_Pattern_String
      ∧ _OAuth2Credentials_CookieNames_OauthHmac_Pattern_String =
        _OAuth2Credentials_CookieNames_OauthExpires_Pattern_String)
    ∧ _OAuth2Credentials_CookieNames_BearerToken_Pattern "" = false
    ∧ OAuth2Credentials_CookieNames.Validate
        (some { BearerToken := "", OauthHmac := "", OauthExpires := "" }) = none := by
  refine ⟨?_, ⟨rfl, rfl, rfl, rfl⟩, rfl, rfl⟩
  rw [CookieNames_Validate_eq_none]
  rfl

/-- C16: the cookie-naming node with `BearerToken` "tok en" fails with field "BearerToken"
and no cause; a non-empty field that does not match, reached by the walk, is reported with
the reason `value does not match regex pattern "P"`, P being the text from which the pattern
of that field is compiled; and every error of the node is such a report, without a cause. -/
theorem C16_pattern_mismatch_diagnostic :
    OAuth2Credentials_CookieNames.Validate (some sampleBlankCookieNames) =
      some (.OAuth2Credentials_CookieNamesValidationError "BearerToken"
        "value does not match regex pattern \"^:?[0-9a-zA-Z!#$%&'*+-.^_|~`]+$\"" none false)
    ∧ (∀ m : OAuth2Credentials_CookieNames, m.BearerToken ≠ "" →
      _OAuth2Credentials_CookieNames_BearerToken_Pattern m.BearerToken = false →
      OAuth2Credentials_CookieNames.Validate (some m) =
        some (.OAuth2Credentials_CookieNamesValidationError "BearerToken"
          ("value does not match regex pattern \""
            ++ _OAuth2Credentials_CookieNames_BearerToken_Pattern_String ++ "\"") none false))
    ∧ (∀ m : OAuth2Credentials_CookieNames,
      (m.BearerToken = "" ∨
        _OAuth2Credentials_CookieNames_BearerToken_Pattern m.BearerToken = true) →
      m.OauthHmac ≠ "" →
      _OAuth2Credentials_CookieNames_OauthHmac_Pattern m.OauthHmac = false →
      OAuth2Credentials_CookieNames.Validate (some m) =
        some (.OAuth2Credentials_CookieNamesValidationError "OauthHmac"
          ("value does not match regex pattern \""
            ++ _OAuth2Credentials_CookieNames_OauthHmac_Pattern_String ++ "\"") none false))
    ∧ (∀ m : OAuth2Credentials_CookieNames,
      (m.BearerToken = "" ∨
        _OAuth2Credentials_CookieNames_BearerToken_Pattern m.BearerToken = true) →
      (m.OauthHmac = "" ∨
        _OAuth2Credentials_CookieNames_OauthHmac_Pattern m.OauthHmac = true) →
      m.OauthExpires ≠ "" →
      _OAuth2Credentials_CookieNames_OauthExpires_Pattern m.OauthExpires = false →
      OAuth2Credentials_CookieNames.Validate (some m) =
        some (.OAuth2Credentials_CookieNamesValidationError "OauthExpires"
          ("value does not match regex pattern \""
            ++ _OAuth2Credentials_CookieNames_OauthExpires_Pattern_String ++ "\"") none
          false))
    ∧ (∀ (m : OAuth2Credentials_CookieNames) (e : GoError),
      OAuth2Credentials_CookieNames.Validate (some m) = some e →
      e.Cause = none
      ∧ ((e.Field = some "BearerToken" ∧ e.Reason = some
            ("value does not match regex pattern \""
              ++ _OAuth2Credentials_CookieNames_BearerToken_Pattern_String ++ "\""))
        ∨ (e.Field = some "OauthHmac" ∧ e.Reason = some
            ("value does not match regex pattern \""
              ++ _OAuth2Credentials_CookieNames_OauthHmac_Pattern_String ++ "\""))
        ∨ (e.Field = some "OauthExpires" ∧ e.Reason = some
            ("value does not match regex pattern \""
              ++ _OAuth2Credentials_CookieNames_OauthExpires_Pattern_String ++ "\"")))) := by
  refine ⟨rfl, ?_, ?_, ?_, ?_⟩
  · intro m h1 h2
    simp only [OAuth2Credentials_CookieNames.Validate]
    simp [h1, h2]
    rfl
  · intro m h0 h1 h2
    simp only [OAuth2Credentials_CookieNames.Validate]
    rcases h0 with h0 | h0 <;> simp [h0, h1, h2] <;> rfl
  · intro m h0 h0' h1 h2
    simp only [OAuth2Credentials_CookieNames.Validate]
    rcases h0 with h0 | h0 <;> rcases h0' with h0' | h0' <;> simp [h0, h0', h1, h2] <;> rfl
  · intro m e he
    simp only [OAuth2Credentials_CookieNames.Validate] at he
    split at he
    · cases he
      exact ⟨rfl, Or.inl ⟨rfl, rfl⟩⟩
    · split at he
      · cases he
        exact ⟨rfl, Or.inr (Or.inl ⟨rfl, rfl⟩)⟩
      · split at he
        · cases he
          exact ⟨rfl, Or.inr (Or.inr ⟨rfl, rfl⟩)⟩
        · cases he

/-- C16 at sample nodes: a blank in `BearerToken`, in `OauthHmac` after a matching
`BearerToken`, and in `OauthExpires` after two empty fields. -/
theorem C16_pattern_mismatch_diagnostic_witness :
    OAuth2Credentials_CookieNames.Validate (some sampleBlankCookieNames) =
      some (.OAuth2Credentials_CookieNamesValidationError "BearerToken"
        "value does not match regex pattern \"^:?[0-9a-zA-Z!#$%&'*+-.^_|~`]+$\"" none false)
    ∧ OAuth2Credentials_CookieNames.Validate
        (some { BearerToken := "Bearer", OauthHmac := "h mac", OauthExpires := "" }) =
      some (.OAuth2Credentials_CookieNamesValidationError "OauthHmac"
        "value does not match regex pattern \"^:?[0-9a-zA-Z!#$%&'*+-.^_|~`]+$\"" none false)
    ∧ OAuth2Credentials_CookieNames.Validate
        (some (cookieNamesWithOauthExpires "e xp")) =
      some (.OAuth2Credentials_CookieNamesValidationError "OauthExpires"
        "value does not match regex pattern \"^:?[0-9a-zA-Z!#$%&'*+-.^_|~`]+$\"" none false)
    ∧ (GoError.OAuth2Credentials_CookieNamesValidationError "BearerToken"
        "value does not match regex pattern \"^:?[0-9a-zA-Z!#$%&'*+-.^_|~`]+$\"" none
        false).Cause = none :=
  ⟨C16_pattern_mismatch_diagnostic.2.1 sampleBlankCookieNames (by decide) rfl,
    C16_pattern_mismatch_diagnostic.2.2.1
      { BearerToken := "Bearer", OauthHmac := "h mac", OauthExpires := "" }
      (Or.inr rfl) (by decide) rfl,
    C16_pattern_mismatch_diagnostic.2.2.2.1 (cookieNamesWithOauthExpires "e xp")
      (Or.inl rfl) (Or.inl rfl) (by decide) rfl,
    (C16_pattern_mismatch_diagnostic.2.2.2.2 sampleBlankCookieNames _
      C16_pattern_mismatch_diagnostic.1).1⟩

/-! ## Acceptance -/

/-- The loop over the repeated field falls through exactly when every element validates
successfully. -/
theorem validatePassThroughMatcher_eq_none (I : Imports) (l : List (Option I.HeaderMatcher))
    (idx : Nat) :
    OAuth2Config.validatePassThroughMatcher I idx l = none ↔
      ∀ item ∈ l, I.validateHeaderMatcher item = none := by
  induction l generalizing idx with
  | nil => simp [OAuth2Config.validatePassThroughMatcher]
  | cons a rest ih =>
    simp only [OAuth2Config.validatePassThroughMatcher, List.mem_cons, forall_eq_or_imp]
    cases hv : I.validateHeaderMatcher a with
    | none => simp [ih]
    | some err => simp

/-- C18: a non-nil credentials node validates successfully exactly when `ClientId` has at
least one code point, `TokenSecret` is non-nil and validates successfully, `CookieNames` is
nil or validates successfully, and `TokenFormation` holds the `HmacSecret` variant with a
non-nil secret that validates successfully; otherwise an error is returned. -/
theorem C18_credentials_acceptance (I : Imports) (m : OAuth2Credentials I) :
    (OAuth2Credentials.Validate I (some m) = none ↔
      1 ≤ utf8.RuneCountInString m.ClientId
      ∧ (m.TokenSecret ≠ none ∧ I.validateSdsSecretConfig m.TokenSecret = none)
      ∧ (m.CookieNames = none ∨ OAuth2Credentials_CookieNames.Validate m.CookieNames = none)
      ∧ ∃ s, m.TokenFormation = some (.OAuth2Credentials_HmacSecret (some s))
          ∧ I.validateSdsSecretConfig (some s) = none)
    ∧ (OAuth2Credentials.Validate I (some m) ≠ none ↔
      ∃ e, OAuth2Credentials.Validate I (some m) = some e) := by
  refine ⟨?_, Option.ne_none_iff_exists'⟩
  have hCookies : (m.CookieNames = none ∨
      OAuth2Credentials_CookieNames.Validate m.CookieNames = none) ↔
      OAuth2Credentials_CookieNames.Validate m.CookieNames = none := by
    constructor
    · rintro (h | h)
      · rw [h]; rfl
      · exact h
    · exact Or.inr
  rw [hCookies, OAuth2Credentials_Validate_walk]
  simp only [Option.or_eq_none]
  have h0 : OAuth2Credentials.fieldError I m .ClientId = none ↔
      1 ≤ utf8.RuneCountInString m.ClientId := by
    simp only [OAuth2Credentials.fieldError]
    split <;> simp <;> omega
  have h1 : OAuth2Credentials.fieldError I m .TokenSecret = none ↔
      (m.TokenSecret ≠ none ∧ I.validateSdsSecretConfig m.TokenSecret = none) := by
    simp only [OAuth2Credentials.fieldError]
    cases hs : m.TokenSecret with
    | none => simp
    | some s =>
      cases hv : I.validateSdsSecretConfig (some s) <;> simp
  have h2 : OAuth2Credentials.fieldError I m .CookieNames = none ↔
      OAuth2Credentials_CookieNames.Validate m.CookieNames = none := by
    simp only [OAuth2Credentials.fieldError]
    cases hv : OAuth2Credentials_CookieNames.Validate m.CookieNames <;> simp
  have h3 : OAuth2Credentials.fieldError I m .TokenFormation = none ↔
      ∃ s, m.TokenFormation = some (.OAuth2Credentials_HmacSecret (some s))
        ∧ I.validateSdsSecretConfig (some s) = none := by
    simp only [OAuth2Credentials.fieldError, OAuth2Credentials.GetHmacSecret]
    cases ht : m.TokenFormation with
    | none => simp
    | some v =>
      cases v with
      | OAuth2Credentials_HmacSecret s =>
        cases s with
        | none => simp
        | some s =>
          cases hv : I.validateSdsSecretConfig (some s) <;> simp [hv]
  rw [h0, h1, h2, h3]

/-- C19: a non-nil config node validates successfully exactly when `TokenEndpoint` is nil or
validates successfully, `AuthorizationEndpoint` is non-empty, `Credentials` is non-nil and
validates successfully, `RedirectUri` is non-empty, `RedirectPathMatcher` and `SignoutPath`
are non-nil and validate successfully, and every element of `PassThroughMatcher` validates
successfully; the value of `ForwardBearerToken` does not affect the result. -/
theorem C19_config_acceptance (I : Imports) (m : OAuth2Config I) :
    (OAuth2Config.Validate I (some m) = none ↔
      (m.TokenEndpoint = none ∨ I.validateHttpUri m.TokenEndpoint = none)
      ∧ m.AuthorizationEndpoint ≠ ""
      ∧ (m.Credentials ≠ none ∧ OAuth2Credentials.Validate I m.Credentials = none)
      ∧ m.RedirectUri ≠ ""
      ∧ (m.RedirectPathMatcher ≠ none ∧ I.validatePathMatcher m.RedirectPathMatcher = none)
      ∧ (m.SignoutPath ≠ none ∧ I.validatePathMatcher m.SignoutPath = none)
      ∧ ∀ item ∈ m.PassThroughMatcher, I.validateHeaderMatcher item = none)
    ∧ ∀ b : Bool, OAuth2Config.Validate I (some { m with ForwardBearerToken := b }) =
        OAuth2Config.Validate I (some m) := by
  refine ⟨?_, fun b => rfl⟩
  have hEndpoint : (m.TokenEndpoint = none ∨ I.validateHttpUri m.TokenEndpoint = none) ↔
      I.validateHttpUri m.TokenEndpoint = none := by
    constructor
    · rintro (h | h)
      · rw [h]; rfl
      · exact h
    · exact Or.inr
  rw [hEndpoint, OAuth2Config_Validate_walk]
  simp only [Option.or_eq_none]
  have h0 : OAuth2Config.fieldError I m .TokenEndpoint = none ↔
      I.validateHttpUri m.TokenEndpoint = none := by
    simp only [OAuth2Config.fieldError]
    cases hv : I.validateHttpUri m.TokenEndpoint <;> simp
  have h1 : OAuth2Config.fieldError I m .AuthorizationEndpoint = none ↔
      m.AuthorizationEndpoint ≠ "" := by
    simp only [OAuth2Config.fieldError, runeCount_lt_one]
    split <;> simp [*]
  have h2 : OAuth2Config.fieldError I m .Credentials = none ↔
      (m.Credentials ≠ none ∧ OAuth2Credentials.Validate I m.Credentials = none) := by
    simp only [OAuth2Config.fieldError]
    cases hs : m.Credentials with
    | none => simp
    | some s =>
      cases hv : OAuth2Credentials.Validate I (some s) <;> simp
  have h3 : OAuth2Config.fieldError I m .RedirectUri = none ↔ m.RedirectUri ≠ "" := by
    simp only [OAuth2Config.fieldError, runeCount_lt_one]
    split <;> simp [*]
  have h4 : OAuth2Config.fieldError I m .RedirectPathMatcher = none ↔
      (m.RedirectPathMatcher ≠ none
        ∧ I.validatePathMatcher m.RedirectPathMatcher = none) := by
    simp only [OAuth2Config.fieldError]
    cases hs : m.RedirectPathMatcher with
    | none => simp
    | some s =>
      cases hv : I.validatePathMatcher (some s) <;> simp
  have h5 : OAuth2Config.fieldError I m .SignoutPath = none ↔
      (m.SignoutPath ≠ none ∧ I.validatePathMatcher m.SignoutPath = none) := by
    simp only [OAuth2Config.fieldError]
    cases hs : m.SignoutPath with
    | none => simp
    | some s =>
      cases hv : I.validatePathMatcher (some s) <;> simp
  rw [h0, h1, h2, h3, h4, h5, validatePassThroughMatcher_eq_none]

/-! ## The vocabulary of reasons -/

/-- C20: every error returned by `Validate` on a node of one of the four types has one of four
reasons, "value is required", "value length must be at least 1 runes", "embedded message
failed validation" or the pattern-mismatch text of the cookie names, and it carries a cause
exactly when its reason is "embedded message failed validation". -/
theorem C20_reason_vocabulary (I : Imports) (e : GoError)
    (hReturned : (∃ m, OAuth2Credentials.Validate I m = some e)
      ∨ (∃ m, OAuth2Config.Validate I m = some e)
      ∨ (∃ m, OAuth2.Validate I m = some e)
      ∨ (∃ m, OAuth2Credentials_CookieNames.Validate m = some e)) :
    (e.Reason = some "value is required"
      ∨ e.Reason = some "value length must be at least 1 runes"
      ∨ e.Reason = some "embedded message failed validation"
      ∨ e.Reason =
        some "value does not match regex pattern \"^:?[0-9a-zA-Z!#$%&'*+-.^_|~`]+$\"")
    ∧ (e.Cause ≠ none ↔ e.Reason = some "embedded message failed validation") := by
  rcases hReturned with ⟨m, h⟩ | ⟨m, h⟩ | ⟨m, h⟩ | ⟨m, h⟩
  · cases m with
    | none => cases h
    | some m =>
      obtain ⟨k, hk, -⟩ := (OAuth2Credentials_Validate_eq_some I m e).1 h
      cases k <;> simp only [OAuth2Credentials.fieldError] at hk <;> repeat' split at hk
      all_goals (cases hk; try simp [GoError.Reason, GoError.Cause])
  · cases m with
    | none => cases h
    | some m =>
      obtain ⟨k, hk, -⟩ := (OAuth2Config_Validate_eq_some I m e).1 h
      cases k <;> simp only [OAuth2Config.fieldError] at hk <;> repeat' split at hk
      all_goals (cases hk; try simp [GoError.Reason, GoError.Cause])
  · cases m with
    | none => cases h
    | some m =>
      simp only [OAuth2.Validate] at h
      split at h
      · cases h; simp [GoError.Reason, GoError.Cause]
      · cases h
  · cases m with
    | none => cases h
    | some m =>
      simp only [OAuth2Credentials_CookieNames.Validate] at h
      repeat' split at h
      all_goals (cases h; try simp [GoError.Reason, GoError.Cause])

/-- C20 at four sample errors, one for each reason: a missing token secret, an empty client
identifier, a root whose config fails, and a blank in a cookie name. -/
theorem C20_reason_vocabulary_witness :
    ((GoError.OAuth2CredentialsValidationError "TokenSecret" "value is required" none
        false).Cause ≠ none ↔
      (GoError.OAuth2CredentialsValidationError "TokenSecret" "value is required" none
        false).Reason = some "embedded message failed validation")
    ∧ ((GoError.OAuth2CredentialsValidationError "ClientId"
        "value length must be at least 1 runes" none false).Cause ≠ none ↔
      (GoError.OAuth2CredentialsValidationError "ClientId"
        "value length must be at least 1 runes" none false).Reason =
        some "embedded message failed validation")
    ∧ ((GoError.OAuth2ValidationError "Config" "embedded message failed validation"
        (some (.OAuth2ConfigValidationError "AuthorizationEndpoint"
          "value length must be at least 1 runes" none false)) false).Cause ≠ none ↔
      (GoError.OAuth2ValidationError "Config" "embedded message failed validation"
        (some (.OAuth2ConfigValidationError "AuthorizationEndpoint"
          "value length must be at least 1 runes" none false)) false).Reason =
        some "embedded message failed validation")
    ∧ ((GoError.OAuth2Credentials_CookieNamesValidationError "BearerToken"
        "value does not match regex pattern \"^:?[0-9a-zA-Z!#$%&'*+-.^_|~`]+$\"" none
        false).Cause ≠ none ↔
      (GoError.OAuth2Credentials_CookieNamesValidationError "BearerToken"
        "value does not match regex pattern \"^:?[0-9a-zA-Z!#$%&'*+-.^_|~`]+$\"" none
        false).Reason = some "embedded message failed validation") :=
  ⟨(C20_reason_vocabulary sampleImports _
      (Or.inl ⟨some { sampleCredentials with TokenSecret := none }, rfl⟩)).2,
    (C20_reason_vocabulary sampleImports _
      (Or.inl ⟨some { sampleCredentials with ClientId := "" }, rfl⟩)).2,
    (C20_reason_vocabulary sampleImports _
      (Or.inr (Or.inr (Or.inl
        ⟨some { Config := some { sampleConfig with AuthorizationEndpoint := "" } },
          rfl⟩)))).2,
    (C20_reason_vocabulary sampleImports _
      (Or.inr (Or.inr (Or.inr ⟨some sampleBlankCookieNames, rfl⟩)))).2⟩

/-! ## The key flag -/

/-- An error without a key flag in its chain renders without the marker. -/
theorem Error_eq_renderUnmarked : ∀ e : GoError, e.keyMarked = false →
    e.Error = e.renderUnmarked
  | .OAuth2CredentialsValidationError _ _ none key, h => by
    simp only [GoError.keyMarked, Bool.or_false] at h
    simp [GoError.Error, GoError.renderUnmarked, h]
  | .OAuth2CredentialsValidationError _ _ (some c) key, h => by
    simp only [GoError.keyMarked, Bool.or_eq_false_iff] at h
    simp [GoError.Error, GoError.renderUnmarked, h.1, Error_eq_renderUnmarked c h.2]
  | .OAuth2ConfigValidationError _ _ none key, h => by
    simp only [GoError.keyMarked, Bool.or_false] at h
    simp [GoError.Error, GoError.renderUnmarked, h]
  | .OAuth2ConfigValidationError _ _ (some c) key, h => by
    simp only [GoError.keyMarked, Bool.or_eq_false_iff] at h
    simp [GoError.Error, GoError.renderUnmarked, h.1, Error_eq_renderUnmarked c h.2]
  | .OAuth2ValidationError _ _ none key, h => by
    simp only [GoError.keyMarked, Bool.or_false] at h
    simp [GoError.Error, GoError.renderUnmarked, h]
  | .OAuth2ValidationError _ _ (some c) key, h => by
    simp only [GoError.keyMarked, Bool.or_eq_false_iff] at h
    simp [GoError.Error, GoError.renderUnmarked, h.1, Error_eq_renderUnmarked c h.2]
  | .OAuth2Credentials_CookieNamesValidationError _ _ none key, h => by
    simp only [GoError.keyMarked, Bool.or_false] at h
    simp [GoError.Error, GoError.renderUnmarked, h]
  | .OAuth2Credentials_CookieNamesValidationError _ _ (some c) key, h => by
    simp only [GoError.keyMarked, Bool.or_eq_false_iff] at h
    simp [GoError.Error, GoError.renderUnmarked, h.1, Error_eq_renderUnmarked c h.2]
  | .foreign _, _ => rfl

/-- No error of the cookie-naming node has the key flag set in its chain. -/
theorem CookieNames_Validate_unmarked (m : Option OAuth2Credentials_CookieNames)
    (e : GoError) (h : OAuth2Credentials_CookieNames.Validate m = some e) :
    e.keyMarked = false := by
  cases m with
  | none => cases h
  | some m =>
    simp only [OAuth2Credentials_CookieNames.Validate] at h
    repeat' split at h
    all_goals (cases h; try rfl)

/-- The validators of the imported messages, on a receiver that may be nil, return no error
with the key flag set in its chain. -/
theorem Imports_unmarked (I : Imports) (hI : I.Unmarked) :
    (∀ x e, I.validateHttpUri x = some e → e.keyMarked = false)
    ∧ (∀ x e, I.validateSdsSecretConfig x = some e → e.keyMarked = false)
    ∧ (∀ x e, I.validatePathMatcher x = some e → e.keyMarked = false)
    ∧ (∀ x e, I.validateHeaderMatcher x = some e → e.keyMarked = false) := by
  obtain ⟨h1, h2, h3, h4⟩ := hI
  refine ⟨?_, ?_, ?_, ?_⟩ <;> intro x e h <;> cases x
  · cases h
  · exact h1 _ _ h
  · cases h
  · exact h2 _ _ h
  · cases h
  · exact h3 _ _ h
  · cases h
  · exact h4 _ _ h

/-- No error of the credentials node has the key flag set in its chain. -/
theorem Credentials_Validate_unmarked (I : Imports) (hI : I.Unmarked)
    (m : Option (OAuth2Credentials I)) (e : GoError)
    (h : OAuth2Credentials.Validate I m = some e) : e.keyMarked = false := by
  obtain ⟨-, h2, -, -⟩ := Imports_unmarked I hI
  cases m with
  | none => cases h
  | some m =>
    obtain ⟨k, hk, -⟩ := (OAuth2Credentials_Validate_eq_some I m e).1 h
    cases k <;> simp only [OAuth2Credentials.fieldError] at hk <;> repeat' split at hk
    all_goals first
      | (cases hk; done)
      | (cases hk; rfl)
      | (cases hk
         simp only [GoError.keyMarked, Bool.false_or]
         first
           | exact h2 _ _ (by assumption)
           | exact CookieNames_Validate_unmarked _ _ (by assumption))

/-- No error of the config node has the key flag set in its chain. -/
theorem Config_Validate_unmarked (I : Imports) (hI : I.Unmarked)
    (m : Option (OAuth2Config I)) (e : GoError)
    (h : OAuth2Config.Validate I m = some e) : e.keyMarked = false := by
  obtain ⟨h1, -, h3, h4⟩ := Imports_unmarked I hI
  cases m with
  | none => cases h
  | some m =>
    obtain ⟨k, hk, -⟩ := (OAuth2Config_Validate_eq_some I m e).1 h
    cases k <;> simp only [OAuth2Config.fieldError] at hk <;> repeat' split at hk
    all_goals first
      | (cases hk; done)
      | (cases hk; rfl)
      | (cases hk
         simp only [GoError.keyMarked, Bool.false_or]
         first
           | exact h1 _ _ (by assumption)
           | exact h3 _ _ (by assumption)
           | exact h4 _ _ (by assumption)
           | exact Credentials_Validate_unmarked I hI _ _ (by assumption))

/-- No error of the root node has the key flag set in its chain. -/
theorem OAuth2_Validate_unmarked (I : Imports) (hI : I.Unmarked) (m : Option (OAuth2 I))
    (e : GoError) (h : OAuth2.Validate I m = some e) : e.keyMarked = false := by
  cases m with
  | none => cases h
  | some m =>
    simp only [OAuth2.Validate] at h
    split at h
    · next err herr =>
      cases h
      simp only [GoError.keyMarked, Bool.false_or]
      exact Config_Validate_unmarked I hI _ _ herr
    · cases h

/-- C21: every error returned by `Validate` on a node of one of the four types has `Key()`
false; and, the imported validators returning errors without the flag, no error of the four
types in its chain of causes has the flag set, so that `Error()` renders every such segment
without the marker "key for ". -/
theorem C21_key_flag_never_set (I : Imports) (e : GoError)
    (hReturned : (∃ m, OAuth2Credentials.Validate I m = some e)
      ∨ (∃ m, OAuth2Config.Validate I m = some e)
      ∨ (∃ m, OAuth2.Validate I m = some e)
      ∨ (∃ m, OAuth2Credentials_CookieNames.Validate m = some e)) :
    e.Key = some false
    ∧ (I.Unmarked → e.keyMarked = false ∧ e.Error = e.renderUnmarked) := by
  constructor
  · rcases hReturned with ⟨m, h⟩ | ⟨m, h⟩ | ⟨m, h⟩ | ⟨m, h⟩
    · cases m with
      | none => cases h
      | some m =>
        obtain ⟨k, hk, -⟩ := (OAuth2Credentials_Validate_eq_some I m e).1 h
        cases k <;> simp only [OAuth2Credentials.fieldError] at hk <;> repeat' split at hk
        all_goals (cases hk; try rfl)
    · cases m with
      | none => cases h
      | some m =>
        obtain ⟨k, hk, -⟩ := (OAuth2Config_Validate_eq_some I m e).1 h
        cases k <;> simp only [OAuth2Config.fieldError] at hk <;> repeat' split at hk
        all_goals (cases hk; try rfl)
    · cases m with
      | none => cases h
      | some m =>
        simp only [OAuth2.Validate] at h
        split at h
        · cases h; rfl
        · cases h
    · cases m with
      | none => cases h
      | some m =>
        simp only [OAuth2Credentials_CookieNames.Validate] at h
        repeat' split at h
        all_goals (cases h; try rfl)
  · intro hI
    have hk : e.keyMarked = false := by
      rcases hReturned with ⟨m, h⟩ | ⟨m, h⟩ | ⟨m, h⟩ | ⟨m, h⟩
      · exact Credentials_Validate_unmarked I hI m e h
      · exact Config_Validate_unmarked I hI m e h
      · exact OAuth2_Validate_unmarked I hI m e h
      · exact CookieNames_Validate_unmarked m e h
    exact ⟨hk, Error_eq_renderUnmarked e hk⟩

/-- The sample validators return errors of their own packages, without a key flag. -/
theorem sampleImports_unmarked : sampleImports.Unmarked := by
  refine ⟨?_, ?_, ?_, ?_⟩ <;> intro x e h <;> cases x <;> cases h <;> rfl

/-- C21 at the root node whose config holds credentials with an empty `ClientId`: the key
flag is false and the three-segment chain renders without the marker. -/
theorem C21_key_flag_never_set_witness :
    (GoError.OAuth2ValidationError "Config" "embedded message failed validation"
      (some (.OAuth2ConfigValidationError "Credentials" "embedded message failed validation"
        (some (.OAuth2CredentialsValidationError "ClientId"
          "value length must be at least 1 runes" none false)) false)) false).Error =
      "invalid OAuth2.Config: embedded message failed validation | caused by: "
        ++ "invalid OAuth2Config.Credentials: embedded message failed validation | caused by: "
        ++ "invalid OAuth2Credentials.ClientId: value length must be at least 1 runes" :=
  ((C21_key_flag_never_set sampleImports _
    (Or.inr (Or.inr (Or.inl
      ⟨some { Config := some { sampleConfig with
          Credentials := some { sampleCredentials with ClientId := "" } } }, rfl⟩)))).2
    sampleImports_unmarked).2

/-! ## The colon in cookie names -/

/-- The tail of the pattern matches only non-empty sequences of characters of the bracket
expression, none of which is the colon. -/
theorem matchClassPlusEnd_iff (cs : List Char) :
    matchClassPlusEnd cs = true ↔
      cs ≠ [] ∧ ∀ c ∈ cs, inCookieNameClass c = true ∧ c ≠ ':' := by
  simp only [matchClassPlusEnd, Bool.and_eq_true, Bool.not_eq_true', List.all_eq_true]
  constructor
  · rintro ⟨h1, h2⟩
    refine ⟨?_, fun c hc => ⟨h2 c hc, ?_⟩⟩
    · intro h; rw [h] at h1; cases h1
    · intro h
      have := h2 c hc
      rw [h] at this
      revert this
      decide
  · rintro ⟨h1, h2⟩
    refine ⟨?_, fun c hc => (h2 c hc).1⟩
    cases cs with
    | nil => exact absurd rfl h1
    | cons c cs => rfl

/-- A value with a colon after its first character does not match the pattern. -/
theorem not_match_of_inner_colon (s : String) (before after : List Char)
    (hs : s.toList = before ++ ':' :: after) (hBefore : before ≠ []) :
    cookieNameRegexp_MatchString s = false := by
  have hmem : ∀ l : List Char, ':' ∈ l → matchClassPlusEnd l = false := by
    intro l hl
    cases hm : matchClassPlusEnd l with
    | false => rfl
    | true => exact absurd rfl (((matchClassPlusEnd_iff l).1 hm).2 ':' hl).2
  cases before with
  | nil => exact absurd rfl hBefore
  | cons b rest =>
    have h2 : matchClassPlusEnd (b :: (rest ++ ':' :: after)) = false :=
      hmem _ (by simp)
    have h1 : matchClassPlusEnd (rest ++ ':' :: after) = false := hmem _ (by simp)
    simp only [cookieNameRegexp_MatchString, hs, List.cons_append, h2, Bool.or_false]
    split
    · next rest' heq =>
      injection heq with _ heq
      rw [← heq]; exact h1
    · rfl

/-- C29: a value that matches the pattern is a non-empty sequence of characters of the
bracket expression, none of them the colon, with or without one colon in front; the value
":" is rejected; and a value with a colon after its first character, such as "a:b" or "::a",
is rejected with the pattern-mismatch error of the field that holds it. -/
theorem C29_colon_handling :
    (∀ s : String, cookieNameRegexp_MatchString s = true →
      ∃ body : List Char, body ≠ []
        ∧ (∀ c ∈ body, inCookieNameClass c = true ∧ c ≠ ':')
        ∧ (s.toList = body ∨ s.toList = ':' :: body))
    ∧ OAuth2Credentials_CookieNames.Validate (some (cookieNamesWithBearerToken ":")) =
      some (.OAuth2Credentials_CookieNamesValidationError "BearerToken"
        "value does not match regex pattern \"^:?[0-9a-zA-Z!#$%&'*+-.^_|~`]+$\"" none false)
    ∧ (∀ (s : String) (before after : List Char), s.toList = before ++ ':' :: after →
      before ≠ [] →
      OAuth2Credentials_CookieNames.Validate (some (cookieNamesWithBearerToken s)) =
        some (.OAuth2Credentials_CookieNamesValidationError "BearerToken"
          "value does not match regex pattern \"^:?[0-9a-zA-Z!#$%&'*+-.^_|~`]+$\"" none
          false)
      ∧ OAuth2Credentials_CookieNames.Validate (some (cookieNamesWithOauthHmac s)) =
        some (.OAuth2Credentials_CookieNamesValidationError "OauthHmac"
          "value does not match regex pattern \"^:?[0-9a-zA-Z!#$%&'*+-.^_|~`]+$\"" none
          false)
      ∧ OAuth2Credentials_CookieNames.Validate (some (cookieNamesWithOauthExpires s)) =
        some (.OAuth2Credentials_CookieNamesValidationError "OauthExpires"
          "value does not match regex pattern \"^:?[0-9a-zA-Z!#$%&'*+-.^_|~`]+$\"" none
          false)) := by
  refine ⟨?_, rfl, ?_⟩
  · intro s h
    simp only [cookieNameRegexp_MatchString, Bool.or_eq_true] at h
    rcases h with h | h
    · split at h
      · next rest heq =>
        exact ⟨rest, ((matchClassPlusEnd_iff rest).1 h).1, ((matchClassPlusEnd_iff rest).1 h).2,
          Or.inr heq⟩
      · cases h
    · exact ⟨s.toList, ((matchClassPlusEnd_iff _).1 h).1, ((matchClassPlusEnd_iff _).1 h).2,
        Or.inl rfl⟩
  · intro s before after hs hBefore
    have hm := not_match_of_inner_colon s before after hs hBefore
    have hne : s ≠ "" := by
      intro h
      rw [h] at hs
      cases before with
      | nil => exact hBefore rfl
      | cons b rest => cases hs
    refine ⟨?_, ?_, ?_⟩ <;>
      simp [OAuth2Credentials_CookieNames.Validate, cookieNamesWithBearerToken,
        cookieNamesWithOauthHmac, cookieNamesWithOauthExpires,
        _OAuth2Credentials_CookieNames_BearerToken_Pattern,
        _OAuth2Credentials_CookieNames_OauthHmac_Pattern,
        _OAuth2Credentials_CookieNames_OauthExpires_Pattern, hm, hne]

/-- C29 at the values "a:b" and "::a". -/
theorem C29_colon_handling_witness :
    OAuth2Credentials_CookieNames.Validate (some (cookieNamesWithBearerToken "a:b")) =
      some (.OAuth2Credentials_CookieNamesValidationError "BearerToken"
        "value does not match regex pattern \"^:?[0-9a-zA-Z!#$%&'*+-.^_|~`]+$\"" none false)
    ∧ OAuth2Credentials_CookieNames.Validate (some (cookieNamesWithOauthExpires "::a")) =
      some (.OAuth2Credentials_CookieNamesValidationError "OauthExpires"
        "value does not match regex pattern \"^:?[0-9a-zA-Z!#$%&'*+-.^_|~`]+$\"" none false) :=
  ⟨(C29_colon_handling.2.2 "a:b" ['a'] ['b'] rfl (by decide)).1,
    (C29_colon_handling.2.2 "::a" [':'] ['a'] rfl (by decide)).2.2⟩

end envoy_extensions_filters_http_oauth2_v3

/-! # Theorems on the builders -/

namespace gocontrolplane.builder

/-! ## Auxiliary facts on options -/

/-- The loop of a constructor is the left fold of its option list. -/
theorem applyOpts_eq_foldl {X : Type} (opts : List (X → X)) (x : X) :
    applyOpts x opts = opts.foldl (fun acc opt => opt acc) x := by
  induction opts generalizing x with
  | nil => rfl
  | cons opt rest ih => simp only [applyOpts, List.foldl_cons, ih]

/-- The last option of the list is applied last. -/
theorem applyOpts_concat {X : Type} (opts : List (X → X)) (last : X → X) (x : X) :
    applyOpts x (opts ++ [last]) = last (applyOpts x opts) := by
  simp only [applyOpts_eq_foldl, List.foldl_append, List.foldl_cons, List.foldl_nil]

/-- A field that no option of the list assigns keeps its value. -/
theorem applyOpts_frame {X F S : Type} (ap : S → X → X) (target : S → F)
    (agree : F → X → X → Prop)
    (htrans : ∀ f x y z, agree f x y → agree f y z → agree f x z)
    (hrefl : ∀ f x, agree f x x)
    (hframe : ∀ s x f, f ≠ target s → agree f (ap s x) x)
    (l : List S) (x : X) (f : F) (hf : f ∉ l.map target) :
    agree f (applyOpts x (l.map ap)) x := by
  induction l generalizing x with
  | nil => exact hrefl f x
  | cons s rest ih =>
    simp only [List.map_cons, List.mem_cons, not_or] at hf
    exact htrans _ _ _ _ (ih (ap s x) hf.2) (hframe s x f hf.1)

/-- The field of an option of the list, when no other option of the list assigns it, holds
the value that the option gives it. -/
theorem applyOpts_set {X F S : Type} (ap : S → X → X) (target : S → F)
    (agree : F → X → X → Prop)
    (htrans : ∀ f x y z, agree f x y → agree f y z → agree f x z)
    (hrefl : ∀ f x, agree f x x)
    (hframe : ∀ s x f, f ≠ target s → agree f (ap s x) x)
    (hset : ∀ s x y, agree (target s) (ap s x) (ap s y))
    (l : List S) (hl : (l.map target).Nodup) (x y : X) (s : S) (hs : s ∈ l) :
    agree (target s) (applyOpts x (l.map ap)) (ap s y) := by
  induction l generalizing x with
  | nil => cases hs
  | cons s0 rest ih =>
    simp only [List.map_cons, List.nodup_cons] at hl
    rcases List.mem_cons.1 hs with h | h
    · subst h
      exact htrans _ _ _ _
        (applyOpts_frame ap target agree htrans hrefl hframe rest (ap s x) (target s) hl.1)
        (hset s x y)
    · exact ih hl.2 (ap s0 x) h

/-- Options that assign pairwise distinct fields may be given in any order. -/
theorem applyOpts_perm {X F S : Type} (ap : S → X → X) (target : S → F)
    (agree : F → X → X → Prop)
    (htrans : ∀ f x y z, agree f x y → agree f y z → agree f x z)
    (hsymm : ∀ f x y, agree f x y → agree f y x)
    (hrefl : ∀ f x, agree f x x)
    (hframe : ∀ s x f, f ≠ target s → agree f (ap s x) x)
    (hset : ∀ s x y, agree (target s) (ap s x) (ap s y))
    (hext : ∀ x y, (∀ f, agree f x y) → x = y)
    (l l' : List S) (hl : (l.map target).Nodup) (hp : l.Perm l') (x : X) :
    applyOpts x (l'.map ap) = applyOpts x (l.map ap) := by
  have hl' : (l'.map target).Nodup := (hp.map target).nodup_iff.1 hl
  apply hext
  intro f
  by_cases hf : f ∈ l.map target
  · obtain ⟨s, hs, rfl⟩ := List.mem_map.1 hf
    exact htrans _ _ _ _
      (applyOpts_set ap target agree htrans hrefl hframe hset l' hl' x x s (hp.subset hs))
      (hsymm _ _ _
        (applyOpts_set ap target agree htrans hrefl hframe hset l hl x x s hs))
  · have hf' : f ∉ l'.map target := fun h => hf ((hp.map target).symm.subset h)
    exact htrans _ _ _ _
      (applyOpts_frame ap target agree htrans hrefl hframe l' x f hf')
      (hsymm _ _ _ (applyOpts_frame ap target agree htrans hrefl hframe l x f hf))

/-- Agreement in a field of `LbEndpoint` is transitive. -/
theorem LbEndpointField_agree_trans {M : Type} (f : LbEndpointField) (x y z : envoyendpoint.LbEndpoint M)
    (h1 : f.agree x y) (h2 : f.agree y z) : f.agree x z := by
  cases f <;> exact Eq.trans h1 h2

/-- Agreement in a field of `LbEndpoint` is symmetric. -/
theorem LbEndpointField_agree_symm {M : Type} (f : LbEndpointField) (x y : envoyendpoint.LbEndpoint M)
    (h : f.agree x y) : f.agree y x := by
  cases f <;> exact Eq.symm h

/-- Agreement in a field of `LbEndpoint` is reflexive. -/
theorem LbEndpointField_agree_refl {M : Type} (f : LbEndpointField) (x : envoyendpoint.LbEndpoint M) : f.agree x x := by
  cases f <;> exact rfl

/-- Two objects of type `LbEndpoint` that agree in every field are equal. -/
theorem LbEndpointField_agree_ext {M : Type} (x y : envoyendpoint.LbEndpoint M)
    (h : ∀ f : LbEndpointField, f.agree x y) : x = y := by
  cases x
  cases y
  have := fun f => h f
  simp only [LbEndpointField.agree] at this
  simp only [envoyendpoint.LbEndpoint.mk.injEq]
  exact ⟨this .HostIdentifier, this .HealthStatus, this .Metadata, this .LoadBalancingWeight⟩

/-- An option of the `LbEndpoint` family leaves every field but its own unchanged. -/
theorem LBEndpointOption_frame {M : Type} (s : LBEndpointOption M) (x : envoyendpoint.LbEndpoint M) (f : LbEndpointField)
    (hf : f ≠ s.target) : f.agree (s.opt x) x := by
  cases s <;> cases f <;> first
    | exact rfl
    | exact absurd rfl hf

/-- The value that an option of the `LbEndpoint` family gives its field does not depend on the
object. -/
theorem LBEndpointOption_set {M : Type} (s : LBEndpointOption M) (x y : envoyendpoint.LbEndpoint M) :
    s.target.agree (s.opt x) (s.opt y) := by
  cases s <;> exact rfl

/-- Agreement in a field of `Endpoint` is transitive. -/
theorem EndpointField_agree_trans (f : EndpointField) (x y z : envoyendpoint.Endpoint)
    (h1 : f.agree x y) (h2 : f.agree y z) : f.agree x z := by
  cases f <;> exact Eq.trans h1 h2

/-- Agreement in a field of `Endpoint` is symmetric. -/
theorem EndpointField_agree_symm (f : EndpointField) (x y : envoyendpoint.Endpoint)
    (h : f.agree x y) : f.agree y x := by
  cases f <;> exact Eq.symm h

/-- Agreement in a field of `Endpoint` is reflexive. -/
theorem EndpointField_agree_refl (f : EndpointField) (x : envoyendpoint.Endpoint) : f.agree x x := by
  cases f <;> exact rfl

/-- Two objects of type `Endpoint` that agree in every field are equal. -/
theorem EndpointField_agree_ext (x y : envoyendpoint.Endpoint)
    (h : ∀ f : EndpointField, f.agree x y) : x = y := by
  cases x
  cases y
  have := fun f => h f
  simp only [EndpointField.agree] at this
  simp only [envoyendpoint.Endpoint.mk.injEq]
  exact ⟨this .Address, this .HealthCheckConfig, this .Hostname⟩

/-- An option of the `Endpoint` family leaves every field but its own unchanged. -/
theorem EndpointOption_frame (s : EndpointOption) (x : envoyendpoint.Endpoint) (f : EndpointField)
    (hf : f ≠ s.target) : f.agree (s.opt x) x := by
  cases s <;> cases f <;> first
    | exact rfl
    | exact absurd rfl hf

/-- The value that an option of the `Endpoint` family gives its field does not depend on the
object. -/
theorem EndpointOption_set (s : EndpointOption) (x y : envoyendpoint.Endpoint) :
    s.target.agree (s.opt x) (s.opt y) := by
  cases s <;> exact rfl

/-- Agreement in a field of `ClusterLoadAssignment` is transitive. -/
theorem ClusterLoadAssignmentField_agree_trans {M : Type} (f : ClusterLoadAssignmentField) (x y z : envoyendpoint.ClusterLoadAssignment M)
    (h1 : f.agree x y) (h2 : f.agree y z) : f.agree x z := by
  cases f <;> exact Eq.trans h1 h2

/-- Agreement in a field of `ClusterLoadAssignment` is symmetric. -/
theorem ClusterLoadAssignmentField_agree_symm {M : Type} (f : ClusterLoadAssignmentField) (x y : envoyendpoint.ClusterLoadAssignment M)
    (h : f.agree x y) : f.agree y x := by
  cases f <;> exact Eq.symm h

/-- Agreement in a field of `ClusterLoadAssignment` is reflexive. -/
theorem ClusterLoadAssignmentField_agree_refl {M : Type} (f : ClusterLoadAssignmentField) (x : envoyendpoint.ClusterLoadAssignment M) : f.agree x x := by
  cases f <;> exact rfl

/-- Two objects of type `ClusterLoadAssignment` that agree in every field are equal. -/
theorem ClusterLoadAssignmentField_agree_ext {M : Type} (x y : envoyendpoint.ClusterLoadAssignment M)
    (h : ∀ f : ClusterLoadAssignmentField, f.agree x y) : x = y := by
  cases x
  cases y
  have := fun f => h f
  simp only [ClusterLoadAssignmentField.agree] at this
  simp only [envoyendpoint.ClusterLoadAssignment.mk.injEq]
  exact ⟨this .ClusterName, this .Endpoints, this .Policy⟩

/-- An option of the `ClusterLoadAssignment` family leaves every field but its own unchanged. -/
theorem CLAOption_frame {M : Type} (s : CLAOption M) (x : envoyendpoint.ClusterLoadAssignment M) (f : ClusterLoadAssignmentField)
    (hf : f ≠ s.target) : f.agree (s.opt x) x := by
  cases s <;> cases f <;> first
    | exact rfl
    | exact absurd rfl hf

/-- The value that an option of the `ClusterLoadAssignment` family gives its field does not depend on the
object. -/
theorem CLAOption_set {M : Type} (s : CLAOption M) (x y : envoyendpoint.ClusterLoadAssignment M) :
    s.target.agree (s.opt x) (s.opt y) := by
  cases s <;> exact rfl

/-- Agreement in a field of `LocalityLbEndpoints` is transitive. -/
theorem LocalityLbEndpointsField_agree_trans {M : Type} (f : LocalityLbEndpointsField) (x y z : envoyendpoint.LocalityLbEndpoints M)
    (h1 : f.agree x y) (h2 : f.agree y z) : f.agree x z := by
  cases f <;> exact Eq.trans h1 h2

/-- Agreement in a field of `LocalityLbEndpoints` is symmetric. -/
theorem LocalityLbEndpointsField_agree_symm {M : Type} (f : LocalityLbEndpointsField) (x y : envoyendpoint.LocalityLbEndpoints M)
    (h : f.agree x y) : f.agree y x := by
  cases f <;> exact Eq.symm h

/-- Agreement in a field of `LocalityLbEndpoints` is reflexive. -/
theorem LocalityLbEndpointsField_agree_refl {M : Type} (f : LocalityLbEndpointsField) (x : envoyendpoint.LocalityLbEndpoints M) : f.agree x x := by
  cases f <;> exact rfl

/-- Two objects of type `LocalityLbEndpoints` that agree in every field are equal. -/
theorem LocalityLbEndpointsField_agree_ext {M : Type} (x y : envoyendpoint.LocalityLbEndpoints M)
    (h : ∀ f : LocalityLbEndpointsField, f.agree x y) : x = y := by
  cases x
  cases y
  have := fun f => h f
  simp only [LocalityLbEndpointsField.agree] at this
  simp only [envoyendpoint.LocalityLbEndpoints.mk.injEq]
  exact ⟨this .Locality, this .LbEndpoints, this .LbConfig, this .LoadBalancingWeight, this .Priority⟩

/-- An option of the `LocalityLbEndpoints` family leaves every field but its own unchanged. -/
theorem LLEOption_frame {M : Type} (s : LLEOption M) (x : envoyendpoint.LocalityLbEndpoints M) (f : LocalityLbEndpointsField)
    (hf : f ≠ s.target) : f.agree (s.opt x) x := by
  cases s <;> cases f <;> first
    | exact rfl
    | exact absurd rfl hf

/-- The value that an option of the `LocalityLbEndpoints` family gives its field does not depend on the
object. -/
theorem LLEOption_set {M : Type} (s : LLEOption M) (x y : envoyendpoint.LocalityLbEndpoints M) :
    s.target.agree (s.opt x) (s.opt y) := by
  cases s <;> exact rfl

end gocontrolplane.builder

namespace gocontrolplane.builder

/-! ## The constructors and their options -/

/-- C22: each constructor, called with no option, returns the zero value of its type, every
field unset. -/
theorem C22_builders_with_no_options (M : Type) :
    (NewLbEndpoint [] : envoyendpoint.LbEndpoint M) =
      { HostIdentifier := none, HealthStatus := 0, Metadata := none,
        LoadBalancingWeight := none }
    ∧ NewEndpoint [] = { Address := none, HealthCheckConfig := none, Hostname := "" }
    ∧ (NewLoadAssignment [] : envoyendpoint.ClusterLoadAssignment M) =
      { ClusterName := "", Endpoints := none, Policy := none }
    ∧ (NewLocalityEndpoints [] : envoyendpoint.LocalityLbEndpoints M) =
      { Locality := none, LbEndpoints := none, LbConfig := none, LoadBalancingWeight := none,
        Priority := 0 } :=
  ⟨rfl, rfl, rfl, rfl⟩

/-- C23: each option writes exactly one field. For every option of the four families and
every object, the fields other than the target of the option keep their values; the target
field holds the value built from the arguments; and the constructor applied to the single
option is the option applied to the zero value. -/
theorem C23_option_writes_one_field (M : Type) :
    ((∀ (s : LBEndpointOption M) (x : envoyendpoint.LbEndpoint M) (f : LbEndpointField),
        f ≠ s.target → f.agree (s.opt x) x)
      ∧ (∀ (s : EndpointOption) (x : envoyendpoint.Endpoint) (f : EndpointField),
        f ≠ s.target → f.agree (s.opt x) x)
      ∧ (∀ (s : CLAOption M) (x : envoyendpoint.ClusterLoadAssignment M)
          (f : ClusterLoadAssignmentField), f ≠ s.target → f.agree (s.opt x) x)
      ∧ (∀ (s : LLEOption M) (x : envoyendpoint.LocalityLbEndpoints M)
          (f : LocalityLbEndpointsField), f ≠ s.target → f.agree (s.opt x) x))
    ∧ ((∀ (x : envoyendpoint.LbEndpoint M) (hs : Int),
        (WithHealthStatus hs x).HealthStatus = hs)
      ∧ (∀ (x : envoyendpoint.LbEndpoint M) (md : Option M),
        (WithMetadata md x).Metadata = md)
      ∧ (∀ (x : envoyendpoint.LbEndpoint M) (weight : Int),
        (WithLBWeight weight x).LoadBalancingWeight = some { Value := uint32 weight })
      ∧ (∀ (x : envoyendpoint.LbEndpoint M) (endpoint : Option envoyendpoint.Endpoint),
        (WithEndpoint endpoint x).HostIdentifier = some (.LbEndpoint_Endpoint endpoint))
      ∧ (∀ (x : envoyendpoint.LbEndpoint M) (name : String),
        (WithNamedEndpoint name x).HostIdentifier = some (.LbEndpoint_EndpointName name)))
    ∧ ((∀ (x : envoyendpoint.Endpoint) (host : String) (port protocol : Int),
        (WithSocketAddress host port protocol x).Address =
          some { Address := some (.Address_SocketAddress (some {
            Protocol := protocol, Address := host,
            PortSpecifier := some (.SocketAddress_PortValue (uint32 port)) })) })
      ∧ (∀ (x : envoyendpoint.Endpoint) (hostname : String),
        (WithHostname hostname x).Hostname = hostname)
      ∧ (∀ (x : envoyendpoint.Endpoint) (hostname : String) (port : Int) (disable : Bool),
        (WithActiveHealthCheckOverrides hostname port disable x).HealthCheckConfig =
          some { DisableActiveHealthCheck := disable, Hostname := hostname,
                 PortValue := uint32 port }))
    ∧ ((∀ (x : envoyendpoint.ClusterLoadAssignment M) (name : String),
        (WithClusterName name x).ClusterName = name)
      ∧ (∀ (x : envoyendpoint.ClusterLoadAssignment M)
          (llEndpoints : Slice (Option (envoyendpoint.LocalityLbEndpoints M))),
        (WithLocalityLBEndpoints llEndpoints x).Endpoints = llEndpoints)
      ∧ (∀ (x : envoyendpoint.ClusterLoadAssignment M) (factor stale : Int) (m : GoMap)
          (order : m.RangeOrder),
        (WithLoadAssignmentPolicy factor stale m order x).Policy =
          some { OverprovisioningFactor := some { Value := uint32 factor },
                 EndpointStaleAfter := some (durationpb.New stale),
                 DropOverloads := appendDropOverloads (some []) order.val }))
    ∧ ((∀ (x : envoyendpoint.LocalityLbEndpoints M) (region zone subzone : String),
        (WithLocality region zone subzone x).Locality =
          some { Region := region, Zone := zone, SubZone := subzone })
      ∧ (∀ (x : envoyendpoint.LocalityLbEndpoints M) (priority : Int),
        (WithPriority priority x).Priority = uint32 priority)
      ∧ (∀ (x : envoyendpoint.LocalityLbEndpoints M) (weight : Int),
        (WithLocalityLBWeight weight x).LoadBalancingWeight =
          some { Value := uint32 weight })
      ∧ (∀ (x : envoyendpoint.LocalityLbEndpoints M)
          (endpoints : Slice (Option (envoyendpoint.LbEndpoint M))),
        (WithEndpoints endpoints x).LbEndpoints = endpoints)
      ∧ (∀ (x : envoyendpoint.LocalityLbEndpoints M)
          (endpoints : Slice (Option (envoyendpoint.LbEndpoint M))),
        (WithLoadBalancedEndpoints endpoints x).LbConfig =
          some (.LocalityLbEndpoints_LoadBalancerEndpoints
            (some { LbEndpoints := endpoints }))))
    ∧ ((∀ s : LBEndpointOption M,
        NewLbEndpoint [s.opt] = s.opt (envoyendpoint.LbEndpoint.zero M))
      ∧ (∀ s : EndpointOption, NewEndpoint [s.opt] = s.opt envoyendpoint.Endpoint.zero)
      ∧ (∀ s : CLAOption M,
        NewLoadAssignment [s.opt] = s.opt (envoyendpoint.ClusterLoadAssignment.zero M))
      ∧ (∀ s : LLEOption M,
        NewLocalityEndpoints [s.opt] = s.opt (envoyendpoint.LocalityLbEndpoints.zero M))) :=
  ⟨⟨LBEndpointOption_frame, EndpointOption_frame, CLAOption_frame, LLEOption_frame⟩,
    ⟨fun _ _ => rfl, fun _ _ => rfl, fun _ _ => rfl, fun _ _ => rfl, fun _ _ => rfl⟩,
    ⟨fun _ _ _ _ => rfl, fun _ _ => rfl, fun _ _ _ _ => rfl⟩,
    ⟨fun _ _ => rfl, fun _ _ => rfl, fun _ _ _ _ _ => rfl⟩,
    ⟨fun _ _ _ _ => rfl, fun _ _ => rfl, fun _ _ => rfl, fun _ _ => rfl, fun _ _ => rfl⟩,
    ⟨fun _ => rfl, fun _ => rfl, fun _ => rfl, fun _ => rfl⟩⟩

/-- C23 on the cases of the tests: `WithLBWeight(10)` leaves the host identifier of an object
unchanged, and the constructors applied to one option return the zero value with that one
field set. -/
theorem C23_option_writes_one_field_witness :
    (WithLBWeight 10 (WithNamedEndpoint "my-endpoint"
        (envoyendpoint.LbEndpoint.zero Unit))).HostIdentifier =
      some (.LbEndpoint_EndpointName "my-endpoint")
    ∧ (NewLbEndpoint [WithLBWeight 10] : envoyendpoint.LbEndpoint Unit) =
      { HostIdentifier := none, HealthStatus := 0, Metadata := none,
        LoadBalancingWeight := some { Value := 10 } }
    ∧ NewEndpoint [WithHostname "my-hostname.com"] =
      { Address := none, HealthCheckConfig := none, Hostname := "my-hostname.com" }
    ∧ (NewLoadAssignment [WithClusterName "test-cluster"] :
        envoyendpoint.ClusterLoadAssignment Unit) =
      { ClusterName := "test-cluster", Endpoints := none, Policy := none }
    ∧ (NewLocalityEndpoints [WithPriority 1] : envoyendpoint.LocalityLbEndpoints Unit) =
      { Locality := none, LbEndpoints := none, LbConfig := none, LoadBalancingWeight := none,
        Priority := 1 } :=
  ⟨(C23_option_writes_one_field Unit).1.1 (.WithLBWeight 10)
      (WithNamedEndpoint "my-endpoint" (envoyendpoint.LbEndpoint.zero Unit)) .HostIdentifier
      (by intro h; cases h),
    (C23_option_writes_one_field Unit).2.2.2.2.2.1 (.WithLBWeight 10),
    (C23_option_writes_one_field Unit).2.2.2.2.2.2.1 (.WithHostname "my-hostname.com"),
    (C23_option_writes_one_field Unit).2.2.2.2.2.2.2.1 (.WithClusterName "test-cluster"),
    (C23_option_writes_one_field Unit).2.2.2.2.2.2.2.2 (.WithPriority 1)⟩

/-- Options on distinct fields combine and commute, the order in which the loop of each
`WithLoadAssignmentPolicy` call yields its map being given with the call. For every list of
options of one family whose target fields are pairwise distinct, the constructor returns the
object that holds, in the field of each option, the value that the option gives it and, in
every other field, the zero value; and every rearrangement of the list yields an equal
object. -/
theorem options_combine_and_commute (M : Type) :
    (∀ l : List (LBEndpointOption M), (l.map LBEndpointOption.target).Nodup →
      (∀ s ∈ l, s.target.agree (NewLbEndpoint (l.map LBEndpointOption.opt))
        (s.opt (envoyendpoint.LbEndpoint.zero M)))
      ∧ (∀ f, f ∉ l.map LBEndpointOption.target →
        f.agree (NewLbEndpoint (l.map LBEndpointOption.opt)) (envoyendpoint.LbEndpoint.zero M))
      ∧ ∀ l', l.Perm l' →
        NewLbEndpoint (l'.map LBEndpointOption.opt) =
          NewLbEndpoint (l.map LBEndpointOption.opt))
    ∧ (∀ l : List EndpointOption, (l.map EndpointOption.target).Nodup →
      (∀ s ∈ l, s.target.agree (NewEndpoint (l.map EndpointOption.opt))
        (s.opt envoyendpoint.Endpoint.zero))
      ∧ (∀ f, f ∉ l.map EndpointOption.target →
        f.agree (NewEndpoint (l.map EndpointOption.opt)) envoyendpoint.Endpoint.zero)
      ∧ ∀ l', l.Perm l' →
        NewEndpoint (l'.map EndpointOption.opt) = NewEndpoint (l.map EndpointOption.opt))
    ∧ (∀ l : List (CLAOption M), (l.map CLAOption.target).Nodup →
      (∀ s ∈ l, s.target.agree (NewLoadAssignment (l.map CLAOption.opt))
        (s.opt (envoyendpoint.ClusterLoadAssignment.zero M)))
      ∧ (∀ f, f ∉ l.map CLAOption.target →
        f.agree (NewLoadAssignment (l.map CLAOption.opt))
          (envoyendpoint.ClusterLoadAssignment.zero M))
      ∧ ∀ l', l.Perm l' →
        NewLoadAssignment (l'.map CLAOption.opt) = NewLoadAssignment (l.map CLAOption.opt))
    ∧ (∀ l : List (LLEOption M), (l.map LLEOption.target).Nodup →
      (∀ s ∈ l, s.target.agree (NewLocalityEndpoints (l.map LLEOption.opt))
        (s.opt (envoyendpoint.LocalityLbEndpoints.zero M)))
      ∧ (∀ f, f ∉ l.map LLEOption.target →
        f.agree (NewLocalityEndpoints (l.map LLEOption.opt))
          (envoyendpoint.LocalityLbEndpoints.zero M))
      ∧ ∀ l', l.Perm l' →
        NewLocalityEndpoints (l'.map LLEOption.opt) =
          NewLocalityEndpoints (l.map LLEOption.opt)) := by
  refine ⟨?_, ?_, ?_, ?_⟩
  · intro l hl
    exact ⟨fun s hs => applyOpts_set LBEndpointOption.opt LBEndpointOption.target
        LbEndpointField.agree LbEndpointField_agree_trans LbEndpointField_agree_refl
        (fun s x f => LBEndpointOption_frame s x f) LBEndpointOption_set l hl _ _ s hs,
      fun f hf => applyOpts_frame LBEndpointOption.opt LBEndpointOption.target
        LbEndpointField.agree LbEndpointField_agree_trans LbEndpointField_agree_refl
        (fun s x f => LBEndpointOption_frame s x f) l _ f hf,
      fun l' hp => applyOpts_perm LBEndpointOption.opt LBEndpointOption.target
        LbEndpointField.agree LbEndpointField_agree_trans LbEndpointField_agree_symm
        LbEndpointField_agree_refl (fun s x f => LBEndpointOption_frame s x f)
        LBEndpointOption_set LbEndpointField_agree_ext l l' hl hp _⟩
  · intro l hl
    exact ⟨fun s hs => applyOpts_set EndpointOption.opt EndpointOption.target
        EndpointField.agree EndpointField_agree_trans EndpointField_agree_refl
        (fun s x f => EndpointOption_frame s x f) EndpointOption_set l hl _ _ s hs,
      fun f hf => applyOpts_frame EndpointOption.opt EndpointOption.target
        EndpointField.agree EndpointField_agree_trans EndpointField_agree_refl
        (fun s x f => EndpointOption_frame s x f) l _ f hf,
      fun l' hp => applyOpts_perm EndpointOption.opt EndpointOption.target
        EndpointField.agree EndpointField_agree_trans EndpointField_agree_symm
        EndpointField_agree_refl (fun s x f => EndpointOption_frame s x f)
        EndpointOption_set EndpointField_agree_ext l l' hl hp _⟩
  · intro l hl
    exact ⟨fun s hs => applyOpts_set CLAOption.opt CLAOption.target
        ClusterLoadAssignmentField.agree ClusterLoadAssignmentField_agree_trans
        ClusterLoadAssignmentField_agree_refl (fun s x f => CLAOption_frame s x f)
        CLAOption_set l hl _ _ s hs,
      fun f hf => applyOpts_frame CLAOption.opt CLAOption.target
        ClusterLoadAssignmentField.agree ClusterLoadAssignmentField_agree_trans
        ClusterLoadAssignmentField_agree_refl (fun s x f => CLAOption_frame s x f) l _ f hf,
      fun l' hp => applyOpts_perm CLAOption.opt CLAOption.target
        ClusterLoadAssignmentField.agree ClusterLoadAssignmentField_agree_trans
        ClusterLoadAssignmentField_agree_symm ClusterLoadAssignmentField_agree_refl
        (fun s x f => CLAOption_frame s x f) CLAOption_set
        ClusterLoadAssignmentField_agree_ext l l' hl hp _⟩
  · intro l hl
    exact ⟨fun s hs => applyOpts_set LLEOption.opt LLEOption.target
        LocalityLbEndpointsField.agree LocalityLbEndpointsField_agree_trans
        LocalityLbEndpointsField_agree_refl (fun s x f => LLEOption_frame s x f)
        LLEOption_set l hl _ _ s hs,
      fun f hf => applyOpts_frame LLEOption.opt LLEOption.target
        LocalityLbEndpointsField.agree LocalityLbEndpointsField_agree_trans
        LocalityLbEndpointsField_agree_refl (fun s x f => LLEOption_frame s x f) l _ f hf,
      fun l' hp => applyOpts_perm LLEOption.opt LLEOption.target
        LocalityLbEndpointsField.agree LocalityLbEndpointsField_agree_trans
        LocalityLbEndpointsField_agree_symm LocalityLbEndpointsField_agree_refl
        (fun s x f => LLEOption_frame s x f) LLEOption_set
        LocalityLbEndpointsField_agree_ext l l' hl hp _⟩

/-- The test `with_lots_of_opts` of the `Endpoint` family: the three options in the order of
the test and in another order build the same object, the one that the test expects. -/
theorem options_combine_and_commute_on_test :
    NewEndpoint [WithSocketAddress "127.0.0.1" 8080 corev3.SocketAddress_TCP,
        WithHostname "my-hostname.com",
        WithActiveHealthCheckOverrides "my-hostname.com" 8080 true] =
      NewEndpoint [WithActiveHealthCheckOverrides "my-hostname.com" 8080 true,
        WithSocketAddress "127.0.0.1" 8080 corev3.SocketAddress_TCP,
        WithHostname "my-hostname.com"]
    ∧ (NewEndpoint [WithActiveHealthCheckOverrides "my-hostname.com" 8080 true,
        WithSocketAddress "127.0.0.1" 8080 corev3.SocketAddress_TCP,
        WithHostname "my-hostname.com"]).Hostname = "my-hostname.com" :=
  ⟨((options_combine_and_commute Unit).2.1
      [.WithActiveHealthCheckOverrides "my-hostname.com" 8080 true,
        .WithSocketAddress "127.0.0.1" 8080 corev3.SocketAddress_TCP,
        .WithHostname "my-hostname.com"]
      (by simp [EndpointOption.target])).2.2
      [.WithSocketAddress "127.0.0.1" 8080 corev3.SocketAddress_TCP,
        .WithHostname "my-hostname.com",
        .WithActiveHealthCheckOverrides "my-hostname.com" 8080 true]
      ((List.Perm.swap _ _ _).trans (List.Perm.cons _ (List.Perm.swap _ _ _))),
    ((options_combine_and_commute Unit).2.1
      [.WithActiveHealthCheckOverrides "my-hostname.com" 8080 true,
        .WithSocketAddress "127.0.0.1" 8080 corev3.SocketAddress_TCP,
        .WithHostname "my-hostname.com"]
      (by simp [EndpointOption.target])).1 (.WithHostname "my-hostname.com") (by simp)⟩

/-! ## The load-assignment policy -/

/-- The loop over the map appends one drop overload for each entry that it yields, in the
order in which it yields them. -/
theorem appendDropOverloads_some
    (acc : List (Option envoyendpoint.ClusterLoadAssignment_Policy_DropOverload))
    (order : List (String × Int)) :
    appendDropOverloads (some acc) order =
      some (acc ++ order.map (fun entry => some {
        Category := entry.1
        DropPercentage := some { Numerator := uint32 entry.2, Denominator := 0 } })) := by
  induction order generalizing acc with
  | nil => simp [appendDropOverloads]
  | cons entry rest ih =>
    obtain ⟨category, percent⟩ := entry
    simp only [appendDropOverloads, Slice.append, ih, List.map_cons, List.append_assoc,
      List.singleton_append]

/-- C25: `WithLoadAssignmentPolicy(f, d, dropPercentages)` sets `Policy` to a new policy with
`OverprovisioningFactor` the factor as a `uint32`, `EndpointStaleAfter` the duration `d`, and
a list `DropOverloads` that is not nil and holds exactly one entry for each key of the map,
with the key as `Category`, the percentage as a `uint32` in `Numerator` and no denominator
set; its length is the size of the map, and it is empty for a map without entries. -/
theorem C25_load_assignment_policy_contents (M : Type)
    (cla : envoyendpoint.ClusterLoadAssignment M) (f d : Int) (dropPercentages : GoMap)
    (order : dropPercentages.RangeOrder) :
    ∃ dropOverloads : List (Option envoyendpoint.ClusterLoadAssignment_Policy_DropOverload),
      (WithLoadAssignmentPolicy f d dropPercentages order cla).Policy =
        some { OverprovisioningFactor := some { Value := uint32 f }
               EndpointStaleAfter := some (durationpb.New d)
               DropOverloads := some dropOverloads }
      ∧ (durationpb.New d).Seconds * 1000000000 + (durationpb.New d).Nanos = d
      ∧ dropOverloads.Perm (dropPercentages.entries.map (fun entry => some {
          Category := entry.1
          DropPercentage := some { Numerator := uint32 entry.2, Denominator := 0 } }))
      ∧ dropOverloads.length = dropPercentages.entries.length
      ∧ (dropPercentages.entries = [] → dropOverloads = []) := by
  refine ⟨order.val.map (fun entry => some {
      Category := entry.1
      DropPercentage := some { Numerator := uint32 entry.2, Denominator := 0 } }),
    ?_, ?_, order.property.map _, ?_, ?_⟩
  · simp only [WithLoadAssignmentPolicy, appendDropOverloads_some, List.nil_append]
  · simp only [durationpb.New]
    omega
  · rw [List.length_map]
    exact order.property.length_eq
  · intro h
    have hl : dropPercentages.entries.length = 0 := by rw [h]; rfl
    have hnil := List.length_eq_zero.1 (order.property.length_eq.trans hl)
    rw [hnil]
    rfl

/-- C25 on the map without entries: the drop overloads are the empty list, not nil. -/
theorem C25_load_assignment_policy_contents_witness :
    (WithLoadAssignmentPolicy 100 time.Hour ⟨[], List.nodup_nil⟩ ⟨[], List.Perm.refl _⟩
        (envoyendpoint.ClusterLoadAssignment.zero Unit)).Policy =
      some { OverprovisioningFactor := some { Value := 100 }
             EndpointStaleAfter := some { Seconds := 3600, Nanos := 0 }
             DropOverloads := some [] } := by
  obtain ⟨dropOverloads, h1, -, -, -, h2⟩ :=
    C25_load_assignment_policy_contents Unit (envoyendpoint.ClusterLoadAssignment.zero Unit)
      100 time.Hour ⟨[], List.nodup_nil⟩ ⟨[], List.Perm.refl _⟩
  rw [h1, h2 rfl]
  rfl

/-- C26 fails on the code for the map of the test, `{"throttle": 10, "lb": 50}`: on a run in
which the loop over the map yields "lb" first, the drop overloads are [lb 50, throttle 10],
not the list [throttle 10, lb 50] that the test expects and that the run yielding "throttle"
first produces. The order follows the iteration order of the map. -/
theorem C26_order_follows_map_iteration :
    (NewLoadAssignment [WithLoadAssignmentPolicy 100 time.Hour testDropPercentages
        throttleFirst] : envoyendpoint.ClusterLoadAssignment Unit).Policy =
      some { OverprovisioningFactor := some { Value := 100 }
             EndpointStaleAfter := some (durationpb.New time.Hour)
             DropOverloads := some [
               some { Category := "throttle"
                      DropPercentage := some { Numerator := 10, Denominator := 0 } },
               some { Category := "lb"
                      DropPercentage := some { Numerator := 50, Denominator := 0 } }] }
    ∧ (NewLoadAssignment [WithLoadAssignmentPolicy 100 time.Hour testDropPercentages
        lbFirst] : envoyendpoint.ClusterLoadAssignment Unit).Policy =
      some { OverprovisioningFactor := some { Value := 100 }
             EndpointStaleAfter := some (durationpb.New time.Hour)
             DropOverloads := some [
               some { Category := "lb"
                      DropPercentage := some { Numerator := 50, Denominator := 0 } },
               some { Category := "throttle"
                      DropPercentage := some { Numerator := 10, Denominator := 0 } }] }
    ∧ (NewLoadAssignment [WithLoadAssignmentPolicy 100 time.Hour testDropPercentages
        lbFirst] : envoyendpoint.ClusterLoadAssignment Unit) ≠
      NewLoadAssignment [WithLoadAssignmentPolicy 100 time.Hour testDropPercentages
        throttleFirst] := by
  refine ⟨rfl, rfl, ?_⟩
  intro h
  have h2 := congrArg (fun cla => cla.Policy.bind (fun p => p.DropOverloads)) h
  simp [NewLoadAssignment, applyOpts, WithLoadAssignmentPolicy, appendDropOverloads,
    Slice.append, lbFirst, throttleFirst] at h2

/-- C24 fails on the code for the two options of the load-assignment test, which write the
distinct fields `Policy` and `ClusterName`: built from the list in one order on a run in which
the loop over the map yields "throttle" first, and from the rearranged list on a run in which
it yields "lb" first, the two objects differ in their drop overloads. The cause is the one of
C26, the order of the drop overloads following the iteration order of the map. -/
theorem C24_rearranged_options_differ :
    (NewLoadAssignment [WithLoadAssignmentPolicy 100 time.Hour testDropPercentages
        throttleFirst, WithClusterName "test-cluster"] :
        envoyendpoint.ClusterLoadAssignment Unit) ≠
      NewLoadAssignment [WithClusterName "test-cluster",
        WithLoadAssignmentPolicy 100 time.Hour testDropPercentages lbFirst]
    ∧ (NewLoadAssignment [WithLoadAssignmentPolicy 100 time.Hour testDropPercentages
        throttleFirst, WithClusterName "test-cluster"] :
        envoyendpoint.ClusterLoadAssignment Unit) =
      NewLoadAssignment [WithClusterName "test-cluster",
        WithLoadAssignmentPolicy 100 time.Hour testDropPercentages throttleFirst] := by
  refine ⟨?_, rfl⟩
  intro h
  have h2 := congrArg (fun cla => cla.Policy.bind (fun p => p.DropOverloads)) h
  simp [NewLoadAssignment, applyOpts, WithLoadAssignmentPolicy, WithClusterName,
    appendDropOverloads, Slice.append, lbFirst, throttleFirst] at h2

/-! ## Order of application -/

/-- C27: each constructor folds its option list, in the order of the arguments, over the zero
value; the last option is applied last; an option overwrites what an earlier option on the
same field wrote; and of `WithEndpoint` and `WithNamedEndpoint`, which both write
`HostIdentifier`, the later one determines the field. -/
theorem C27_last_writer_wins (M : Type) :
    ((∀ opts : List (LBEndpointOpt M),
        NewLbEndpoint opts =
          opts.foldl (fun acc opt => opt acc) (envoyendpoint.LbEndpoint.zero M))
      ∧ (∀ opts : List EndpointOpt,
        NewEndpoint opts = opts.foldl (fun acc opt => opt acc) envoyendpoint.Endpoint.zero)
      ∧ (∀ opts : List (CLAOpt M),
        NewLoadAssignment opts =
          opts.foldl (fun acc opt => opt acc) (envoyendpoint.ClusterLoadAssignment.zero M))
      ∧ (∀ opts : List (LLEOpt M),
        NewLocalityEndpoints opts =
          opts.foldl (fun acc opt => opt acc) (envoyendpoint.LocalityLbEndpoints.zero M)))
    ∧ ((∀ (opts : List (LBEndpointOpt M)) (last : LBEndpointOpt M),
        NewLbEndpoint (opts ++ [last]) = last (NewLbEndpoint opts))
      ∧ (∀ (opts : List EndpointOpt) (last : EndpointOpt),
        NewEndpoint (opts ++ [last]) = last (NewEndpoint opts))
      ∧ (∀ (opts : List (CLAOpt M)) (last : CLAOpt M),
        NewLoadAssignment (opts ++ [last]) = last (NewLoadAssignment opts))
      ∧ (∀ (opts : List (LLEOpt M)) (last : LLEOpt M),
        NewLocalityEndpoints (opts ++ [last]) = last (NewLocalityEndpoints opts)))
    ∧ ((∀ (s later : LBEndpointOption M) (x : envoyendpoint.LbEndpoint M),
        s.target = later.target → later.opt (s.opt x) = later.opt x)
      ∧ (∀ (s later : EndpointOption) (x : envoyendpoint.Endpoint),
        s.target = later.target → later.opt (s.opt x) = later.opt x)
      ∧ (∀ (s later : CLAOption M) (x : envoyendpoint.ClusterLoadAssignment M),
        s.target = later.target → later.opt (s.opt x) = later.opt x)
      ∧ (∀ (s later : LLEOption M) (x : envoyendpoint.LocalityLbEndpoints M),
        s.target = later.target → later.opt (s.opt x) = later.opt x))
    ∧ (∀ (e : Option envoyendpoint.Endpoint) (n : String),
      (NewLbEndpoint [WithEndpoint e, WithNamedEndpoint n] : envoyendpoint.LbEndpoint M) =
        { HostIdentifier := some (.LbEndpoint_EndpointName n), HealthStatus := 0,
          Metadata := none, LoadBalancingWeight := none }
      ∧ (NewLbEndpoint [WithNamedEndpoint n, WithEndpoint e] : envoyendpoint.LbEndpoint M) =
        { HostIdentifier := some (.LbEndpoint_Endpoint e), HealthStatus := 0,
          Metadata := none, LoadBalancingWeight := none }) := by
  refine ⟨⟨fun opts => applyOpts_eq_foldl opts _, fun opts => applyOpts_eq_foldl opts _,
      fun opts => applyOpts_eq_foldl opts _, fun opts => applyOpts_eq_foldl opts _⟩,
    ⟨fun opts last => applyOpts_concat opts last _, fun opts last => applyOpts_concat opts last _,
      fun opts last => applyOpts_concat opts last _,
      fun opts last => applyOpts_concat opts last _⟩,
    ⟨?_, ?_, ?_, ?_⟩, fun e n => ⟨rfl, rfl⟩⟩
  · intro s later x h
    cases s <;> cases later <;> first
      | rfl
      | exact absurd h (by simp [LBEndpointOption.target])
  · intro s later x h
    cases s <;> cases later <;> first
      | rfl
      | exact absurd h (by simp [EndpointOption.target])
  · intro s later x h
    cases s <;> cases later <;> first
      | rfl
      | exact absurd h (by simp [CLAOption.target])
  · intro s later x h
    cases s <;> cases later <;> first
      | rfl
      | exact absurd h (by simp [LLEOption.target])

/-- C27 on an endpoint named after an endpoint was given: the name wins, and no trace of
the endpoint is left. -/
theorem C27_last_writer_wins_witness :
    WithNamedEndpoint "my-endpoint"
        (WithEndpoint (some testEndpoint) (envoyendpoint.LbEndpoint.zero Unit)) =
      WithNamedEndpoint "my-endpoint" (envoyendpoint.LbEndpoint.zero Unit) :=
  (C27_last_writer_wins Unit).2.2.1.1 (.WithEndpoint (some testEndpoint))
    (.WithNamedEndpoint "my-endpoint") (envoyendpoint.LbEndpoint.zero Unit) rfl

/-! ## Integer arguments -/

/-- C28: the integer arguments of the options are stored as `uint32`, which is the argument
itself when it lies in the range of `uint32` and the argument modulo 2^32 otherwise: the
weight of `WithLBWeight` and of `WithLocalityLBWeight`, the priority of `WithPriority`, the
port of `WithSocketAddress` and of `WithActiveHealthCheckOverrides`, the factor and the
percentages of `WithLoadAssignmentPolicy`. `WithLBWeight(-1)` stores 4294967295. -/
theorem C28_integers_modulo_two_to_the_32 (M : Type) :
    ((∀ (x : envoyendpoint.LbEndpoint M) (weight : Int),
        (WithLBWeight weight x).LoadBalancingWeight = some { Value := uint32 weight })
      ∧ (∀ (x : envoyendpoint.LocalityLbEndpoints M) (weight : Int),
        (WithLocalityLBWeight weight x).LoadBalancingWeight =
          some { Value := uint32 weight })
      ∧ (∀ (x : envoyendpoint.LocalityLbEndpoints M) (priority : Int),
        (WithPriority priority x).Priority = uint32 priority)
      ∧ (∀ (x : envoyendpoint.Endpoint) (host : String) (port protocol : Int),
        (WithSocketAddress host port protocol x).Address =
          some { Address := some (.Address_SocketAddress (some {
            Protocol := protocol, Address := host,
            PortSpecifier := some (.SocketAddress_PortValue (uint32 port)) })) })
      ∧ (∀ (x : envoyendpoint.Endpoint) (hostname : String) (port : Int) (disable : Bool),
        ((WithActiveHealthCheckOverrides hostname port disable x).HealthCheckConfig.map
          (fun c => c.PortValue)) = some (uint32 port))
      ∧ (∀ (x : envoyendpoint.ClusterLoadAssignment M) (factor stale : Int) (m : GoMap)
          (order : m.RangeOrder),
        (WithLoadAssignmentPolicy factor stale m order x).Policy.bind
            (fun p => p.OverprovisioningFactor) = some { Value := uint32 factor }
        ∧ (WithLoadAssignmentPolicy factor stale m order x).Policy.bind
            (fun p => p.DropOverloads) =
          some (order.val.map (fun entry => some {
            Category := entry.1
            DropPercentage := some { Numerator := uint32 entry.2, Denominator := 0 } }))))
    ∧ (∀ a : Int, 0 ≤ a → a < 2 ^ 32 → (uint32 a : Int) = a)
    ∧ (∀ a : Int, (uint32 a : Int) = a % 2 ^ 32 ∧ uint32 a < 2 ^ 32)
    ∧ uint32 (-1) = 4294967295
    ∧ (WithLBWeight (-1) (envoyendpoint.LbEndpoint.zero M)).LoadBalancingWeight =
      some { Value := 4294967295 } := by
  refine ⟨⟨fun _ _ => rfl, fun _ _ => rfl, fun _ _ => rfl, fun _ _ _ _ => rfl,
      fun _ _ _ _ => rfl, ?_⟩, ?_, ?_, by decide, ?_⟩
  · intro x factor stale m order
    refine ⟨rfl, ?_⟩
    simp only [WithLoadAssignmentPolicy, appendDropOverloads_some, List.nil_append,
      Option.some_bind]
  · intro a h0 h1
    simp only [uint32]
    rw [Int.toNat_of_nonneg (Int.emod_nonneg _ (by norm_num))]
    exact Int.emod_eq_of_lt h0 h1
  · intro a
    have hpos : (0 : Int) < 2 ^ 32 := by norm_num
    have h1 := Int.emod_nonneg a (ne_of_gt hpos)
    have h2 := Int.emod_lt_of_pos a hpos
    simp only [uint32]
    refine ⟨Int.toNat_of_nonneg h1, ?_⟩
    omega
  · have : uint32 (-1) = 4294967295 := by decide
    simp only [WithLBWeight, this]

/-- C28 on the values of the tests: 10, 70, 1, 8080 and 100 are stored unchanged. -/
theorem C28_integers_modulo_two_to_the_32_witness :
    (uint32 10 : Int) = 10 ∧ (uint32 70 : Int) = 70 ∧ (uint32 1 : Int) = 1
    ∧ (uint32 8080 : Int) = 8080 ∧ (uint32 100 : Int) = 100 :=
  ⟨(C28_integers_modulo_two_to_the_32 Unit).2.1 10 (by decide) (by decide),
    (C28_integers_modulo_two_to_the_32 Unit).2.1 70 (by decide) (by decide),
    (C28_integers_modulo_two_to_the_32 Unit).2.1 1 (by decide) (by decide),
    (C28_integers_modulo_two_to_the_32 Unit).2.1 8080 (by decide) (by decide),
    (C28_integers_modulo_two_to_the_32 Unit).2.1 100 (by decide) (by decide)⟩

end gocontrolplane.builder

/-! # Theorems on the example -/

namespace gocontrolplane.internal_example

/-! ## The snapshots of the example -/

theorem Slice_toList_append {α : Type} (s : Slice α) (x : α) :
    (s.append x).toList = s.toList ++ [x] := by
  cases s <;> rfl

theorem Slice_ofList_toList_append {α : Type} (l : List α) (x : α) :
    (Slice.ofList l).append x = Slice.ofList (l ++ [x]) := by
  cases l <;> rfl

/-- The loop of `createSnapshot` appends, for each recipe in order, one cluster, one route and
one listener, when every listener can be marshalled. -/
theorem createSnapshot_loop_eq (I : Imports) (recipes : List snapshotRecipe)
    (hMarshal : ∀ r ∈ recipes, ∃ pbst, I.MarshalAny (makeHTTPListener.manager I r) = some pbst)
    (clusters routes listeners : List (types.Resource I.Metadata I.Any)) :
    ∃ made : List (listener.Listener I.Any),
      List.Forall₂ (fun r l => makeHTTPListener I r = some l) recipes made
      ∧ createSnapshot.loop I (Slice.ofList clusters) (Slice.ofList routes)
          (Slice.ofList listeners) recipes =
        some (Slice.ofList (clusters ++ recipes.map
            (fun r => types.Resource.Cluster (makeCluster I.Metadata r))),
          Slice.ofList (routes ++ recipes.map
            (fun r => types.Resource.RouteConfiguration (makeRoute r))),
          Slice.ofList (listeners ++ made.map (fun l => types.Resource.Listener l))) := by
  induction recipes generalizing clusters routes listeners with
  | nil => exact ⟨[], List.Forall₂.nil, by simp [createSnapshot.loop]⟩
  | cons r rest ih =>
    obtain ⟨pbst, hp⟩ := hMarshal r (List.mem_cons_self _ _)
    have hl : ∃ l, makeHTTPListener I r = some l := by
      simp only [makeHTTPListener, hp]
      exact ⟨_, rfl⟩
    obtain ⟨l, hl⟩ := hl
    obtain ⟨made, hmade, hloop⟩ := ih (fun r' hr' => hMarshal r' (List.mem_cons_of_mem _ hr'))
      (clusters ++ [types.Resource.Cluster (makeCluster I.Metadata r)])
      (routes ++ [types.Resource.RouteConfiguration (makeRoute r)])
      (listeners ++ [types.Resource.Listener l])
    refine ⟨l :: made, List.Forall₂.cons hl hmade, ?_⟩
    simp only [createSnapshot.loop, hl, Slice_ofList_toList_append, hloop, List.map_cons,
      List.append_assoc, List.singleton_append]

/-- `createSnapshot` returns the snapshot with the given version, in decimal, one cluster, one
route and one listener for each recipe in order, and no other resource, when every listener
can be marshalled. -/
theorem createSnapshot_eq (I : Imports) (recipes : List snapshotRecipe) (version : Int)
    (hMarshal : ∀ r ∈ recipes, ∃ pbst, I.MarshalAny (makeHTTPListener.manager I r) = some pbst) :
    ∃ made : List (listener.Listener I.Any),
      List.Forall₂ (fun r l => makeHTTPListener I r = some l) recipes made
      ∧ createSnapshot I recipes version =
        some (I.NewSnapshot (strconv.Itoa version) none
          (Slice.ofList (recipes.map
            (fun r => types.Resource.Cluster (makeCluster I.Metadata r))))
          (Slice.ofList (recipes.map
            (fun r => types.Resource.RouteConfiguration (makeRoute r))))
          (Slice.ofList (made.map (fun l => types.Resource.Listener l)))
          none none none) := by
  obtain ⟨made, hmade, hloop⟩ := createSnapshot_loop_eq I recipes hMarshal [] [] []
  refine ⟨made, hmade, ?_⟩
  simp only [List.nil_append] at hloop
  have hloop' : createSnapshot.loop I none none none recipes = some
      (Slice.ofList (recipes.map (fun r => types.Resource.Cluster (makeCluster I.Metadata r))),
        Slice.ofList (recipes.map (fun r => types.Resource.RouteConfiguration (makeRoute r))),
        Slice.ofList (made.map (fun l => types.Resource.Listener l))) := hloop
  simp only [createSnapshot, hloop']

/-- The slice expression `recipes[0:(i%6)]` is within bounds for every index that is not
negative. -/
theorem sliceTo_getBasicRecipes (i : Nat) :
    sliceTo getBasicRecipes ((i : Int).tmod 6) = some (getBasicRecipes.take (i % 6)) := by
  have h6 : ((i : Int).tmod 6) = ((i % 6 : Nat) : Int) := rfl
  have hlt : i % 6 < 6 := Nat.mod_lt _ (by decide)
  have hlen : getBasicRecipes.length = 6 := rfl
  rw [h6]
  simp only [sliceTo, hlen, Int.toNat_ofNat]
  rw [if_pos]
  constructor
  · exact Int.ofNat_nonneg _
  · exact_mod_cast hlt.le

/-- The loop of `CreateSnapshots`, entered at the index `k` with `steps` iterations to go,
appends the snapshots of the indices `k`, `k + 1`, ... in order. -/
theorem CreateSnapshots_loop_eq (I : Imports)
    (hMarshal : ∀ r ∈ getBasicRecipes,
      ∃ pbst, I.MarshalAny (makeHTTPListener.manager I r) = some pbst)
    (steps k : Nat) (acc : List I.Snapshot) :
    ∃ news : List I.Snapshot, news.length = steps
      ∧ CreateSnapshots.loop I getBasicRecipes steps (k : Int) (Slice.ofList acc) =
        some (Slice.ofList (acc ++ news))
      ∧ ∀ j, j < steps →
        (news[j]?) =
          createSnapshot I (getBasicRecipes.take ((k + j) % 6)) ((k + j : Nat) : Int) := by
  induction steps generalizing k acc with
  | zero =>
    exact ⟨[], rfl, by simp [CreateSnapshots.loop], fun j hj => absurd hj (Nat.not_lt_zero _)⟩
  | succ steps ih =>
    have hsub : ∀ r ∈ getBasicRecipes.take (k % 6),
        ∃ pbst, I.MarshalAny (makeHTTPListener.manager I r) = some pbst :=
      fun r hr => hMarshal r (List.take_subset _ _ hr)
    obtain ⟨s, hs⟩ : ∃ s, createSnapshot I (getBasicRecipes.take (k % 6)) (k : Int) = some s := by
      obtain ⟨made, -, h⟩ := createSnapshot_eq I (getBasicRecipes.take (k % 6)) (k : Int) hsub
      exact ⟨_, h⟩
    obtain ⟨news, hlen, hloop, hnews⟩ := ih (k + 1) (acc ++ [s])
    refine ⟨s :: news, by rw [List.length_cons, hlen], ?_, ?_⟩
    · simp only [CreateSnapshots.loop, sliceTo_getBasicRecipes, hs,
        Slice_ofList_toList_append]
      have hk : ((k : Int) + 1) = ((k + 1 : Nat) : Int) := by push_cast; rfl
      rw [hk, hloop, List.append_assoc, List.singleton_append]
    · intro j hj
      cases j with
      | zero => simp only [List.getElem?_cons_zero, Nat.add_zero, hs]
      | succ j =>
        simp only [List.getElem?_cons_succ]
        rw [hnews j (by omega)]
        have : k + 1 + j = k + (j + 1) := by omega
        rw [this]

/-- C30: when the listeners of the basic recipes can be marshalled, `CreateSnapshots(counts)`
returns exactly max(counts, 0) snapshots. For each index `i`, the slice expression
`recipes[0:(i%6)]` is within bounds; the snapshot has the version `i` in decimal and holds one
cluster, one route and one listener for each of the first `i mod 6` basic recipes, in order,
and nothing else; it holds no resource when `i` is divisible by 6, as at index 0; and the
sixth recipe, that of "listener_5", is in no snapshot. -/
theorem C30_example_snapshots (I : Imports)
    (hMarshal : ∀ r ∈ getBasicRecipes,
      ∃ pbst, I.MarshalAny (makeHTTPListener.manager I r) = some pbst)
    (counts : Int) :
    ∃ snapshots : List I.Snapshot,
      CreateSnapshots I counts = some (Slice.ofList snapshots)
      ∧ snapshots.length = (max counts 0).toNat
      ∧ (0 < counts → snapshots[0]? =
          some (I.NewSnapshot "0" none none none none none none none))
      ∧ ∀ i, i < snapshots.length →
        i % 6 ≤ 5
        ∧ sliceTo getBasicRecipes ((i : Int).tmod 6) = some (getBasicRecipes.take (i % 6))
        ∧ (∃ made : List (listener.Listener I.Any),
            List.Forall₂ (fun r l => makeHTTPListener I r = some l)
              (getBasicRecipes.take (i % 6)) made
            ∧ snapshots[i]? =
              some (I.NewSnapshot (toString i) none
                (Slice.ofList ((getBasicRecipes.take (i % 6)).map
                  (fun r => types.Resource.Cluster (makeCluster I.Metadata r))))
                (Slice.ofList ((getBasicRecipes.take (i % 6)).map
                  (fun r => types.Resource.RouteConfiguration (makeRoute r))))
                (Slice.ofList (made.map (fun l => types.Resource.Listener l)))
                none none none))
        ∧ (i % 6 = 0 → snapshots[i]? =
            some (I.NewSnapshot (toString i) none none none none none none none))
        ∧ ∀ r ∈ getBasicRecipes.take (i % 6), r.listenerName ≠ "listener_5" := by
  obtain ⟨news, hlen, hloop, hnews⟩ := CreateSnapshots_loop_eq I hMarshal counts.toNat 0 []
  have hsnap : ∀ i, i < news.length →
      ∃ made : List (listener.Listener I.Any),
        List.Forall₂ (fun r l => makeHTTPListener I r = some l)
          (getBasicRecipes.take (i % 6)) made
        ∧ news[i]? =
          some (I.NewSnapshot (toString i) none
            (Slice.ofList ((getBasicRecipes.take (i % 6)).map
              (fun r => types.Resource.Cluster (makeCluster I.Metadata r))))
            (Slice.ofList ((getBasicRecipes.take (i % 6)).map
              (fun r => types.Resource.RouteConfiguration (makeRoute r))))
            (Slice.ofList (made.map (fun l => types.Resource.Listener l)))
            none none none) := by
    intro i hi
    have h := hnews i (by omega)
    simp only [Nat.zero_add] at h
    obtain ⟨made, hmade, hs⟩ := createSnapshot_eq I (getBasicRecipes.take (i % 6)) (i : Int)
      (fun r hr => hMarshal r (List.take_subset _ _ hr))
    exact ⟨made, hmade, by rw [h, hs]; rfl⟩
  have hempty : ∀ i, i < news.length → i % 6 = 0 → news[i]? =
      some (I.NewSnapshot (toString i) none none none none none none none) := by
    intro i hi h0
    obtain ⟨made, hmade, hs⟩ := hsnap i hi
    rw [h0] at hmade hs
    simp only [List.take_zero] at hmade hs
    cases hmade
    exact hs
  refine ⟨news, ?_, ?_, ?_, ?_⟩
  · simpa [CreateSnapshots] using hloop
  · rw [hlen]; omega
  · intro hpos
    exact hempty 0 (by omega) rfl
  · intro i hi
    have hlt : i % 6 < 6 := Nat.mod_lt _ (by decide)
    refine ⟨by omega, sliceTo_getBasicRecipes i, hsnap i hi, hempty i hi, ?_⟩
    intro r hr
    have h5 : r ∈ getBasicRecipes.take 5 :=
      List.take_subset_take_left _ (by omega) hr
    have hall : ∀ r' ∈ getBasicRecipes.take 5, r'.listenerName ≠ "listener_5" := by decide
    exact hall r h5

/-- C30 on the sample imports with seven snapshots: the first and the seventh hold no
resource, and the versions are the indices. -/
theorem C30_example_snapshots_witness :
    ∃ snapshots : List sampleImports.Snapshot,
      CreateSnapshots sampleImports 7 = some (Slice.ofList snapshots)
      ∧ snapshots.length = 7
      ∧ snapshots[0]? =
        some (sampleImports.NewSnapshot "0" none none none none none none none)
      ∧ snapshots[6]? =
        some (sampleImports.NewSnapshot "6" none none none none none none none) := by
  obtain ⟨snapshots, h1, h2, h3, h4⟩ :=
    C30_example_snapshots sampleImports (fun _ _ => ⟨_, rfl⟩) 7
  have hlen : snapshots.length = 7 := by rw [h2]; decide
  exact ⟨snapshots, h1, hlen, h3 (by decide), (h4 6 (by omega)).2.2.2.1 rfl⟩

end gocontrolplane.internal_example
